import Mathlib

/- Formal model of the author-style-mcp operations layer
(`author_style_operations.py` over the data tables of `author_style_taxonomy.py`).

Modelling conventions:
* Python floats are modelled by exact rationals (`ℚ`); the decimal literals of the
  source tables are exact in this model.
* Python's built-in `round` (banker's rounding, round-half-to-even) is `pyRoundZ`
  (to an integer) and `pyRound` (to `n` decimal digits).
* `round(math.sqrt s, 4)` is `sqrtRound4 s`; see its doc comment.
* Fallible operations (Python `raise ValueError`) return `Except String _`, carrying
  the source's message text; a failing call returns `.error _` and no partial result.
* Python dicts keyed by the 8 canonical dimension names are modelled as total
  functions out of the 8-constructor type `Param`; dicts with author-id keys are
  association lists in insertion order.
-/

namespace AuthorStyle

/-- The 8 canonical style dimensions, in the globally fixed order of
`PARAMETER_NAMES` in the source. -/
inductive Param where
  | syntactic_density
  | sensory_concreteness
  | ornamental_register
  | tension_visibility
  | tension_temporality
  | reality_stability
  | interiority
  | temporal_mode
  deriving DecidableEq, Repr

/-- The canonical ordered list of the 8 dimensions (`PARAMETER_NAMES`). -/
def PARAMETER_NAMES : List Param :=
  [.syntactic_density, .sensory_concreteness, .ornamental_register, .tension_visibility,
   .tension_temporality, .reality_stability, .interiority, .temporal_mode]

/-- The dimension-id string of a `Param` (the source dict key). -/
def Param.name : Param → String
  | .syntactic_density => "syntactic_density"
  | .sensory_concreteness => "sensory_concreteness"
  | .ornamental_register => "ornamental_register"
  | .tension_visibility => "tension_visibility"
  | .tension_temporality => "tension_temporality"
  | .reality_stability => "reality_stability"
  | .interiority => "interiority"
  | .temporal_mode => "temporal_mode"

/-- The three tiers partitioning a dimension's value range. -/
inductive Tier where
  | low
  | mid
  | high
  deriving DecidableEq, Repr

/-- The tier label string returned by `_get_tier` in the source. -/
def Tier.label : Tier → String
  | .low => "low"
  | .mid => "mid"
  | .high => "high"

/-- The two output modalities: the source's `"text_output_mapping"` and
`"image_output_mapping"` selectors. -/
inductive OutputMapping where
  | text
  | image
  deriving DecidableEq, Repr

/-- Python's built-in `round` to an integer: round half to even. -/
def pyRoundZ (q : ℚ) : ℤ :=
  if q - (⌊q⌋ : ℚ) < 1 / 2 then ⌊q⌋
  else if 1 / 2 < q - (⌊q⌋ : ℚ) then ⌊q⌋ + 1
  else if ⌊q⌋ % 2 = 0 then ⌊q⌋ else ⌊q⌋ + 1

/-- Python's `round(q, n)`: round to `n` decimal digits, half to even. -/
def pyRound (q : ℚ) (n : ℕ) : ℚ :=
  (pyRoundZ (q * 10 ^ n) : ℚ) / 10 ^ n

/-- Model of `round(math.sqrt s, 4)` for `s ≥ 0`: the integer nearest to
`√s · 10⁴`, divided by `10⁴`.  Writing `s · 10⁸` as the reduced fraction `p / q`,
the integer nearest to `√(s · 10⁸) = √(4pq) / (2q)` is `(⌊√(4pq)⌋ + q) / (2q)`
by the identity `⌊(x + a) / b⌋ = ⌊(⌊x⌋ + a) / b⌋` for integer `a, b`.  This is
round-half-up; a half-way tie would need `4 · s · 10⁸` to be an odd perfect
square, which is impossible at every call site of the operations layer (there
`s · 10⁸` has denominator 1 or 2, making `4 · s · 10⁸` even), so this agrees
with Python's rounding wherever the source evaluates it. -/
def sqrtRound4 (s : ℚ) : ℚ :=
  ((Nat.sqrt (4 * (10 ^ 8 * s).num.toNat * (10 ^ 8 * s).den) + (10 ^ 8 * s).den) /
      (2 * (10 ^ 8 * s).den) : ℕ) / (10 ^ 4 : ℚ)

/-- Text vocabulary bundle of a catalog entry: the three fields the operations
layer reads (`register`, `paragraph_rhythm`, `forbidden`); every catalog entry
carries all three. -/
structure TextVocabulary where
  register : String
  paragraph_rhythm : String
  forbidden : List String
  deriving Repr

/-- Image vocabulary bundle of a catalog entry: the three fields the operations
layer reads. -/
structure ImageVocabulary where
  keywords : List String
  color_palette : List String
  compositional_rules : List String
  deriving Repr

/-- One record of `AUTHOR_CATALOG`. -/
structure AuthorEntry where
  display_name : String
  language_origin : String
  coordinates : Param → ℚ
  signature_moves : List String
  text_vocabulary : TextVocabulary
  image_vocabulary : ImageVocabulary

/-- The one `*_directive` sentence of `DIMENSIONS[dim][mapping][tier]` in the source
taxonomy table. Each tier bundle of the source carries exactly one key ending in
`_directive` whose value is a string; that sentence is the only tier-bundle field the
operations layer ever reads (via its key-suffix scan), so the bundle is embedded as
this sentence. -/
def dimension_directive : Param → OutputMapping → Tier → String
  | .syntactic_density, .text, .low => "Simple declarative sentences. One main clause. Coordinating conjunctions only."
  | .syntactic_density, .text, .mid => "Balanced sentence architecture. Mix simple and complex structures. Periodic sentences permitted."
  | .syntactic_density, .text, .high => "Deeply nested subordination. Sentences carry multiple embedded qualifications. Delay main verb. Exhaustive clause stacking."
  | .syntactic_density, .image, .low => "Minimal layering. Single visual plane. Clean negative space. Figure isolated against ground."
  | .syntactic_density, .image, .mid => "Three distinct depth planes. Foreground, subject, background clearly articulated."
  | .syntactic_density, .image, .high => "Dense visual layering. Multiple overlapping planes. Nested frames-within-frames. Baroque spatial depth."
  | .sensory_concreteness, .text, .low => "Latinate abstract vocabulary. Ideas, categories, logical relations. Nouns you cannot photograph."
  | .sensory_concreteness, .text, .mid => "Ground abstractions in occasional concrete detail. Alternate between sensory and conceptual."
  | .sensory_concreteness, .text, .high => "Anglo-Saxon concrete vocabulary. Things with weight, temperature, texture. Actions visible to a camera. Nouns you can hold."
  | .sensory_concreteness, .image, .low => "Geometric abstraction. Flat color fields. Schematic rather than photographic. Conceptual space."
  | .sensory_concreteness, .image, .mid => "Recognizable materials with selective detail. Key textures rendered, others implied."
  | .sensory_concreteness, .image, .high => "Explicit material rendering. Visible grain, weave, condensation, patina. Surfaces you can feel."
  | .ornamental_register, .text, .low => "No unnecessary adjectives. Plain nouns. Metaphor only when unavoidable. Common Anglo-Saxon vocabulary."
  | .ornamental_register, .text, .mid => "Selective ornamentation. Well-placed figurative language. Elegant but not excessive."
  | .ornamental_register, .text, .high => "Lush adjectival profusion. Dense figurative language. Rare and archaic vocabulary. Cataloging through ornamental excess."
  | .ornamental_register, .image, .low => "Clean surfaces. Minimal texture. Modernist reduction. Negative space as design element."
  | .ornamental_register, .image, .mid => "Selective surface detail. Key areas rendered with precision, others simplified."
  | .ornamental_register, .image, .high => "Highly detailed ornamental surfaces. Pattern-on-pattern. Filigree, brocade, botanical density. Horror vacui — every surface activated."
  | .tension_visibility, .text, .low => "Never name the emotion. Render behavior and objects. Reader infers tension from what is not said."
  | .tension_visibility, .text, .mid => "Acknowledge tension through measured observation. Clinical precision about emotional states."
  | .tension_visibility, .text, .high => "Name the tension directly. Escalating emotional vocabulary. Narrator\x27s distress is the content."
  | .tension_visibility, .image, .low => "Even, ambient lighting. Tension encoded in compositional unease — off-center framing, ambiguous gaze vectors, objects slightly wrong."
  | .tension_visibility, .image, .mid => "Directional lighting creating defined shadows. Moderate tonal contrast. Tension visible but controlled."
  | .tension_visibility, .image, .high => "Dramatic chiaroscuro. Deep shadows, hard light. Diagonal composition lines. Explicit visual conflict and confrontation."
  | .tension_temporality, .text, .low => "Self-contained moments. Each passage complete in itself. Tension arrives without warning."
  | .tension_temporality, .text, .mid => "Gradual escalation through observation. Evidence accumulates. Paragraphs lengthen."
  | .tension_temporality, .text, .high => "Fate announced early, then approached with terrible patience. Each sentence worse than the last. Progressive revelation of the already-known."
  | .tension_temporality, .image, .low => "Frozen moment. No implied before or after. Complete in the frame. Snapshot temporality."
  | .tension_temporality, .image, .mid => "Implied motion. Traces of what came before — footprints, smoke, residue. Subject mid-action."
  | .tension_temporality, .image, .high => "Temporal compositing. Multiple moments layered in single frame. Long exposure blur. Generational accumulation visible in environmental detail."
  | .reality_stability, .text, .low => "State impossible things as fact. No hedging. Paradox presented in declarative mode. Logic that folds back on itself."
  | .reality_stability, .text, .mid => "Reality bends under observation. Familiar things behave strangely. One impossible element in an otherwise stable frame."
  | .reality_stability, .text, .high => "Journalistic reliability. Verifiable details. Physical accuracy. Hedging language for uncertainty."
  | .reality_stability, .image, .low => "Impossible geometry. Escher-like spatial paradox. Recursive visual structures. Dream logic composition. Perspective that contradicts itself."
  | .reality_stability, .image, .mid => "Physically plausible with one wrong element. Uncanny valley of space. Light from impossible source. Scale inconsistency."
  | .reality_stability, .image, .high => "Physically accurate rendering. Correct perspective, lighting, material behavior. Photographic spatial logic."
  | .interiority, .text, .low => "Camera-eye. Behavior only. No access to thought. Dialogue and action. Reader infers psychology from surface."
  | .interiority, .text, .mid => "Selective interiority. Observations filtered through a distinctive consciousness but not direct stream of thought."
  | .interiority, .text, .high => "Language as thought happening. Consciousness rendered in real-time. The sentence IS the inner experience."
  | .interiority, .image, .low => "Wide environmental framing. Figure-in-landscape. Deep depth of field. Subject as element of composition, not psychological center."
  | .interiority, .image, .mid => "Medium shot. Subject\x27s face visible. Environmental context retained. Gaze vector at 15-30° from camera axis."
  | .interiority, .image, .high => "Tight framing. Eyes prominent. Shallow depth of field isolating subject. Direct or near-direct gaze vector to viewer. Background dissolved into bokeh."
  | .temporal_mode, .text, .low => "Each passage exists in its own present. No before or after implied. Self-contained observation. Time as a series of discrete nows."
  | .temporal_mode, .text, .mid => "Awareness of duration. Past informing present. Flashback and prolepsis available but controlled. Deep time acknowledged."
  | .temporal_mode, .text, .high => "All moments present simultaneously. Cyclical return. Generations rhyming. Every permutation explored. Time as exhaustive catalog."
  | .temporal_mode, .image, .low => "Crisp frozen instant. No motion blur. No implied sequence. Photograph temporality."
  | .temporal_mode, .image, .mid => "Implied duration. Weathering, aging, patina suggesting passage of time. Environmental storytelling through wear."
  | .temporal_mode, .image, .high => "Multiple temporal layers in single frame. Ghosting, palimpsest, archaeological stratification. Long exposure. Decay and growth co-present."

/-- Catalog entry `"hemingway"` of `AUTHOR_CATALOG`. -/
def hemingway_entry : AuthorEntry where
  display_name := "Hemingway-esque"
  language_origin := "English (American)"
  coordinates := fun p => match p with
    | .syntactic_density => 0.1
    | .sensory_concreteness => 0.9
    | .ornamental_register => 0.05
    | .tension_visibility => 0.1
    | .tension_temporality => 0.25
    | .reality_stability => 0.9
    | .interiority => 0.15
    | .temporal_mode => 0.2
  signature_moves := [
    "Iceberg theory — emotional weight carried by omission",
    "Paratactic \x27and\x27 conjunction chains",
    "Dialogue carrying subtext the narrator won\x27t state",
    "Concrete nouns, active verbs, minimal adjectives",
    "Short paragraphs as rhythmic percussion"]
  text_vocabulary := {
    register := "Anglo-Saxon monosyllabic preference"
    paragraph_rhythm := "short-short-short-medium-short"
    forbidden := ["very", "really", "beautiful", "magnificent", "incredible", "amazing"] }
  image_vocabulary := {
    keywords := [
      "stark composition",
      "high negative-space ratio",
      "single subject isolation",
      "hard directional light",
      "minimal props",
      "environmental realism",
      "unflinching gaze",
      "dust and daylight"]
    color_palette := [
      "ochre",
      "bone white",
      "dried blood",
      "sun-bleached",
      "khaki",
      "deep shadow"]
    compositional_rules := [
      "Subject-to-negative-space ratio minimum 1:3",
      "Single dominant light source at 45° elevation",
      "No decorative elements in frame",
      "Horizon line in lower third"] }

/-- Catalog entry `"de_sade"` of `AUTHOR_CATALOG`. -/
def de_sade_entry : AuthorEntry where
  display_name := "Marquis de Sade-esque"
  language_origin := "French"
  coordinates := fun p => match p with
    | .syntactic_density => 0.95
    | .sensory_concreteness => 0.5
    | .ornamental_register => 0.9
    | .tension_visibility => 0.95
    | .tension_temporality => 0.8
    | .reality_stability => 0.6
    | .interiority => 0.2
    | .temporal_mode => 0.9
  signature_moves := [
    "Exhaustive enumeration — every permutation cataloged",
    "Philosophical monologue embedded in extreme scenario",
    "Bodies as philosophical instruments, not psychological subjects",
    "Nested subordination mirroring power hierarchies",
    "Transgressive content delivered in aristocratic register"]
  text_vocabulary := {
    register := "Aristocratic philosophical — Latinate, formal"
    paragraph_rhythm := "long-longer-longest-philosophical_aside-resume"
    forbidden := ["nice", "pleasant", "comfortable", "gentle"] }
  image_vocabulary := {
    keywords := [
      "baroque layering",
      "chiaroscuro extremes",
      "diagonal tension lines",
      "dense ornamental surfaces",
      "power geometry",
      "theatrical staging",
      "overwhelming visual density",
      "cataloging composition"]
    color_palette := [
      "crimson",
      "gold leaf",
      "deep velvet",
      "marble white",
      "candle flame",
      "shadow black"]
    compositional_rules := [
      "Multiple overlapping visual planes minimum 5 deep",
      "Diagonal dominant lines at 30-60° creating instability",
      "Every surface carries texture or pattern",
      "Lighting from multiple contradictory sources"] }

/-- Catalog entry `"le_guin"` of `AUTHOR_CATALOG`. -/
def le_guin_entry : AuthorEntry where
  display_name := "Ursula K. Le Guin-esque"
  language_origin := "English (American)"
  coordinates := fun p => match p with
    | .syntactic_density => 0.5
    | .sensory_concreteness => 0.55
    | .ornamental_register => 0.45
    | .tension_visibility => 0.5
    | .tension_temporality => 0.6
    | .reality_stability => 0.4
    | .interiority => 0.5
    | .temporal_mode => 0.55
  signature_moves := [
    "Worldbuilding through implication rather than exposition",
    "Balanced cadence — neither sparse nor baroque",
    "Anthropological precision about invented cultures",
    "Quiet radical premises delivered matter-of-factly",
    "Warm but unsentimental narrative voice"]
  text_vocabulary := {
    register := "Educated but accessible — precise without ostentation"
    paragraph_rhythm := "medium-medium-long-short-medium"
    forbidden := ["awesome", "literally", "basically", "epic"] }
  image_vocabulary := {
    keywords := [
      "balanced composition",
      "warm natural light",
      "inhabited landscape",
      "architectural worldbuilding",
      "cultural detail in environment",
      "dignified framing",
      "grounded fantasy",
      "lived-in spaces"]
    color_palette := [
      "earth tones",
      "deep forest green",
      "stone grey",
      "warm amber",
      "twilight blue",
      "weathered wood"]
    compositional_rules := [
      "Rule of thirds with subject at intersection point",
      "Environmental context always visible — subject in world",
      "Warm color temperature 4500-5500K",
      "Balanced depth of field — subject sharp, context readable"] }

/-- Catalog entry `"didion"` of `AUTHOR_CATALOG`. -/
def didion_entry : AuthorEntry where
  display_name := "Joan Didion-esque"
  language_origin := "English (American)"
  coordinates := fun p => match p with
    | .syntactic_density => 0.45
    | .sensory_concreteness => 0.7
    | .ornamental_register => 0.15
    | .tension_visibility => 0.3
    | .tension_temporality => 0.4
    | .reality_stability => 0.95
    | .interiority => 0.6
    | .temporal_mode => 0.4
  signature_moves := [
    "Clinical sentence structure masking emotional intensity",
    "Specific sensory detail as existential evidence",
    "Retrospective present tense — reporting from aftermath",
    "Lists of concrete facts that accumulate into mood",
    "The personal made universal through precision"]
  text_vocabulary := {
    register := "Journalistic precision — cool, specific, exact"
    paragraph_rhythm := "medium-short-long(periodic)-short-fragment"
    forbidden := ["incredible", "unbelievable", "indescribable", "breathtaking"] }
  image_vocabulary := {
    keywords := [
      "forensic observation",
      "clinical framing",
      "specific light conditions",
      "geographical precision",
      "quiet devastation",
      "California light",
      "motel aesthetic",
      "highway geometry"]
    color_palette := [
      "bleached white",
      "smog amber",
      "pool blue",
      "asphalt grey",
      "jacaranda purple",
      "desert tan"]
    compositional_rules := [
      "Slightly off-center framing suggesting unease",
      "Harsh midday light — no romantic golden hour",
      "Specific environmental details legible in frame",
      "Flat perspective suggesting journalistic distance"] }

/-- Catalog entry `"lovecraft"` of `AUTHOR_CATALOG`. -/
def lovecraft_entry : AuthorEntry where
  display_name := "Lovecraft-esque"
  language_origin := "English (American)"
  coordinates := fun p => match p with
    | .syntactic_density => 0.85
    | .sensory_concreteness => 0.4
    | .ornamental_register => 0.85
    | .tension_visibility => 0.8
    | .tension_temporality => 0.85
    | .reality_stability => 0.15
    | .interiority => 0.7
    | .temporal_mode => 0.75
  signature_moves := [
    "Accumulative horror through clause stacking",
    "The unspeakable — gesture toward sensory detail, then retreat",
    "Archaic register lending authority to impossible claims",
    "Geological/cosmic time dwarfing human experience",
    "Narrator\x27s reliability degrading as text progresses"]
  text_vocabulary := {
    register := "Archaic academic — deliberately overwrought"
    paragraph_rhythm := "medium-long-longer-longest-short(gasp)"
    forbidden := ["cute", "nice", "fun", "awesome", "cool"] }
  image_vocabulary := {
    keywords := [
      "non-Euclidean geometry",
      "cyclopean architecture",
      "deep shadow with luminous edges",
      "tentacular forms",
      "impossible scale",
      "submarine depth",
      "eldritch luminescence",
      "geological antiquity"]
    color_palette := [
      "deep ocean green",
      "phosphorescent",
      "basalt black",
      "sickly yellow-green",
      "void purple",
      "corpse grey"]
    compositional_rules := [
      "Subject dwarfed by environment — human scale minimized",
      "Light source origin impossible or contradictory",
      "Perspective lines converging at impossible vanishing point",
      "Geometry that almost resolves but doesn\x27t"] }

/-- Catalog entry `"borges"` of `AUTHOR_CATALOG`. -/
def borges_entry : AuthorEntry where
  display_name := "Borges-esque"
  language_origin := "Spanish (Argentine)"
  coordinates := fun p => match p with
    | .syntactic_density => 0.8
    | .sensory_concreteness => 0.15
    | .ornamental_register => 0.6
    | .tension_visibility => 0.55
    | .tension_temporality => 0.7
    | .reality_stability => 0.1
    | .interiority => 0.8
    | .temporal_mode => 0.7
  signature_moves := [
    "Labyrinthine logic — the trap closes through reasoning",
    "Infinite libraries, mirrors, recursive structures",
    "Philosophical density compressed into miniature forms",
    "Scholarly apparatus (footnotes, citations) for fictional subjects",
    "Time as simultaneous rather than sequential"]
  text_vocabulary := {
    register := "Erudite philosophical — precise, recursive, scholarly"
    paragraph_rhythm := "long-medium-long(recursive)-parenthetical-short(sting)"
    forbidden := ["simple", "straightforward", "obvious", "clearly"] }
  image_vocabulary := {
    keywords := [
      "infinite regression",
      "mirror recursion",
      "impossible library",
      "labyrinthine geometry",
      "Escher-like spatial paradox",
      "miniature containing cosmos",
      "scholarly manuscript",
      "hexagonal architecture"]
    color_palette := [
      "parchment",
      "library mahogany",
      "ink blue",
      "mirror silver",
      "candlelight amber",
      "mathematical white"]
    compositional_rules := [
      "Recursive visual structures — frame contains smaller version of itself",
      "Impossible spatial logic — Penrose stairs, Klein bottle topology",
      "Text/manuscripts visible as compositional elements",
      "Symmetrical composition suggesting infinite extension"] }

/-- Catalog entry `"murakami"` of `AUTHOR_CATALOG`. -/
def murakami_entry : AuthorEntry where
  display_name := "Murakami-esque"
  language_origin := "Japanese"
  coordinates := fun p => match p with
    | .syntactic_density => 0.25
    | .sensory_concreteness => 0.8
    | .ornamental_register => 0.2
    | .tension_visibility => 0.2
    | .tension_temporality => 0.2
    | .reality_stability => 0.2
    | .interiority => 0.55
    | .temporal_mode => 0.25
  signature_moves := [
    "Flat affect juxtaposed with surreal intrusion",
    "Mundane sensory detail anchoring the uncanny",
    "Pop culture references as emotional shorthand",
    "Loneliness rendered through domestic routine",
    "Cats, jazz, cooking as consciousness markers"]
  text_vocabulary := {
    register := "Conversational flat — deliberately understated"
    paragraph_rhythm := "medium-short-short-medium-short(offhand_surreal)"
    forbidden := ["magnificent", "extraordinary", "awe-inspiring", "spectacular"] }
  image_vocabulary := {
    keywords := [
      "liminal space",
      "quiet domestic interior",
      "single impossible element",
      "empty urban night",
      "jazz club lighting",
      "cat on kitchen counter",
      "mundane surrealism",
      "rain on window"]
    color_palette := [
      "warm interior amber",
      "cold blue exterior",
      "vinyl black",
      "kitchen white",
      "neon reflection",
      "twilight grey"]
    compositional_rules := [
      "Domestic interior framing — through doorways, across tables",
      "One element that doesn\x27t belong in an otherwise normal scene",
      "Warm artificial light contrasting cold exterior visible through window",
      "Subject alone in frame — isolation geometry"] }

/-- Catalog entry `"marquez"` of `AUTHOR_CATALOG`. -/
def marquez_entry : AuthorEntry where
  display_name := "Márquez-esque"
  language_origin := "Spanish (Colombian)"
  coordinates := fun p => match p with
    | .syntactic_density => 0.75
    | .sensory_concreteness => 0.75
    | .ornamental_register => 0.8
    | .tension_visibility => 0.7
    | .tension_temporality => 0.95
    | .reality_stability => 0.3
    | .interiority => 0.4
    | .temporal_mode => 0.85
  signature_moves := [
    "Magical realism — impossible content in matter-of-fact declarative",
    "Multigenerational time — fate announced, then approached patiently",
    "Tropical profusion of sensory detail",
    "Names and lineages as structural architecture",
    "Death foretold — opening sentence contains the ending"]
  text_vocabulary := {
    register := "Declarative lush — matter-of-fact about the impossible"
    paragraph_rhythm := "long-long-very_long-short(fate)-long"
    forbidden := ["basically", "literally", "actually", "arguably"] }
  image_vocabulary := {
    keywords := [
      "tropical botanical density",
      "butterflies as portent",
      "golden afternoon light",
      "crumbling colonial architecture",
      "magical realism composite",
      "generational portrait",
      "rain of flowers",
      "solitude geometry"]
    color_palette := [
      "tropical green",
      "marigold yellow",
      "terracotta",
      "butterfly blue",
      "aged sepia",
      "blood orange"]
    compositional_rules := [
      "Dense botanical framing — foliage filling edges",
      "Multiple generations suggested in single frame",
      "One physically impossible element rendered photorealistically",
      "Warm saturated color temperature 3500-4500K"] }

/-- Catalog entry `"kafka"` of `AUTHOR_CATALOG`. -/
def kafka_entry : AuthorEntry where
  display_name := "Kafka-esque"
  language_origin := "German (Czech)"
  coordinates := fun p => match p with
    | .syntactic_density => 0.65
    | .sensory_concreteness => 0.35
    | .ornamental_register => 0.1
    | .tension_visibility => 0.35
    | .tension_temporality => 0.3
    | .reality_stability => 0.25
    | .interiority => 0.35
    | .temporal_mode => 0.3
  signature_moves := [
    "Impossible premise accepted, bureaucratic logic thereafter",
    "Plain surface describing impossible situations",
    "Arrested time — events happen but nothing progresses",
    "Authority that can never be reached or understood",
    "The body as site of inexplicable transformation"]
  text_vocabulary := {
    register := "Bureaucratic plain — institutional clarity about the absurd"
    paragraph_rhythm := "medium-medium-medium-medium(relentless_same)-medium"
    forbidden := ["magical", "wonderful", "extraordinary", "miraculous"] }
  image_vocabulary := {
    keywords := [
      "institutional corridor",
      "impossible bureaucracy",
      "clean lines with subtle wrongness",
      "door that leads nowhere",
      "fluorescent institutional light",
      "scale distortion",
      "empty waiting room",
      "metamorphic body"]
    color_palette := [
      "institutional beige",
      "corridor green",
      "fluorescent white",
      "document manila",
      "ink stamp blue",
      "grey suit"]
    compositional_rules := [
      "Symmetrical institutional framing with one element disrupted",
      "Vanishing-point corridors implying infinite recession",
      "Flat even lighting — no drama, no escape into shadow",
      "Human figure scaled slightly wrong relative to architecture"] }

/-- Catalog entry `"shonagon"` of `AUTHOR_CATALOG`. -/
def shonagon_entry : AuthorEntry where
  display_name := "Sei Shōnagon-esque"
  language_origin := "Japanese (Classical)"
  coordinates := fun p => match p with
    | .syntactic_density => 0.15
    | .sensory_concreteness => 0.95
    | .ornamental_register => 0.4
    | .tension_visibility => 0.25
    | .tension_temporality => 0.15
    | .reality_stability => 0.85
    | .interiority => 0.65
    | .temporal_mode => 0.1
  signature_moves := [
    "List-based observation as primary literary form",
    "Aesthetic judgment as the content — \x27things that are...\x27",
    "Radical sensory specificity about transient moments",
    "Categorical thinking — grouping experiences by quality",
    "Brevity with maximum sensory payload per word"]
  text_vocabulary := {
    register := "Elegant brevity — each word carries maximum sensory weight"
    paragraph_rhythm := "fragment-fragment-short-fragment-observation"
    forbidden := ["basically", "essentially", "in conclusion", "furthermore", "moreover"] }
  image_vocabulary := {
    keywords := [
      "seasonal specificity",
      "single perfect object",
      "morning light on silk",
      "rain on veranda",
      "ink brush precision",
      "negative space as reverence",
      "insect on flower",
      "paper screen diffused light"]
    color_palette := [
      "cherry blossom pink",
      "ink black",
      "rice paper white",
      "moss green",
      "persimmon orange",
      "dawn grey"]
    compositional_rules := [
      "Single subject dominating frame — no competing elements",
      "Extreme negative space ratio minimum 1:5 subject to ground",
      "Natural light only — seasonal quality explicit",
      "Shallow depth isolating one perfect detail"] }

/-- Catalog entry `"lispector"` of `AUTHOR_CATALOG`. -/
def lispector_entry : AuthorEntry where
  display_name := "Clarice Lispector-esque"
  language_origin := "Brazilian Portuguese"
  coordinates := fun p => match p with
    | .syntactic_density => 0.55
    | .sensory_concreteness => 0.6
    | .ornamental_register => 0.55
    | .tension_visibility => 0.65
    | .tension_temporality => 0.5
    | .reality_stability => 0.5
    | .interiority => 0.95
    | .temporal_mode => 0.45
  signature_moves := [
    "Language turning to examine itself mid-sentence",
    "Interior stream — consciousness as the event",
    "The body as epistemological instrument",
    "Recursive self-interruption and self-correction",
    "Philosophical viscerality — abstract ideas with physical weight"]
  text_vocabulary := {
    register := "Philosophical intimate — thought caught in the act of thinking"
    paragraph_rhythm := "medium-long(spiraling)-short(correction)-medium-fragment"
    forbidden := ["simply", "obviously", "naturally", "of course"] }
  image_vocabulary := {
    keywords := [
      "extreme close-up",
      "organic texture as landscape",
      "introspective gaze vector",
      "skin as terrain",
      "interior light",
      "mirror self-regard",
      "domestic object elevated to icon",
      "visceral abstraction"]
    color_palette := [
      "skin tones",
      "interior shadow",
      "egg white",
      "blood warmth",
      "kitchen tile",
      "afternoon gold"]
    compositional_rules := [
      "Extreme close framing — face fills frame edge to edge",
      "Shallow depth of field f/1.4-f/2.0 equivalent",
      "Gaze vector direct to viewer or at own reflection",
      "Organic textures rendered at macro scale"] }

/-- The catalog as an association list in the source dict insertion order. -/
def AUTHOR_CATALOG : List (String × AuthorEntry) := [
  ("hemingway", hemingway_entry),
  ("de_sade", de_sade_entry),
  ("le_guin", le_guin_entry),
  ("didion", didion_entry),
  ("lovecraft", lovecraft_entry),
  ("borges", borges_entry),
  ("murakami", murakami_entry),
  ("marquez", marquez_entry),
  ("kafka", kafka_entry),
  ("shonagon", shonagon_entry),
  ("lispector", lispector_entry)]

/-- Python dict lookup over an association list (first binding wins; keys are
unique in the source tables). -/
def assoc_lookup : List (String × AuthorEntry) → String → Option AuthorEntry
  | [], _ => none
  | (k, v) :: rest, key => if k = key then some v else assoc_lookup rest key

/-- Resolve an author id in `AUTHOR_CATALOG`. -/
def lookup_author (author_id : String) : Option AuthorEntry :=
  assoc_lookup AUTHOR_CATALOG author_id

/-- The list of catalog identifiers, in catalog order. -/
def author_ids : List String := AUTHOR_CATALOG.map Prod.fst

/-- The `ValueError` message of `get_coordinates` / `get_author_profile` for an
unknown identifier: it names the bad id and enumerates the valid ones (the
Python `list` repr of the catalog keys). -/
def unknown_author_message (author_id : String) : String :=
  "Unknown author \x27" ++ author_id ++ "\x27. Available: [" ++
    String.intercalate ", " (author_ids.map (fun a => "\x27" ++ a ++ "\x27")) ++ "]"

/-- `get_coordinates`: raw 8D coordinates for an author, or the unknown-id error. -/
def get_coordinates (author_id : String) : Except String (Param → ℚ) :=
  match lookup_author author_id with
  | some e => .ok e.coordinates
  | none => .error (unknown_author_message author_id)

/-- The `PERCEPTUAL_WEIGHTS` table of `compute_style_distance`. -/
def PERCEPTUAL_WEIGHTS : Param → ℚ
  | .syntactic_density => 1.2
  | .sensory_concreteness => 1.0
  | .ornamental_register => 1.1
  | .tension_visibility => 0.9
  | .tension_temporality => 0.8
  | .reality_stability => 1.0
  | .interiority => 1.0
  | .temporal_mode => 0.8

/-- The per-dimension multiplier: the perceptual weight when `weighted`, else 1. -/
def weight_factor (weighted : Bool) (p : Param) : ℚ :=
  if weighted then PERCEPTUAL_WEIGHTS p else 1

/-- One row of the `per_dimension` breakdown of `compute_style_distance`. -/
structure DimBreakdown where
  value_1 : ℚ
  value_2 : ℚ
  raw_difference : ℚ
  weighted_difference : ℚ
  absolute_gap : ℚ
  deriving Repr

/-- The `per_dimension[p]` entry: raw values, rounded signed / weighted
difference and rounded absolute gap. -/
def dim_breakdown (c1 c2 : Param → ℚ) (weighted : Bool) (p : Param) : DimBreakdown :=
  let diff := c2 p - c1 p
  { value_1 := c1 p
    value_2 := c2 p
    raw_difference := pyRound diff 3
    weighted_difference := pyRound (diff * weight_factor weighted p) 3
    absolute_gap := pyRound |diff| 3 }

/-- The accumulated `sum_sq` of `compute_style_distance`: the sum over the 8
dimensions of the squared (unrounded) weighted difference. -/
def sum_sq (c1 c2 : Param → ℚ) (weighted : Bool) : ℚ :=
  (PARAMETER_NAMES.map (fun p => ((c2 p - c1 p) * weight_factor weighted p) ^ 2)).sum

/-- The `max_contrast_axis` scan: Python's `max(per_dim, key=absolute_gap)` over
the insertion-ordered dict keeps the first strictly greatest element in
`PARAMETER_NAMES` order; folding from the head (`syntactic_density`) with a
strict comparison reproduces it (the head compares false against itself). -/
def max_contrast_axis (c1 c2 : Param → ℚ) (weighted : Bool) : Param :=
  PARAMETER_NAMES.foldl
    (fun best p =>
      if (dim_breakdown c1 c2 weighted best).absolute_gap <
          (dim_breakdown c1 c2 weighted p).absolute_gap then p else best)
    Param.syntactic_density

/-- The result dict of `compute_style_distance`. -/
structure DistanceReport where
  author_1 : String
  author_2 : String
  euclidean_distance : ℚ
  normalized_distance : ℚ
  max_contrast_axis : Param
  max_contrast_gap : ℚ
  per_dimension : List (Param × DimBreakdown)
  deriving Repr

/-- Build the distance report for two resolved entries.  The source computes
`total = math.sqrt(sum_sq)` and reports `round(total, 4)` and
`round(total / math.sqrt(8), 4)`; since `total / √8 = √(sum_sq / 8)`, both are
`sqrtRound4` applied to `sum_sq` resp. `sum_sq / 8`. -/
def distance_report (e1 e2 : AuthorEntry) (weighted : Bool) : DistanceReport :=
  let c1 := e1.coordinates
  let c2 := e2.coordinates
  let axis := max_contrast_axis c1 c2 weighted
  { author_1 := e1.display_name
    author_2 := e2.display_name
    euclidean_distance := sqrtRound4 (sum_sq c1 c2 weighted)
    normalized_distance := sqrtRound4 (sum_sq c1 c2 weighted / 8)
    max_contrast_axis := axis
    max_contrast_gap := (dim_breakdown c1 c2 weighted axis).absolute_gap
    per_dimension := PARAMETER_NAMES.map (fun p => (p, dim_breakdown c1 c2 weighted p)) }

/-- `compute_style_distance`: Euclidean distance between two authors in
style-space; the first unknown identifier (in argument order, as in the source's
two `get_coordinates` calls) aborts the computation. -/
def compute_style_distance (author_id_1 author_id_2 : String) (weighted : Bool) :
    Except String DistanceReport :=
  match lookup_author author_id_1 with
  | none => .error (unknown_author_message author_id_1)
  | some e1 =>
    match lookup_author author_id_2 with
    | none => .error (unknown_author_message author_id_2)
    | some e2 => .ok (distance_report e1 e2 weighted)

/-- `_get_tier`: map a value to its tier, boundaries 0.33 and 0.67, lower-closed. -/
def _get_tier (value : ℚ) : Tier :=
  if value < 0.33 then .low
  else if value < 0.67 then .mid
  else .high

/-- The annotated tier bundle returned by `_interpolate_tier_vocabularies`:
the copied bundle (its one directive sentence) plus the `_dimension`, `_value`,
`_tier` and `_boundary_proximity` annotations. -/
structure TierExtraction where
  directive : String
  dimension : String
  value : ℚ
  tier : String
  boundary_proximity : ℚ
  deriving Repr

/-- `_interpolate_tier_vocabularies`: the primary tier's vocabulary with
boundary-proximity info. -/
def _interpolate_tier_vocabularies (dim_id : Param) (value : ℚ)
    (output_type : OutputMapping) : TierExtraction :=
  let tier := _get_tier value
  { directive := dimension_directive dim_id output_type tier
    dimension := dim_id.name
    value := pyRound value 3
    tier := tier.label
    boundary_proximity :=
      if value < 0.33 then pyRound (value / 0.33) 3
      else if value < 0.67 then pyRound ((value - 0.33) / 0.34) 3
      else pyRound ((value - 0.67) / 0.33) 3 }

/-- `_extract_text_vocabulary`: per-dimension text extraction (a dict over all
8 dimensions in the source, hence a total function here). -/
def _extract_text_vocabulary (coordinates : Param → ℚ) : Param → TierExtraction :=
  fun dim_id => _interpolate_tier_vocabularies dim_id (coordinates dim_id) .text

/-- `_extract_image_vocabulary`: per-dimension image extraction. -/
def _extract_image_vocabulary (coordinates : Param → ℚ) : Param → TierExtraction :=
  fun dim_id => _interpolate_tier_vocabularies dim_id (coordinates dim_id) .image

/-- The sum of the raw weights of a blend spec. -/
def sum_weights (blend_spec : List (String × ℚ)) : ℚ :=
  (blend_spec.map Prod.snd).sum

/-- Resolve every id of the (normalized) spec against the catalog, in spec
order; the first unknown id yields its `get_coordinates` error, exactly as the
source's first failing `get_coordinates` call inside the blending loop does. -/
def resolve_entries : List (String × ℚ) → Except String (List (AuthorEntry × ℚ))
  | [] => .ok []
  | (author_id, w) :: rest =>
    match lookup_author author_id with
    | none => .error (unknown_author_message author_id)
    | some e => (resolve_entries rest).map (fun tl => (e, w) :: tl)

/-- Insert `x` before the first element it may precede (`le x y = true` means
`x` may sit in front of `y`). -/
def insert_le (le : (String × ℚ) → (String × ℚ) → Bool) (x : String × ℚ) :
    List (String × ℚ) → List (String × ℚ)
  | [] => [x]
  | y :: ys => if le x y then x :: y :: ys else y :: insert_le le x ys

/-- Stable insertion sort with a boolean "keep-in-front" relation: `le a b =
true` keeps `a` before `b`.  With `le a b := (b.2 ≤ a.2)` this reproduces
Python's stable `sorted(items, key=lambda x: -x[1])` (descending by weight,
ties in insertion order). -/
def insertion_sorted (le : (String × ℚ) → (String × ℚ) → Bool) :
    List (String × ℚ) → List (String × ℚ)
  | [] => []
  | x :: xs => insert_le le x (insertion_sorted le xs)

/-- Sort weighted ids by descending weight, ties stable (Python's
`sorted(normalized.items(), key=lambda x: -x[1])`). -/
def sort_desc_weight (l : List (String × ℚ)) : List (String × ℚ) :=
  insertion_sorted (fun a b => decide (b.2 ≤ a.2)) l

/-- Display name of a known id (the source indexes `AUTHOR_CATALOG[aid]` only
after the id has been resolved, so the default is unreachable). -/
def display_name_of (author_id : String) : String :=
  ((lookup_author author_id).map (fun e => e.display_name)).getD ""

/-- Signature moves of a known id (default unreachable, as above). -/
def moves_of (author_id : String) : List String :=
  ((lookup_author author_id).map (fun e => e.signature_moves)).getD []

/-- Squared Euclidean distance between two coordinate maps over the 8 canonical
dimensions. -/
def sq_dist (c1 c2 : Param → ℚ) : ℚ :=
  (PARAMETER_NAMES.map (fun p => (c1 p - c2 p) ^ 2)).sum

/-- The nearest-catalog-author scan of `interpolate_styles`: the source folds
over the catalog comparing `math.sqrt` of the squared distances with `<`
starting from `inf`; `√` is strictly monotone, so comparing the squared
distances yields the same minimizer (first encountered wins on ties), and the
reported distance is `round(√d, 4)` of the squared minimum `d`. -/
def nearest_catalog_author (blended : Param → ℚ) : String × ℚ :=
  match AUTHOR_CATALOG.foldl
      (fun best kv =>
        let d := sq_dist blended kv.2.coordinates
        match best with
        | none => some (kv.1, d)
        | some b => if d < b.2 then some (kv.1, d) else best)
      none with
  | some r => r
  | none => ("", 0)

/-- The result dict of `interpolate_styles`. -/
structure BlendResult where
  blend_spec : List (String × ℚ)
  blend_display : String
  coordinates : Param → ℚ
  nearest_id : String
  nearest_display_name : String
  nearest_distance : ℚ
  signature_moves : List String
  text_vocabulary : Param → TierExtraction
  image_vocabulary : Param → TierExtraction

/-- `interpolate_styles`: blend multiple author styles by weighted
interpolation. -/
def interpolate_styles (blend_spec : List (String × ℚ)) : Except String BlendResult :=
  if blend_spec.isEmpty then .error "blend_spec must contain at least one author"
  else
    let total_weight := sum_weights blend_spec
    if total_weight ≤ 0 then .error "Weights must sum to a positive value"
    else
      let normalized := blend_spec.map (fun kv => (kv.1, kv.2 / total_weight))
      (resolve_entries normalized).map (fun resolved =>
        let blended : Param → ℚ := fun p =>
          pyRound ((resolved.map (fun ew => ew.1.coordinates p * ew.2)).sum) 4
        let nearest := nearest_catalog_author blended
        let sorted := sort_desc_weight normalized
        { blend_spec := normalized.map (fun kv => (kv.1, pyRound kv.2 3))
          blend_display := String.intercalate " / "
            (sorted.map (fun kv =>
              toString (pyRoundZ (kv.2 * 100)) ++ "% " ++ display_name_of kv.1))
          coordinates := blended
          nearest_id := nearest.1
          nearest_display_name := display_name_of nearest.1
          nearest_distance := sqrtRound4 nearest.2
          signature_moves := sorted.foldl
            (fun acc kv =>
              acc ++ (moves_of kv.1).take (max 1 (pyRoundZ (kv.2 * 5))).toNat)
            []
          text_vocabulary := _extract_text_vocabulary blended
          image_vocabulary := _extract_image_vocabulary blended })

/-- Python truthiness of the `author_id: Optional[str]` argument: `None` and
the empty string are falsy. -/
def author_arg_truthy : Option String → Bool
  | some s => s ≠ ""
  | none => false

/-- Python truthiness of the `blend_spec: Optional[dict]` argument: `None` and
the empty dict are falsy. -/
def blend_arg_truthy : Option (List (String × ℚ)) → Bool
  | some l => !l.isEmpty
  | none => false

/-- Truthiness of the `custom_coordinates` argument.  Custom coordinate dicts
are modelled as total maps over the 8 dimension keys (the operations index all
8, so any other dict raises a `KeyError` outside the modelled behavior); such a
dict is nonempty, hence truthy whenever present. -/
def custom_arg_truthy : Option (Param → ℚ) → Bool
  | some _ => true
  | none => false

/-- The `ValueError` message of the prompt generators when no style source is
truthy. -/
def no_source_message : String :=
  "Provide author_id, blend_spec, or custom_coordinates"

/-- The resolved style source of a prompt generator: coordinates, label, the
author text vocabulary when a single author was given (`{}` — here `none` —
for blends and custom coordinates), the signature moves, and the image
vocabulary (the blend's derived one, or an empty placeholder for custom
coordinates). -/
structure ResolvedSource where
  coordinates : Param → ℚ
  source_label : String
  text_vocab : Option TextVocabulary
  sig_moves : List String
  image_vocab : ImageVocabulary

/-- The shared source-resolution chain of `generate_text_prompt` and
`generate_image_prompt`: the Python `if author_id: ... elif blend_spec: ...
elif custom_coordinates: ... else: raise` dispatch. -/
def resolve_style_source (author_id : Option String)
    (blend_spec : Option (List (String × ℚ)))
    (custom_coordinates : Option (Param → ℚ)) : Except String ResolvedSource :=
  if author_arg_truthy author_id then
    let aid := author_id.getD ""
    match lookup_author aid with
    | none => .error (unknown_author_message aid)
    | some entry =>
      .ok { coordinates := entry.coordinates
            source_label := entry.display_name
            text_vocab := some entry.text_vocabulary
            sig_moves := entry.signature_moves
            image_vocab := entry.image_vocabulary }
  else if blend_arg_truthy blend_spec then
    (interpolate_styles (blend_spec.getD [])).map (fun result =>
      { coordinates := result.coordinates
        source_label := result.blend_display
        text_vocab := none
        sig_moves := result.signature_moves
        image_vocab :=
          -- `generate_image_prompt` reads the blend's derived image vocabulary
          -- only through `.get("keywords"/"color_palette"/"compositional_rules")`;
          -- the blend result's per-dimension extraction carries none of those
          -- keys, so every `.get` yields the empty default.
          { keywords := [], color_palette := [], compositional_rules := [] } })
  else if custom_arg_truthy custom_coordinates then
    .ok { coordinates := custom_coordinates.getD (fun _ => 0)
          source_label := "Custom coordinates"
          text_vocab := none
          sig_moves := []
          image_vocab := { keywords := [], color_palette := [], compositional_rules := [] } }
  else
    .error no_source_message

/-- The result dict of `generate_text_prompt`. -/
structure TextPromptResult where
  source : String
  coordinates : Param → ℚ
  master_directive : String
  signature_moves_text : String
  vocabulary_constraints : String
  full_prompt : String
  per_dimension_directives : Param → TierExtraction

/-- `generate_text_prompt`: text-generation-ready style directives from exactly
one style source (first truthy source wins, in the source's `if`/`elif` order). -/
def generate_text_prompt (author_id : Option String)
    (blend_spec : Option (List (String × ℚ)))
    (custom_coordinates : Option (Param → ℚ)) : Except String TextPromptResult :=
  (resolve_style_source author_id blend_spec custom_coordinates).map (fun src =>
    let dim_directives := _extract_text_vocabulary src.coordinates
    -- the `*_directive` key scan collects each dimension's one directive
    -- sentence, in canonical dimension order.
    let master_directive :=
      String.intercalate " " (PARAMETER_NAMES.map (fun d => (dim_directives d).directive))
    let moves_text :=
      if src.sig_moves.isEmpty then ""
      else "Key techniques: " ++ String.intercalate "; " (src.sig_moves.take 5) ++ "."
    -- every catalog text vocabulary carries all three optional keys, so the
    -- three `if key in text_vocab` guards all pass when a vocabulary is present.
    let vocab_text :=
      match src.text_vocab with
      | some tv =>
        "Register: " ++ tv.register ++ ". " ++
        "Paragraph rhythm: " ++ tv.paragraph_rhythm ++ ". " ++
        "Avoid these words: " ++ String.intercalate ", " tv.forbidden ++ ". "
      | none => ""
    { source := src.source_label
      coordinates := src.coordinates
      master_directive := master_directive
      signature_moves_text := moves_text
      vocabulary_constraints := vocab_text
      full_prompt :=
        ("[Style: " ++ src.source_label ++ "] " ++ master_directive ++ " " ++
          moves_text ++ " " ++ vocab_text).trim
      per_dimension_directives := dim_directives })

/-- The result dict of `generate_image_prompt`. -/
structure ImagePromptResult where
  source : String
  coordinates : Param → ℚ
  prompt : String
  keywords : List String
  color_palette : List String
  compositional_rules : List String
  per_dimension_visuals : Param → TierExtraction

/-- `generate_image_prompt`: image-generation-ready visual directives from
exactly one style source (same dispatch as `generate_text_prompt`). -/
def generate_image_prompt (author_id : Option String)
    (blend_spec : Option (List (String × ℚ)))
    (custom_coordinates : Option (Param → ℚ)) (style_modifier : String) :
    Except String ImagePromptResult :=
  (resolve_style_source author_id blend_spec custom_coordinates).map (fun src =>
    let dim_visuals := _extract_image_vocabulary src.coordinates
    let visual_directive_parts :=
      PARAMETER_NAMES.map (fun d => (dim_visuals d).directive)
    let all_keywords := src.image_vocab.keywords
    let colors := src.image_vocab.color_palette
    let rules := src.image_vocab.compositional_rules
    let prompt_parts :=
      (if style_modifier ≠ "" then [style_modifier] else []) ++
      all_keywords.take 8 ++
      (if !colors.isEmpty then
        ["color palette: " ++ String.intercalate ", " (colors.take 4)] else []) ++
      visual_directive_parts.take 6
    { source := src.source_label
      coordinates := src.coordinates
      prompt := String.intercalate ", " prompt_parts
      keywords := all_keywords
      color_palette := colors
      compositional_rules := rules
      per_dimension_visuals := dim_visuals })

/-- The ordered (outer-then-inner) pairs of a list: `authors[i], authors[j]`
for `i < j`, in the iteration order of `find_max_contrast_pair`. -/
def ordered_pairs : List String → List (String × String)
  | [] => []
  | x :: rest => rest.map (fun y => (x, y)) ++ ordered_pairs rest

/-- The scanning loop of `find_max_contrast_pair`: track the greatest reported
`euclidean_distance` seen so far (strict `>` keeps the first maximum). -/
def max_contrast_fold :
    List (String × String) → ℚ → Option (String × String) →
    Except String (ℚ × Option (String × String))
  | [], max_dist, max_pair => .ok (max_dist, max_pair)
  | (a1, a2) :: rest, max_dist, max_pair => do
    let r ← compute_style_distance a1 a2 false
    if r.euclidean_distance > max_dist then
      max_contrast_fold rest r.euclidean_distance (some (a1, a2))
    else
      max_contrast_fold rest max_dist max_pair

/-- `find_max_contrast_pair`: the two authors with maximum distance in
style-space, scanning all unordered catalog pairs with unweighted distance.
The `none` fallback is unreachable on the actual catalog (some pair has
positive distance, and the source would raise a `TypeError` there). -/
def find_max_contrast_pair : Except String DistanceReport := do
  let (_, max_pair) ← max_contrast_fold (ordered_pairs author_ids) 0 none
  match max_pair with
  | some (a1, a2) => compute_style_distance a1 a2 false
  | none => .error "no pair"

/-- The coordinate values, on dimension `p`, of the catalog entries a blend
spec contributes (unknown ids resolve to nothing). -/
def contrib_coords (blend_spec : List (String × ℚ)) (p : Param) : List ℚ :=
  blend_spec.filterMap (fun kv => (lookup_author kv.1).map (fun e => e.coordinates p))

/-- The signature-move synthesis as the specification words it: order the
contributing entries by descending normalized weight (stable), and from each
take its first `max 1 (round (weight * 5))` stored moves, concatenated across
entries in that order. -/
def blended_moves_spec (blend_spec : List (String × ℚ)) : List String :=
  (sort_desc_weight (blend_spec.map
      (fun kv => (kv.1, kv.2 / sum_weights blend_spec)))).flatMap
    (fun kv => (moves_of kv.1).take (max 1 (pyRoundZ (kv.2 * 5))).toNat)

/-- The stored coordinates of a catalog id (zero map on the unreachable
unknown-id default). -/
def coordinates_of (author_id : String) : Param → ℚ :=
  ((lookup_author author_id).map (fun e => e.coordinates)).getD (fun _ => 0)

/-- Rounding an integer changes nothing. -/
theorem pyRoundZ_intCast (n : ℤ) : pyRoundZ (n : ℚ) = n := by
  simp [pyRoundZ]

/-- Rounding cannot drop below an integer lower bound. -/
theorem le_pyRoundZ (n : ℤ) (q : ℚ) (h : (n : ℚ) ≤ q) : n ≤ pyRoundZ q := by
  have hf : n ≤ ⌊q⌋ := Int.le_floor.mpr h
  unfold pyRoundZ
  split_ifs <;> omega

/-- Rounding cannot exceed an integer upper bound. -/
theorem pyRoundZ_le (n : ℤ) (q : ℚ) (h : q ≤ (n : ℚ)) : pyRoundZ q ≤ n := by
  have hf : ⌊q⌋ ≤ n := by
    have := Int.floor_le_floor h
    simpa using this
  unfold pyRoundZ
  split_ifs with h1 h2 h3
  · exact hf
  · -- 1/2 < q - ⌊q⌋, so ⌊q⌋ < n and ⌊q⌋ + 1 ≤ n
    rcases eq_or_lt_of_le hf with heq | hlt
    · exfalso
      have : q - (⌊q⌋ : ℚ) ≤ 0 := by
        have := Int.floor_le q
        have hqn : q ≤ (⌊q⌋ : ℚ) := by rw [heq]; exact_mod_cast h
        linarith
      linarith
    · omega
  · rcases eq_or_lt_of_le hf with heq | hlt
    · exfalso
      have h12 : q - (⌊q⌋ : ℚ) = 1 / 2 := le_antisymm (not_lt.mp h2) (not_lt.mp h1)
      have hqn : q ≤ (⌊q⌋ : ℚ) := by rw [heq]; exact_mod_cast h
      linarith
    · exact hlt.le
  · rcases eq_or_lt_of_le hf with heq | hlt
    · exfalso
      have h12 : q - (⌊q⌋ : ℚ) = 1 / 2 := le_antisymm (not_lt.mp h2) (not_lt.mp h1)
      have hqn : q ≤ (⌊q⌋ : ℚ) := by rw [heq]; exact_mod_cast h
      linarith
    · omega

/-- Rounding a value whose scaled form is an integer changes nothing. -/
theorem pyRound_eq_self (q : ℚ) (n : ℕ) (m : ℤ) (h : q * 10 ^ n = (m : ℚ)) :
    pyRound q n = q := by
  rw [pyRound, h, pyRoundZ_intCast, ← h]
  field_simp

/-- Lower bound through 4-digit rounding, for bounds on the 10⁻⁴ grid. -/
theorem le_pyRound4 (m : ℤ) (q : ℚ) (h : (m : ℚ) / 10 ^ 4 ≤ q) :
    (m : ℚ) / 10 ^ 4 ≤ pyRound q 4 := by
  rw [pyRound]
  have hm : (m : ℚ) ≤ q * 10 ^ 4 := by
    rw [div_le_iff₀ (by norm_num : (0:ℚ) < 10 ^ 4)] at h
    exact h
  have := le_pyRoundZ m (q * 10 ^ 4) hm
  rw [div_le_div_iff_of_pos_right (by norm_num : (0:ℚ) < 10 ^ 4)]
  exact_mod_cast this

/-- Upper bound through 4-digit rounding, for bounds on the 10⁻⁴ grid. -/
theorem pyRound4_le (m : ℤ) (q : ℚ) (h : q ≤ (m : ℚ) / 10 ^ 4) :
    pyRound q 4 ≤ (m : ℚ) / 10 ^ 4 := by
  rw [pyRound]
  have hm : q * 10 ^ 4 ≤ (m : ℚ) := by
    rw [le_div_iff₀ (by norm_num : (0:ℚ) < 10 ^ 4)] at h
    exact h
  have := pyRoundZ_le m (q * 10 ^ 4) hm
  rw [div_le_div_iff_of_pos_right (by norm_num : (0:ℚ) < 10 ^ 4)]
  exact_mod_cast this

/-- Characterize `Nat.sqrt` by its defining inequalities. -/
theorem nat_sqrt_eq (N n : ℕ) (h1 : n * n ≤ N) (h2 : N < (n + 1) * (n + 1)) :
    Nat.sqrt N = n :=
  le_antisymm (Nat.lt_succ_iff.mp (Nat.sqrt_lt.mpr h2)) (Nat.le_sqrt.mpr h1)

/-- Evaluate `sqrtRound4` at a value on the 10⁻⁸ grid from a bracketing of the
integer square root. -/
theorem sqrtRound4_eq (N m r : ℕ) (h1 : m * m ≤ 4 * N)
    (h2 : 4 * N < (m + 1) * (m + 1)) (h3 : (m + 1) / 2 = r) :
    sqrtRound4 ((N : ℚ) / 10 ^ 8) = (r : ℚ) / 10 ^ 4 := by
  have hx : (10 : ℚ) ^ 8 * ((N : ℚ) / 10 ^ 8) = ((N : ℕ) : ℚ) := by field_simp
  rw [sqrtRound4, hx]
  simp only [Rat.num_natCast, Rat.den_natCast, Int.toNat_natCast, mul_one]
  rw [nat_sqrt_eq (4 * N) m h1 h2, h3]

/-- Claim C2: for every dimension (and both output modalities), tier
vocabulary extraction at exactly 0.33 yields tier "mid" with boundary
proximity 0.0; at 0.329999 it yields tier "low" with boundary proximity
rounding to 1.0; at exactly 0.67 it yields tier "high" with boundary
proximity 0.0 — the tier partition is lower-closed at 0.33 and 0.67. -/
theorem tier_boundary_exactness (d : Param) (o : OutputMapping) :
    ((_interpolate_tier_vocabularies d 0.33 o).tier = "mid" ∧
      (_interpolate_tier_vocabularies d 0.33 o).boundary_proximity = 0) ∧
    ((_interpolate_tier_vocabularies d 0.329999 o).tier = "low" ∧
      (_interpolate_tier_vocabularies d 0.329999 o).boundary_proximity = 1) ∧
    ((_interpolate_tier_vocabularies d 0.67 o).tier = "high" ∧
      (_interpolate_tier_vocabularies d 0.67 o).boundary_proximity = 0) := by
  refine ⟨⟨?_, ?_⟩, ⟨?_, ?_⟩, ⟨?_, ?_⟩⟩ <;>
    norm_num [_interpolate_tier_vocabularies, _get_tier, Tier.label, pyRound, pyRoundZ]

/-- Claim C9: with a custom-coordinates map over all 8 dimension keys, both
prompt generators return a complete result without error, whatever the values
(including values outside `[0, 1]`); the tier mapping is total, sending every
value below 0.33 (negatives included) to "low" and every value at or above
0.67 (values above 1 included) to "high". -/
theorem out_of_range_coordinates_accepted :
    (∀ f : Param → ℚ,
      (generate_text_prompt none none (some f)).isOk = true ∧
      (generate_image_prompt none none (some f) "").isOk = true) ∧
    (∀ v : ℚ, v < 0.33 → (_get_tier v).label = "low") ∧
    (∀ v : ℚ, 0.67 ≤ v → (_get_tier v).label = "high") := by
  refine ⟨fun f => ⟨?_, ?_⟩, fun v hv => ?_, fun v hv => ?_⟩
  · simp [generate_text_prompt, resolve_style_source, author_arg_truthy,
      blend_arg_truthy, custom_arg_truthy, Except.map, Except.isOk, Except.toBool]
  · simp [generate_image_prompt, resolve_style_source, author_arg_truthy,
      blend_arg_truthy, custom_arg_truthy, Except.map, Except.isOk, Except.toBool]
  · rw [_get_tier, if_pos hv]
    rfl
  · rw [_get_tier, if_neg (by linarith), if_neg (by linarith)]
    rfl

/-- Witness for C9 at concrete inputs: −1 is below 0.33 and maps to "low";
2 is at or above 0.67 and maps to "high". -/
theorem out_of_range_coordinates_accepted_witness :
    ((-1 : ℚ) < 0.33 ∧ (_get_tier (-1)).label = "low") ∧
    ((0.67 : ℚ) ≤ 2 ∧ (_get_tier 2).label = "high") :=
  ⟨⟨by norm_num, out_of_range_coordinates_accepted.2.1 (-1) (by norm_num)⟩,
   ⟨by norm_num, out_of_range_coordinates_accepted.2.2 2 (by norm_num)⟩⟩

/-- Counterexample to claim C1: a call of `generate_text_prompt` with two of
the three style sources provided (an author id and a blend spec) does not
fail — the author id silently takes precedence. -/
theorem two_sources_do_not_fail :
    (generate_text_prompt (some "hemingway") (some [("borges", 1)]) none).isOk = true := by
  simp [generate_text_prompt, resolve_style_source, author_arg_truthy,
    lookup_author, assoc_lookup, AUTHOR_CATALOG, Except.map, Except.isOk, Except.toBool]

/-- Claim C1 as amended: the prompt generators fail (demanding a style source)
exactly when none of the three sources is provided; when more than one is
provided no error is raised and the first truthy source in the fixed priority
order author_id, blend_spec, custom_coordinates is used, the later arguments
being ignored. -/
theorem prompt_source_priority :
    (generate_text_prompt none none none = .error no_source_message) ∧
    (∀ m, generate_image_prompt none none none m = .error no_source_message) ∧
    (∀ a bs c, author_arg_truthy a = true →
      generate_text_prompt a bs c = generate_text_prompt a none none) ∧
    (∀ a bs c m, author_arg_truthy a = true →
      generate_image_prompt a bs c m = generate_image_prompt a none none m) ∧
    (∀ bs c, blend_arg_truthy bs = true →
      generate_text_prompt none bs c = generate_text_prompt none bs none) ∧
    (∀ bs c m, blend_arg_truthy bs = true →
      generate_image_prompt none bs c m = generate_image_prompt none bs none m) := by
  refine ⟨?_, fun m => ?_, fun a bs c h => ?_, fun a bs c m h => ?_,
    fun bs c h => ?_, fun bs c m h => ?_⟩
  · simp [generate_text_prompt, resolve_style_source, author_arg_truthy,
      blend_arg_truthy, custom_arg_truthy, Except.map]
  · simp [generate_image_prompt, resolve_style_source, author_arg_truthy,
      blend_arg_truthy, custom_arg_truthy, Except.map]
  · simp [generate_text_prompt, resolve_style_source, h]
  · simp [generate_image_prompt, resolve_style_source, h]
  · simp [generate_text_prompt, resolve_style_source, author_arg_truthy, h]
  · simp [generate_image_prompt, resolve_style_source, author_arg_truthy, h]

/-- Witness for the amended C1 at concrete inputs. -/
theorem prompt_source_priority_witness :
    author_arg_truthy (some "hemingway") = true ∧
    generate_text_prompt (some "hemingway") (some [("borges", 1)]) none =
      generate_text_prompt (some "hemingway") none none :=
  ⟨by simp [author_arg_truthy],
   prompt_source_priority.2.2.1 (some "hemingway") (some [("borges", 1)]) none
     (by simp [author_arg_truthy])⟩

/-- A nonempty list is not `isEmpty`. -/
theorem isEmpty_false_of_ne {l : List (String × ℚ)} (h : l ≠ []) :
    l.isEmpty = false := by
  cases l with
  | nil => exact absurd rfl h
  | cons a t => rfl

/-- Resolution errors out with the unknown-id message of the first unknown id,
scanning in spec order. -/
theorem resolve_entries_first_unknown (l : List (String × ℚ)) (a : String)
    (w : ℚ) (tl : List (String × ℚ))
    (hknown : ∀ kv ∈ l, (lookup_author kv.1).isSome = true)
    (hunk : lookup_author a = none) :
    resolve_entries (l ++ (a, w) :: tl) = .error (unknown_author_message a) := by
  induction l with
  | nil => simp [resolve_entries, hunk]
  | cons kv rest ih =>
    have hkv : (lookup_author kv.1).isSome = true := hknown kv (by simp)
    obtain ⟨e, he⟩ := Option.isSome_iff_exists.mp hkv
    have := ih (fun kv h => hknown kv (by simp [h]))
    simp [resolve_entries, he, this, Except.map]

/-- Resolution succeeds when every id is known, and the resolved list pairs
each spec row's entry (as looked up) with its weight. -/
theorem resolve_entries_all_known (l : List (String × ℚ))
    (hknown : ∀ kv ∈ l, (lookup_author kv.1).isSome = true) :
    ∃ res, resolve_entries l = .ok res ∧
      res.map Prod.snd = l.map Prod.snd ∧
      (∀ ew ∈ res, ∃ kv ∈ l, lookup_author kv.1 = some ew.1 ∧ ew.2 = kv.2) := by
  induction l with
  | nil => exact ⟨[], by simp [resolve_entries]⟩
  | cons kv rest ih =>
    have hkv : (lookup_author kv.1).isSome = true := hknown kv (by simp)
    obtain ⟨e, he⟩ := Option.isSome_iff_exists.mp hkv
    obtain ⟨res, hres, hsnd, hmem⟩ := ih (fun kv h => hknown kv (by simp [h]))
    refine ⟨(e, kv.2) :: res, ?_, ?_, ?_⟩
    · simp [resolve_entries, he, hres, Except.map]
    · simp [hsnd]
    · intro ew hew
      rcases List.mem_cons.mp hew with heq | htl
      · exact ⟨kv, by simp, by simp [heq, he]⟩
      · obtain ⟨kv2, hkv2, h1, h2⟩ := hmem ew htl
        exact ⟨kv2, by simp [hkv2], h1, h2⟩

/-- Counterexample to claim C5: on the empty blend spec theraised message is
"blend_spec must contain at least one author", not the claimed "must contain
at least one entry". -/
theorem empty_blend_message_differs :
    interpolate_styles [] = .error "blend_spec must contain at least one author" ∧
    "blend_spec must contain at least one author" ≠ "must contain at least one entry" :=
  ⟨by simp [interpolate_styles], by decide⟩

/-- Claim C5 as amended: the empty spec fails with the message "blend_spec
must contain at least one author"; a nonempty spec whose weights do not sum to
a strictly positive value fails with "Weights must sum to a positive value";
otherwise the first unknown identifier (in spec order) fails with the
identifier-resolution error of `get_coordinates`.  Failures return an
`.error` and no partial result. -/
theorem interpolate_failure_modes :
    (interpolate_styles [] = .error "blend_spec must contain at least one author") ∧
    (∀ bs : List (String × ℚ), bs ≠ [] → sum_weights bs ≤ 0 →
      interpolate_styles bs = .error "Weights must sum to a positive value") ∧
    (∀ (pre : List (String × ℚ)) (a : String) (w : ℚ) (post : List (String × ℚ)),
      (∀ kv ∈ pre, (lookup_author kv.1).isSome = true) →
      lookup_author a = none →
      0 < sum_weights (pre ++ (a, w) :: post) →
      interpolate_styles (pre ++ (a, w) :: post) =
        .error (unknown_author_message a)) := by
  refine ⟨by simp [interpolate_styles], fun bs hne hsum => ?_,
    fun pre a w post hknown hunk hsum => ?_⟩
  · rw [interpolate_styles]
    rw [isEmpty_false_of_ne hne]
    simp [hsum]
  · rw [interpolate_styles]
    rw [isEmpty_false_of_ne (by simp)]
    rw [if_neg (by simp), if_neg (not_le.mpr hsum)]
    simp only [List.map_append, List.map_cons]
    rw [resolve_entries_first_unknown _ a _ _ ?_ hunk]
    · rfl
    · intro kv hkv
      simp only [List.mem_map] at hkv
      obtain ⟨kv0, hkv0, heq⟩ := hkv
      have := hknown kv0 hkv0
      rw [← heq]
      exact this

/-- Witness for the amended C5 at concrete inputs: a zero-sum spec and a spec
with an unknown id behind a known one. -/
theorem interpolate_failure_modes_witness :
    (interpolate_styles [("hemingway", 0)] =
      .error "Weights must sum to a positive value") ∧
    (interpolate_styles [("hemingway", 1), ("nobody", 1)] =
      .error (unknown_author_message "nobody")) := by
  constructor
  · exact interpolate_failure_modes.2.1 [("hemingway", 0)] (by simp)
      (by norm_num [sum_weights])
  · have := interpolate_failure_modes.2.2 [("hemingway", 1)] "nobody" 1 []
      (by simp [lookup_author, assoc_lookup, AUTHOR_CATALOG])
      (by simp [lookup_author, assoc_lookup, AUTHOR_CATALOG])
      (by norm_num [sum_weights])
    simpa using this

/-- A successful association-list lookup comes from a member binding. -/
theorem assoc_lookup_mem :
    ∀ (l : List (String × AuthorEntry)) (key : String) (v : AuthorEntry),
      assoc_lookup l key = some v → ∃ k, (k, v) ∈ l := by
  intro l key v
  induction l with
  | nil => simp [assoc_lookup]
  | cons kv rest ih =>
    rw [assoc_lookup]
    split_ifs with hk
    · intro h
      have hv : kv.2 = v := Option.some.inj h
      exact ⟨kv.1, by rw [← hv]; exact List.mem_cons_self _ _⟩
    · intro h
      obtain ⟨k, hkmem⟩ := ih h
      exact ⟨k, by simp [hkmem]⟩

/-- Every coordinate value stored in the catalog lies on the 10⁻⁴ grid. -/
theorem catalog_coord_grid :
    ∀ kv ∈ AUTHOR_CATALOG, ∀ p : Param,
      kv.2.coordinates p * 10 ^ 4 = ((⌊kv.2.coordinates p * 10 ^ 4⌋ : ℤ) : ℚ) := by
  intro kv hkv
  fin_cases hkv <;> intro p <;> cases p <;>
    norm_num [hemingway_entry, de_sade_entry, le_guin_entry, didion_entry,
      lovecraft_entry, borges_entry, murakami_entry, marquez_entry, kafka_entry,
      shonagon_entry, lispector_entry]

/-- Claim C4: a single-entry blend is the identity — for every catalog id and
every positive weight, `interpolate_styles [(a, w)]` reproduces entry `a`'s own
stored coordinates exactly. -/
theorem single_entry_blend_identity (a : String) (e : AuthorEntry)
    (he : lookup_author a = some e) (w : ℚ) (hw : 0 < w) :
    (interpolate_styles [(a, w)]).map (fun r => r.coordinates) =
      .ok e.coordinates := by
  rw [interpolate_styles]
  rw [if_neg (by simp)]
  have hsw : ¬sum_weights [(a, w)] ≤ 0 := by
    simp only [sum_weights, List.map_cons, List.map_nil, List.sum_cons,
      List.sum_nil, add_zero]
    exact not_le.mpr hw
  rw [if_neg hsw]
  simp only [List.map_cons, List.map_nil]
  rw [show resolve_entries [(a, w / sum_weights [(a, w)])] =
      .ok [(e, w / sum_weights [(a, w)])] by
    simp [resolve_entries, he, Except.map]]
  simp only [Except.map_ok, Except.map]
  congr 1
  funext p
  have hww : w / sum_weights [(a, w)] = 1 := by
    simp only [sum_weights, List.map_cons, List.map_nil, List.sum_cons,
      List.sum_nil, add_zero]
    exact div_self (ne_of_gt hw)
  simp only [List.map_cons, List.map_nil, List.sum_cons, List.sum_nil, hww,
    mul_one, add_zero]
  obtain ⟨k, hk⟩ := assoc_lookup_mem _ _ _ he
  exact pyRound_eq_self _ _ _ (catalog_coord_grid (k, e) hk p)

/-- Witness for C4 at `hemingway` with weight 1. -/
theorem single_entry_blend_identity_witness :
    lookup_author "hemingway" = some hemingway_entry ∧ (0 : ℚ) < 1 ∧
    (interpolate_styles [("hemingway", 1)]).map (fun r => r.coordinates) =
      .ok hemingway_entry.coordinates :=
  ⟨by simp [lookup_author, assoc_lookup, AUTHOR_CATALOG], by norm_num,
   single_entry_blend_identity "hemingway" hemingway_entry
     (by simp [lookup_author, assoc_lookup, AUTHOR_CATALOG]) 1 (by norm_num)⟩

/-- Claim C10: `interpolate_styles` validates only the weight total, never the
signs — every blend spec of known ids with strictly positive weight sum
succeeds even with negative individual weights, and such a blend can land
outside `[0, 1]` (weights `hemingway: 2, de_sade: −1` put `syntactic_density`
at −0.75). -/
theorem negative_weights_accepted :
    (∀ bs : List (String × ℚ), bs ≠ [] →
      (∀ kv ∈ bs, (lookup_author kv.1).isSome = true) →
      0 < sum_weights bs →
      (interpolate_styles bs).isOk = true) ∧
    ((interpolate_styles [("hemingway", 2), ("de_sade", -1)]).map
        (fun r => r.coordinates Param.syntactic_density) = .ok (-0.75) ∧
      (-0.75 : ℚ) < 0) := by
  refine ⟨fun bs hne hknown hsum => ?_, ?_, by norm_num⟩
  · rw [interpolate_styles, isEmpty_false_of_ne hne]
    rw [if_neg (by simp), if_neg (not_le.mpr hsum)]
    have hkm : ∀ kv ∈ bs.map (fun kv => (kv.1, kv.2 / sum_weights bs)),
        (lookup_author kv.1).isSome = true := by
      intro kv hkv
      simp only [List.mem_map] at hkv
      obtain ⟨kv0, hkv0, heq⟩ := hkv
      have := hknown kv0 hkv0
      rw [← heq]
      exact this
    obtain ⟨res, hres, -, -⟩ := resolve_entries_all_known
      (bs.map (fun kv => (kv.1, kv.2 / sum_weights bs))) hkm
    simp only [hres, Except.map, Except.isOk, Except.toBool]
  · rw [interpolate_styles]
    rw [if_neg (by simp)]
    have hsw : sum_weights [("hemingway", (2:ℚ)), ("de_sade", -1)] = 1 := by
      norm_num [sum_weights]
    rw [if_neg (by rw [hsw]; norm_num)]
    rw [hsw]
    simp only [List.map_cons, List.map_nil]
    norm_num
    rw [show resolve_entries [("hemingway", (2:ℚ)), ("de_sade", (-1:ℚ))] =
        .ok [(hemingway_entry, 2), (de_sade_entry, -1)] by
      simp [resolve_entries, lookup_author, assoc_lookup, AUTHOR_CATALOG, Except.map]]
    simp only [Except.map_ok, Except.map]
    congr 1
    simp only [List.map_cons, List.map_nil, List.sum_cons, List.sum_nil]
    norm_num [hemingway_entry, de_sade_entry]
    exact pyRound_eq_self _ _ (-7500) (by norm_num)

/-- Witness for the universally quantified part of C10: the negative-weight
spec `hemingway: 2, de_sade: −1` satisfies the hypotheses and succeeds. -/
theorem negative_weights_accepted_witness :
    ([("hemingway", (2:ℚ)), ("de_sade", -1)] ≠ []) ∧
    (0 : ℚ) < sum_weights [("hemingway", 2), ("de_sade", -1)] ∧
    (interpolate_styles [("hemingway", 2), ("de_sade", -1)]).isOk = true :=
  ⟨by simp, by norm_num [sum_weights],
   negative_weights_accepted.1 [("hemingway", 2), ("de_sade", -1)] (by simp)
     (by simp [lookup_author, assoc_lookup, AUTHOR_CATALOG])
     (by norm_num [sum_weights])⟩

/-- A key occurring in an association list is found by lookup. -/
theorem assoc_lookup_isSome_of_mem :
    ∀ (l : List (String × AuthorEntry)) (key : String),
      (∃ kv ∈ l, kv.1 = key) → ∃ v, assoc_lookup l key = some v := by
  intro l key
  induction l with
  | nil => simp
  | cons kv rest ih =>
    intro ⟨w, hw, hwk⟩
    rw [assoc_lookup]
    split_ifs with hk
    · exact ⟨kv.2, rfl⟩
    · rcases List.mem_cons.mp hw with heq | htl
      · exact absurd (heq ▸ hwk) hk
      · exact ih ⟨w, htl, hwk⟩

/-- Every member of `author_ids` resolves to a catalog entry. -/
theorem mem_author_ids_lookup {a : String} (ha : a ∈ author_ids) :
    ∃ e, lookup_author a = some e := by
  rw [author_ids] at ha
  obtain ⟨kv, hkv, hfst⟩ := List.mem_map.mp ha
  exact assoc_lookup_isSome_of_mem AUTHOR_CATALOG a ⟨kv, hkv, hfst⟩

/-- The squared-difference sum is symmetric in its two coordinate maps. -/
theorem sum_sq_symm (c1 c2 : Param → ℚ) (weighted : Bool) :
    sum_sq c1 c2 weighted = sum_sq c2 c1 weighted := by
  simp only [sum_sq, PARAMETER_NAMES, List.map_cons, List.map_nil,
    List.sum_cons, List.sum_nil]
  ring

/-- Claim C8: for every pair of catalog identifiers and both values of the
weighted flag, `compute_style_distance` reports the same `euclidean_distance`
and the same `normalized_distance` in both argument orders. -/
theorem distance_symmetry (a b : String) (ha : a ∈ author_ids)
    (hb : b ∈ author_ids) (weighted : Bool) :
    (compute_style_distance a b weighted).map
        (fun r => (r.euclidean_distance, r.normalized_distance)) =
      (compute_style_distance b a weighted).map
        (fun r => (r.euclidean_distance, r.normalized_distance)) := by
  obtain ⟨e1, he1⟩ := mem_author_ids_lookup ha
  obtain ⟨e2, he2⟩ := mem_author_ids_lookup hb
  simp only [compute_style_distance, he1, he2, Except.map, distance_report]
  rw [sum_sq_symm e1.coordinates e2.coordinates weighted]

/-- Witness for C8 at a concrete pair with the weighted flag set. -/
theorem distance_symmetry_witness :
    "hemingway" ∈ author_ids ∧ "borges" ∈ author_ids ∧
    (compute_style_distance "hemingway" "borges" true).map
        (fun r => (r.euclidean_distance, r.normalized_distance)) =
      (compute_style_distance "borges" "hemingway" true).map
        (fun r => (r.euclidean_distance, r.normalized_distance)) :=
  ⟨by simp [author_ids, AUTHOR_CATALOG],
   by simp [author_ids, AUTHOR_CATALOG],
   distance_symmetry "hemingway" "borges"
     (by simp [author_ids, AUTHOR_CATALOG])
     (by simp [author_ids, AUTHOR_CATALOG]) true⟩

/-- Folding list-append accumulation is concatenation (`flatMap`). -/
theorem foldl_append_eq_flatMap (f : (String × ℚ) → List String) :
    ∀ (l : List (String × ℚ)) (acc : List String),
      l.foldl (fun acc kv => acc ++ f kv) acc = acc ++ l.flatMap f := by
  intro l
  induction l with
  | nil => simp
  | cons kv rest ih =>
    intro acc
    rw [List.foldl_cons, ih, List.flatMap_cons, List.append_assoc]

/-- Claim C7: the synthesized signature-move list of a successful blend is
exactly the specification's description — contributing entries ordered by
descending normalized weight (stable), each contributing the first
`max 1 (round (weight × 5))` of its stored moves, concatenated in that order,
duplicates permitted. -/
theorem signature_move_synthesis (bs : List (String × ℚ)) (hne : bs ≠ [])
    (hpos : 0 < sum_weights bs)
    (hknown : ∀ kv ∈ bs, (lookup_author kv.1).isSome = true) :
    (interpolate_styles bs).map (fun r => r.signature_moves) =
      .ok (blended_moves_spec bs) := by
  rw [interpolate_styles, isEmpty_false_of_ne hne]
  rw [if_neg (by simp), if_neg (not_le.mpr hpos)]
  have hkm : ∀ kv ∈ bs.map (fun kv => (kv.1, kv.2 / sum_weights bs)),
      (lookup_author kv.1).isSome = true := by
    intro kv hkv
    simp only [List.mem_map] at hkv
    obtain ⟨kv0, hkv0, heq⟩ := hkv
    have := hknown kv0 hkv0
    rw [← heq]
    exact this
  obtain ⟨res, hres, -, -⟩ := resolve_entries_all_known _ hkm
  simp only [hres, Except.map]
  rw [blended_moves_spec]
  rw [foldl_append_eq_flatMap
    (fun kv => (moves_of kv.1).take (max 1 (pyRoundZ (kv.2 * 5))).toNat)
    (sort_desc_weight (bs.map (fun kv => (kv.1, kv.2 / sum_weights bs)))) []]
  rw [List.nil_append]

/-- Witness for C7 at the blend `hemingway: 0.6, borges: 0.4`. -/
theorem signature_move_synthesis_witness :
    ([("hemingway", (0.6 : ℚ)), ("borges", 0.4)] ≠ []) ∧
    (0 : ℚ) < sum_weights [("hemingway", 0.6), ("borges", 0.4)] ∧
    (interpolate_styles [("hemingway", 0.6), ("borges", 0.4)]).map
        (fun r => r.signature_moves) =
      .ok (blended_moves_spec [("hemingway", 0.6), ("borges", 0.4)]) :=
  ⟨by simp, by norm_num [sum_weights],
   signature_move_synthesis [("hemingway", 0.6), ("borges", 0.4)] (by simp)
     (by norm_num [sum_weights])
     (by simp [lookup_author, assoc_lookup, AUTHOR_CATALOG])⟩

/-- Upper bound on a weighted sum with nonnegative weights and bounded values. -/
theorem weighted_sum_le (p : Param) (hi : ℚ) :
    ∀ l : List (AuthorEntry × ℚ),
      (∀ ew ∈ l, 0 ≤ ew.2) → (∀ ew ∈ l, ew.1.coordinates p ≤ hi) →
      (l.map (fun ew => ew.1.coordinates p * ew.2)).sum ≤
        hi * (l.map Prod.snd).sum := by
  intro l
  induction l with
  | nil => simp
  | cons ew rest ih =>
    intro hw hc
    simp only [List.map_cons, List.sum_cons]
    have h1 : ew.1.coordinates p * ew.2 ≤ hi * ew.2 :=
      mul_le_mul_of_nonneg_right (hc ew (by simp)) (hw ew (by simp))
    have h2 := ih (fun x hx => hw x (by simp [hx])) (fun x hx => hc x (by simp [hx]))
    calc ew.1.coordinates p * ew.2 +
          (rest.map (fun ew => ew.1.coordinates p * ew.2)).sum
        ≤ hi * ew.2 + hi * (rest.map Prod.snd).sum := by linarith
      _ = hi * (ew.2 + (rest.map Prod.snd).sum) := by ring

/-- Lower bound on a weighted sum with nonnegative weights and bounded values. -/
theorem le_weighted_sum (p : Param) (lo : ℚ) :
    ∀ l : List (AuthorEntry × ℚ),
      (∀ ew ∈ l, 0 ≤ ew.2) → (∀ ew ∈ l, lo ≤ ew.1.coordinates p) →
      lo * (l.map Prod.snd).sum ≤
        (l.map (fun ew => ew.1.coordinates p * ew.2)).sum := by
  intro l
  induction l with
  | nil => simp
  | cons ew rest ih =>
    intro hw hc
    simp only [List.map_cons, List.sum_cons]
    have h1 : lo * ew.2 ≤ ew.1.coordinates p * ew.2 :=
      mul_le_mul_of_nonneg_right (hc ew (by simp)) (hw ew (by simp))
    have h2 := ih (fun x hx => hw x (by simp [hx])) (fun x hx => hc x (by simp [hx]))
    calc lo * (ew.2 + (rest.map Prod.snd).sum)
        = lo * ew.2 + lo * (rest.map Prod.snd).sum := by ring
      _ ≤ ew.1.coordinates p * ew.2 +
          (rest.map (fun ew => ew.1.coordinates p * ew.2)).sum := by linarith

/-- Dividing every weight by the total sums to the divided total. -/
theorem sum_map_div (T : ℚ) :
    ∀ l : List (String × ℚ),
      ((l.map (fun kv => (kv.1, kv.2 / T))).map Prod.snd).sum =
        (l.map Prod.snd).sum / T := by
  intro l
  induction l with
  | nil => simp
  | cons kv rest ih =>
    simp only [List.map_cons, List.sum_cons, ih]
    ring

/-- Every member of the contributed coordinate list is a stored catalog
coordinate, hence on the 10⁻⁴ grid. -/
theorem contrib_coords_grid (bs : List (String × ℚ)) (p : Param) :
    ∀ x ∈ contrib_coords bs p, x * 10 ^ 4 = ((⌊x * 10 ^ 4⌋ : ℤ) : ℚ) := by
  intro x hx
  obtain ⟨kv, hkv, hmap⟩ := List.mem_filterMap.mp hx
  obtain ⟨e, he, hxe⟩ := Option.map_eq_some'.mp hmap
  obtain ⟨k, hk⟩ := assoc_lookup_mem _ _ _ he
  rw [← hxe]
  exact catalog_coord_grid (k, e) hk p

/-- Claim C3: for every blend spec with nonnegative weights, strictly positive
weight sum and known ids, the blend succeeds and each blended coordinate lies
within `[min, max]` of that coordinate across the contributing catalog entries
(the blended point is a convex combination of the input points; rounding to
four digits cannot leave the interval because its endpoints are stored
coordinates, which lie on the 10⁻⁴ grid). -/
theorem blend_convexity (bs : List (String × ℚ)) (p : Param) (lo hi : ℚ)
    (hw : ∀ kv ∈ bs, 0 ≤ kv.2) (hpos : 0 < sum_weights bs)
    (hknown : ∀ kv ∈ bs, (lookup_author kv.1).isSome = true)
    (hlo : (contrib_coords bs p).min? = some lo)
    (hhi : (contrib_coords bs p).max? = some hi) :
    ∃ r, interpolate_styles bs = .ok r ∧
      lo ≤ r.coordinates p ∧ r.coordinates p ≤ hi := by
  have hne : bs ≠ [] := by
    intro h
    rw [h] at hpos
    norm_num [sum_weights] at hpos
  rw [interpolate_styles, isEmpty_false_of_ne hne]
  rw [if_neg (by simp), if_neg (not_le.mpr hpos)]
  have hkm : ∀ kv ∈ bs.map (fun kv => (kv.1, kv.2 / sum_weights bs)),
      (lookup_author kv.1).isSome = true := by
    intro kv hkv
    simp only [List.mem_map] at hkv
    obtain ⟨kv0, hkv0, heq⟩ := hkv
    have := hknown kv0 hkv0
    rw [← heq]
    exact this
  obtain ⟨res, hres, hsnd, hmem⟩ := resolve_entries_all_known _ hkm
  simp only [hres, Except.map]
  refine ⟨_, rfl, ?_, ?_⟩ <;>
  · -- the blended coordinate is `pyRound` of the convex combination
    simp only
    have hsum1 : (res.map Prod.snd).sum = 1 := by
      rw [hsnd, sum_map_div]
      exact div_self (ne_of_gt hpos)
    -- facts about the resolved rows: coordinates contributed, weights ≥ 0
    have hfacts : ∀ ew ∈ res,
        ew.1.coordinates p ∈ contrib_coords bs p ∧ 0 ≤ ew.2 := by
      intro ew hew
      obtain ⟨kv, hkv, hlk, hw2⟩ := hmem ew hew
      simp only [List.mem_map] at hkv
      obtain ⟨kv0, hkv0, heq⟩ := hkv
      have hfst : kv.1 = kv0.1 := by rw [← heq]
      have hsnd2 : kv.2 = kv0.2 / sum_weights bs := by rw [← heq]
      constructor
      · refine List.mem_filterMap.mpr ⟨kv0, hkv0, ?_⟩
        rw [hfst] at hlk
        rw [hlk]
        rfl
      · rw [hw2, hsnd2]
        exact div_nonneg (hw kv0 hkv0) (le_of_lt hpos)
    have hlo_le : ∀ x ∈ contrib_coords bs p, lo ≤ x :=
      fun x hx => (List.le_min?_iff (fun a b c => le_min_iff) hlo).mp le_rfl x hx
    have hle_hi : ∀ x ∈ contrib_coords bs p, x ≤ hi :=
      fun x hx => (List.max?_le_iff (fun a b c => max_le_iff) hhi).mp le_rfl x hx
    have hlow : lo ≤ (res.map (fun ew => ew.1.coordinates p * ew.2)).sum := by
      have := le_weighted_sum p lo res (fun ew hew => (hfacts ew hew).2)
        (fun ew hew => hlo_le _ (hfacts ew hew).1)
      rw [hsum1] at this
      linarith
    have hhigh : (res.map (fun ew => ew.1.coordinates p * ew.2)).sum ≤ hi := by
      have := weighted_sum_le p hi res (fun ew hew => (hfacts ew hew).2)
        (fun ew hew => hle_hi _ (hfacts ew hew).1)
      rw [hsum1] at this
      linarith
    have hlo_grid := contrib_coords_grid bs p lo
      (List.min?_mem (fun a b => min_choice a b) hlo)
    have hhi_grid := contrib_coords_grid bs p hi
      (List.max?_mem (fun a b => max_choice a b) hhi)
    have hlo_div : lo = ((⌊lo * 10 ^ 4⌋ : ℤ) : ℚ) / 10 ^ 4 := by
      rw [← hlo_grid]
      field_simp
    have hhi_div : hi = ((⌊hi * 10 ^ 4⌋ : ℤ) : ℚ) / 10 ^ 4 := by
      rw [← hhi_grid]
      field_simp
    first
      | (rw [hlo_div]
         exact le_pyRound4 _ _ (by rw [← hlo_div]; exact hlow))
      | (rw [hhi_div]
         exact pyRound4_le _ _ (by rw [← hhi_div]; exact hhigh))

/-- Unweighted squared-distance sum for the pair (hemingway, de_sade). -/
theorem ss_hemingway_de_sade :
    sum_sq hemingway_entry.coordinates de_sade_entry.coordinates false = 32125 / 10 ^ 4 := by
  norm_num [sum_sq, PARAMETER_NAMES, weight_factor, hemingway_entry, de_sade_entry]

/-- Reported unweighted euclidean distance for the pair (hemingway, de_sade). -/
theorem ed_hemingway_de_sade :
    (distance_report hemingway_entry de_sade_entry false).euclidean_distance =
      17923 / 10 ^ 4 := by
  simp only [distance_report]
  rw [show sum_sq hemingway_entry.coordinates de_sade_entry.coordinates false =
      ((321250000 : ℕ) : ℚ) / 10 ^ 8 by rw [ss_hemingway_de_sade]; norm_num]
  rw [sqrtRound4_eq 321250000 35846 17923 (by norm_num) (by norm_num) (by norm_num)]
  norm_num

/-- Resolution of the catalog pair (hemingway, de_sade). -/
theorem cd_hemingway_de_sade :
    compute_style_distance "hemingway" "de_sade" false =
      .ok (distance_report hemingway_entry de_sade_entry false) := by
  simp [compute_style_distance, lookup_author, assoc_lookup, AUTHOR_CATALOG]

/-- Unweighted squared-distance sum for the pair (hemingway, le_guin). -/
theorem ss_hemingway_le_guin :
    sum_sq hemingway_entry.coordinates le_guin_entry.coordinates false = 12200 / 10 ^ 4 := by
  norm_num [sum_sq, PARAMETER_NAMES, weight_factor, hemingway_entry, le_guin_entry]

/-- Reported unweighted euclidean distance for the pair (hemingway, le_guin). -/
theorem ed_hemingway_le_guin :
    (distance_report hemingway_entry le_guin_entry false).euclidean_distance =
      11045 / 10 ^ 4 := by
  simp only [distance_report]
  rw [show sum_sq hemingway_entry.coordinates le_guin_entry.coordinates false =
      ((122000000 : ℕ) : ℚ) / 10 ^ 8 by rw [ss_hemingway_le_guin]; norm_num]
  rw [sqrtRound4_eq 122000000 22090 11045 (by norm_num) (by norm_num) (by norm_num)]
  norm_num

/-- Resolution of the catalog pair (hemingway, le_guin). -/
theorem cd_hemingway_le_guin :
    compute_style_distance "hemingway" "le_guin" false =
      .ok (distance_report hemingway_entry le_guin_entry false) := by
  simp [compute_style_distance, lookup_author, assoc_lookup, AUTHOR_CATALOG]

/-- Unweighted squared-distance sum for the pair (hemingway, didion). -/
theorem ss_hemingway_didion :
    sum_sq hemingway_entry.coordinates didion_entry.coordinates false = 4800 / 10 ^ 4 := by
  norm_num [sum_sq, PARAMETER_NAMES, weight_factor, hemingway_entry, didion_entry]

/-- Reported unweighted euclidean distance for the pair (hemingway, didion). -/
theorem ed_hemingway_didion :
    (distance_report hemingway_entry didion_entry false).euclidean_distance =
      6928 / 10 ^ 4 := by
  simp only [distance_report]
  rw [show sum_sq hemingway_entry.coordinates didion_entry.coordinates false =
      ((48000000 : ℕ) : ℚ) / 10 ^ 8 by rw [ss_hemingway_didion]; norm_num]
  rw [sqrtRound4_eq 48000000 13856 6928 (by norm_num) (by norm_num) (by norm_num)]
  norm_num

/-- Resolution of the catalog pair (hemingway, didion). -/
theorem cd_hemingway_didion :
    compute_style_distance "hemingway" "didion" false =
      .ok (distance_report hemingway_entry didion_entry false) := by
  simp [compute_style_distance, lookup_author, assoc_lookup, AUTHOR_CATALOG]

/-- Unweighted squared-distance sum for the pair (hemingway, lovecraft). -/
theorem ss_hemingway_lovecraft :
    sum_sq hemingway_entry.coordinates lovecraft_entry.coordinates false = 34700 / 10 ^ 4 := by
  norm_num [sum_sq, PARAMETER_NAMES, weight_factor, hemingway_entry, lovecraft_entry]

/-- Reported unweighted euclidean distance for the pair (hemingway, lovecraft). -/
theorem ed_hemingway_lovecraft :
    (distance_report hemingway_entry lovecraft_entry false).euclidean_distance =
      18628 / 10 ^ 4 := by
  simp only [distance_report]
  rw [show sum_sq hemingway_entry.coordinates lovecraft_entry.coordinates false =
      ((347000000 : ℕ) : ℚ) / 10 ^ 8 by rw [ss_hemingway_lovecraft]; norm_num]
  rw [sqrtRound4_eq 347000000 37255 18628 (by norm_num) (by norm_num) (by norm_num)]
  norm_num

/-- Resolution of the catalog pair (hemingway, lovecraft). -/
theorem cd_hemingway_lovecraft :
    compute_style_distance "hemingway" "lovecraft" false =
      .ok (distance_report hemingway_entry lovecraft_entry false) := by
  simp [compute_style_distance, lookup_author, assoc_lookup, AUTHOR_CATALOG]

/-- Unweighted squared-distance sum for the pair (hemingway, borges). -/
theorem ss_hemingway_borges :
    sum_sq hemingway_entry.coordinates borges_entry.coordinates false = 30725 / 10 ^ 4 := by
  norm_num [sum_sq, PARAMETER_NAMES, weight_factor, hemingway_entry, borges_entry]

/-- Reported unweighted euclidean distance for the pair (hemingway, borges). -/
theorem ed_hemingway_borges :
    (distance_report hemingway_entry borges_entry false).euclidean_distance =
      17529 / 10 ^ 4 := by
  simp only [distance_report]
  rw [show sum_sq hemingway_entry.coordinates borges_entry.coordinates false =
      ((307250000 : ℕ) : ℚ) / 10 ^ 8 by rw [ss_hemingway_borges]; norm_num]
  rw [sqrtRound4_eq 307250000 35057 17529 (by norm_num) (by norm_num) (by norm_num)]
  norm_num

/-- Resolution of the catalog pair (hemingway, borges). -/
theorem cd_hemingway_borges :
    compute_style_distance "hemingway" "borges" false =
      .ok (distance_report hemingway_entry borges_entry false) := by
  simp [compute_style_distance, lookup_author, assoc_lookup, AUTHOR_CATALOG]

/-- Unweighted squared-distance sum for the pair (hemingway, murakami). -/
theorem ss_hemingway_murakami :
    sum_sq hemingway_entry.coordinates murakami_entry.coordinates false = 7200 / 10 ^ 4 := by
  norm_num [sum_sq, PARAMETER_NAMES, weight_factor, hemingway_entry, murakami_entry]

/-- Reported unweighted euclidean distance for the pair (hemingway, murakami). -/
theorem ed_hemingway_murakami :
    (distance_report hemingway_entry murakami_entry false).euclidean_distance =
      8485 / 10 ^ 4 := by
  simp only [distance_report]
  rw [show sum_sq hemingway_entry.coordinates murakami_entry.coordinates false =
      ((72000000 : ℕ) : ℚ) / 10 ^ 8 by rw [ss_hemingway_murakami]; norm_num]
  rw [sqrtRound4_eq 72000000 16970 8485 (by norm_num) (by norm_num) (by norm_num)]
  norm_num

/-- Resolution of the catalog pair (hemingway, murakami). -/
theorem cd_hemingway_murakami :
    compute_style_distance "hemingway" "murakami" false =
      .ok (distance_report hemingway_entry murakami_entry false) := by
  simp [compute_style_distance, lookup_author, assoc_lookup, AUTHOR_CATALOG]

/-- Unweighted squared-distance sum for the pair (hemingway, marquez). -/
theorem ss_hemingway_marquez :
    sum_sq hemingway_entry.coordinates marquez_entry.coordinates false = 27025 / 10 ^ 4 := by
  norm_num [sum_sq, PARAMETER_NAMES, weight_factor, hemingway_entry, marquez_entry]

/-- Reported unweighted euclidean distance for the pair (hemingway, marquez). -/
theorem ed_hemingway_marquez :
    (distance_report hemingway_entry marquez_entry false).euclidean_distance =
      16439 / 10 ^ 4 := by
  simp only [distance_report]
  rw [show sum_sq hemingway_entry.coordinates marquez_entry.coordinates false =
      ((270250000 : ℕ) : ℚ) / 10 ^ 8 by rw [ss_hemingway_marquez]; norm_num]
  rw [sqrtRound4_eq 270250000 32878 16439 (by norm_num) (by norm_num) (by norm_num)]
  norm_num

/-- Resolution of the catalog pair (hemingway, marquez). -/
theorem cd_hemingway_marquez :
    compute_style_distance "hemingway" "marquez" false =
      .ok (distance_report hemingway_entry marquez_entry false) := by
  simp [compute_style_distance, lookup_author, assoc_lookup, AUTHOR_CATALOG]

/-- Unweighted squared-distance sum for the pair (hemingway, kafka). -/
theorem ss_hemingway_kafka :
    sum_sq hemingway_entry.coordinates kafka_entry.coordinates false = 11450 / 10 ^ 4 := by
  norm_num [sum_sq, PARAMETER_NAMES, weight_factor, hemingway_entry, kafka_entry]

/-- Reported unweighted euclidean distance for the pair (hemingway, kafka). -/
theorem ed_hemingway_kafka :
    (distance_report hemingway_entry kafka_entry false).euclidean_distance =
      10700 / 10 ^ 4 := by
  simp only [distance_report]
  rw [show sum_sq hemingway_entry.coordinates kafka_entry.coordinates false =
      ((114500000 : ℕ) : ℚ) / 10 ^ 8 by rw [ss_hemingway_kafka]; norm_num]
  rw [sqrtRound4_eq 114500000 21400 10700 (by norm_num) (by norm_num) (by norm_num)]
  norm_num

/-- Resolution of the catalog pair (hemingway, kafka). -/
theorem cd_hemingway_kafka :
    compute_style_distance "hemingway" "kafka" false =
      .ok (distance_report hemingway_entry kafka_entry false) := by
  simp [compute_style_distance, lookup_author, assoc_lookup, AUTHOR_CATALOG]

/-- Unweighted squared-distance sum for the pair (hemingway, shonagon). -/
theorem ss_hemingway_shonagon :
    sum_sq hemingway_entry.coordinates shonagon_entry.coordinates false = 4225 / 10 ^ 4 := by
  norm_num [sum_sq, PARAMETER_NAMES, weight_factor, hemingway_entry, shonagon_entry]

/-- Reported unweighted euclidean distance for the pair (hemingway, shonagon). -/
theorem ed_hemingway_shonagon :
    (distance_report hemingway_entry shonagon_entry false).euclidean_distance =
      6500 / 10 ^ 4 := by
  simp only [distance_report]
  rw [show sum_sq hemingway_entry.coordinates shonagon_entry.coordinates false =
      ((42250000 : ℕ) : ℚ) / 10 ^ 8 by rw [ss_hemingway_shonagon]; norm_num]
  rw [sqrtRound4_eq 42250000 13000 6500 (by norm_num) (by norm_num) (by norm_num)]
  norm_num

/-- Resolution of the catalog pair (hemingway, shonagon). -/
theorem cd_hemingway_shonagon :
    compute_style_distance "hemingway" "shonagon" false =
      .ok (distance_report hemingway_entry shonagon_entry false) := by
  simp [compute_style_distance, lookup_author, assoc_lookup, AUTHOR_CATALOG]

/-- Unweighted squared-distance sum for the pair (hemingway, lispector). -/
theorem ss_hemingway_lispector :
    sum_sq hemingway_entry.coordinates lispector_entry.coordinates false = 17700 / 10 ^ 4 := by
  norm_num [sum_sq, PARAMETER_NAMES, weight_factor, hemingway_entry, lispector_entry]

/-- Reported unweighted euclidean distance for the pair (hemingway, lispector). -/
theorem ed_hemingway_lispector :
    (distance_report hemingway_entry lispector_entry false).euclidean_distance =
      13304 / 10 ^ 4 := by
  simp only [distance_report]
  rw [show sum_sq hemingway_entry.coordinates lispector_entry.coordinates false =
      ((177000000 : ℕ) : ℚ) / 10 ^ 8 by rw [ss_hemingway_lispector]; norm_num]
  rw [sqrtRound4_eq 177000000 26608 13304 (by norm_num) (by norm_num) (by norm_num)]
  norm_num

/-- Resolution of the catalog pair (hemingway, lispector). -/
theorem cd_hemingway_lispector :
    compute_style_distance "hemingway" "lispector" false =
      .ok (distance_report hemingway_entry lispector_entry false) := by
  simp [compute_style_distance, lookup_author, assoc_lookup, AUTHOR_CATALOG]

/-- Unweighted squared-distance sum for the pair (de_sade, le_guin). -/
theorem ss_de_sade_le_guin :
    sum_sq de_sade_entry.coordinates le_guin_entry.coordinates false = 9025 / 10 ^ 4 := by
  norm_num [sum_sq, PARAMETER_NAMES, weight_factor, de_sade_entry, le_guin_entry]

/-- Reported unweighted euclidean distance for the pair (de_sade, le_guin). -/
theorem ed_de_sade_le_guin :
    (distance_report de_sade_entry le_guin_entry false).euclidean_distance =
      9500 / 10 ^ 4 := by
  simp only [distance_report]
  rw [show sum_sq de_sade_entry.coordinates le_guin_entry.coordinates false =
      ((90250000 : ℕ) : ℚ) / 10 ^ 8 by rw [ss_de_sade_le_guin]; norm_num]
  rw [sqrtRound4_eq 90250000 19000 9500 (by norm_num) (by norm_num) (by norm_num)]
  norm_num

/-- Resolution of the catalog pair (de_sade, le_guin). -/
theorem cd_de_sade_le_guin :
    compute_style_distance "de_sade" "le_guin" false =
      .ok (distance_report de_sade_entry le_guin_entry false) := by
  simp [compute_style_distance, lookup_author, assoc_lookup, AUTHOR_CATALOG]

/-- Unweighted squared-distance sum for the pair (de_sade, didion). -/
theorem ss_de_sade_didion :
    sum_sq de_sade_entry.coordinates didion_entry.coordinates false = 19675 / 10 ^ 4 := by
  norm_num [sum_sq, PARAMETER_NAMES, weight_factor, de_sade_entry, didion_entry]

/-- Reported unweighted euclidean distance for the pair (de_sade, didion). -/
theorem ed_de_sade_didion :
    (distance_report de_sade_entry didion_entry false).euclidean_distance =
      14027 / 10 ^ 4 := by
  simp only [distance_report]
  rw [show sum_sq de_sade_entry.coordinates didion_entry.coordinates false =
      ((196750000 : ℕ) : ℚ) / 10 ^ 8 by rw [ss_de_sade_didion]; norm_num]
  rw [sqrtRound4_eq 196750000 28053 14027 (by norm_num) (by norm_num) (by norm_num)]
  norm_num

/-- Resolution of the catalog pair (de_sade, didion). -/
theorem cd_de_sade_didion :
    compute_style_distance "de_sade" "didion" false =
      .ok (distance_report de_sade_entry didion_entry false) := by
  simp [compute_style_distance, lookup_author, assoc_lookup, AUTHOR_CATALOG]

/-- Unweighted squared-distance sum for the pair (de_sade, lovecraft). -/
theorem ss_de_sade_lovecraft :
    sum_sq de_sade_entry.coordinates lovecraft_entry.coordinates false = 5225 / 10 ^ 4 := by
  norm_num [sum_sq, PARAMETER_NAMES, weight_factor, de_sade_entry, lovecraft_entry]

/-- Reported unweighted euclidean distance for the pair (de_sade, lovecraft). -/
theorem ed_de_sade_lovecraft :
    (distance_report de_sade_entry lovecraft_entry false).euclidean_distance =
      7228 / 10 ^ 4 := by
  simp only [distance_report]
  rw [show sum_sq de_sade_entry.coordinates lovecraft_entry.coordinates false =
      ((52250000 : ℕ) : ℚ) / 10 ^ 8 by rw [ss_de_sade_lovecraft]; norm_num]
  rw [sqrtRound4_eq 52250000 14456 7228 (by norm_num) (by norm_num) (by norm_num)]
  norm_num

/-- Resolution of the catalog pair (de_sade, lovecraft). -/
theorem cd_de_sade_lovecraft :
    compute_style_distance "de_sade" "lovecraft" false =
      .ok (distance_report de_sade_entry lovecraft_entry false) := by
  simp [compute_style_distance, lookup_author, assoc_lookup, AUTHOR_CATALOG]

/-- Unweighted squared-distance sum for the pair (de_sade, borges). -/
theorem ss_de_sade_borges :
    sum_sq de_sade_entry.coordinates borges_entry.coordinates false = 10550 / 10 ^ 4 := by
  norm_num [sum_sq, PARAMETER_NAMES, weight_factor, de_sade_entry, borges_entry]

/-- Reported unweighted euclidean distance for the pair (de_sade, borges). -/
theorem ed_de_sade_borges :
    (distance_report de_sade_entry borges_entry false).euclidean_distance =
      10271 / 10 ^ 4 := by
  simp only [distance_report]
  rw [show sum_sq de_sade_entry.coordinates borges_entry.coordinates false =
      ((105500000 : ℕ) : ℚ) / 10 ^ 8 by rw [ss_de_sade_borges]; norm_num]
  rw [sqrtRound4_eq 105500000 20542 10271 (by norm_num) (by norm_num) (by norm_num)]
  norm_num

/-- Resolution of the catalog pair (de_sade, borges). -/
theorem cd_de_sade_borges :
    compute_style_distance "de_sade" "borges" false =
      .ok (distance_report de_sade_entry borges_entry false) := by
  simp [compute_style_distance, lookup_author, assoc_lookup, AUTHOR_CATALOG]

/-- Unweighted squared-distance sum for the pair (de_sade, murakami). -/
theorem ss_de_sade_murakami :
    sum_sq de_sade_entry.coordinates murakami_entry.coordinates false = 26975 / 10 ^ 4 := by
  norm_num [sum_sq, PARAMETER_NAMES, weight_factor, de_sade_entry, murakami_entry]

/-- Reported unweighted euclidean distance for the pair (de_sade, murakami). -/
theorem ed_de_sade_murakami :
    (distance_report de_sade_entry murakami_entry false).euclidean_distance =
      16424 / 10 ^ 4 := by
  simp only [distance_report]
  rw [show sum_sq de_sade_entry.coordinates murakami_entry.coordinates false =
      ((269750000 : ℕ) : ℚ) / 10 ^ 8 by rw [ss_de_sade_murakami]; norm_num]
  rw [sqrtRound4_eq 269750000 32848 16424 (by norm_num) (by norm_num) (by norm_num)]
  norm_num

/-- Resolution of the catalog pair (de_sade, murakami). -/
theorem cd_de_sade_murakami :
    compute_style_distance "de_sade" "murakami" false =
      .ok (distance_report de_sade_entry murakami_entry false) := by
  simp [compute_style_distance, lookup_author, assoc_lookup, AUTHOR_CATALOG]

/-- Unweighted squared-distance sum for the pair (de_sade, marquez). -/
theorem ss_de_sade_marquez :
    sum_sq de_sade_entry.coordinates marquez_entry.coordinates false = 3300 / 10 ^ 4 := by
  norm_num [sum_sq, PARAMETER_NAMES, weight_factor, de_sade_entry, marquez_entry]

/-- Reported unweighted euclidean distance for the pair (de_sade, marquez). -/
theorem ed_de_sade_marquez :
    (distance_report de_sade_entry marquez_entry false).euclidean_distance =
      5745 / 10 ^ 4 := by
  simp only [distance_report]
  rw [show sum_sq de_sade_entry.coordinates marquez_entry.coordinates false =
      ((33000000 : ℕ) : ℚ) / 10 ^ 8 by rw [ss_de_sade_marquez]; norm_num]
  rw [sqrtRound4_eq 33000000 11489 5745 (by norm_num) (by norm_num) (by norm_num)]
  norm_num

/-- Resolution of the catalog pair (de_sade, marquez). -/
theorem cd_de_sade_marquez :
    compute_style_distance "de_sade" "marquez" false =
      .ok (distance_report de_sade_entry marquez_entry false) := by
  simp [compute_style_distance, lookup_author, assoc_lookup, AUTHOR_CATALOG]

/-- Unweighted squared-distance sum for the pair (de_sade, kafka). -/
theorem ss_de_sade_kafka :
    sum_sq de_sade_entry.coordinates kafka_entry.coordinates false = 18675 / 10 ^ 4 := by
  norm_num [sum_sq, PARAMETER_NAMES, weight_factor, de_sade_entry, kafka_entry]

/-- Reported unweighted euclidean distance for the pair (de_sade, kafka). -/
theorem ed_de_sade_kafka :
    (distance_report de_sade_entry kafka_entry false).euclidean_distance =
      13666 / 10 ^ 4 := by
  simp only [distance_report]
  rw [show sum_sq de_sade_entry.coordinates kafka_entry.coordinates false =
      ((186750000 : ℕ) : ℚ) / 10 ^ 8 by rw [ss_de_sade_kafka]; norm_num]
  rw [sqrtRound4_eq 186750000 27331 13666 (by norm_num) (by norm_num) (by norm_num)]
  norm_num

/-- Resolution of the catalog pair (de_sade, kafka). -/
theorem cd_de_sade_kafka :
    compute_style_distance "de_sade" "kafka" false =
      .ok (distance_report de_sade_entry kafka_entry false) := by
  simp [compute_style_distance, lookup_author, assoc_lookup, AUTHOR_CATALOG]

/-- Unweighted squared-distance sum for the pair (de_sade, shonagon). -/
theorem ss_de_sade_shonagon :
    sum_sq de_sade_entry.coordinates shonagon_entry.coordinates false = 29100 / 10 ^ 4 := by
  norm_num [sum_sq, PARAMETER_NAMES, weight_factor, de_sade_entry, shonagon_entry]

/-- Reported unweighted euclidean distance for the pair (de_sade, shonagon). -/
theorem ed_de_sade_shonagon :
    (distance_report de_sade_entry shonagon_entry false).euclidean_distance =
      17059 / 10 ^ 4 := by
  simp only [distance_report]
  rw [show sum_sq de_sade_entry.coordinates shonagon_entry.coordinates false =
      ((291000000 : ℕ) : ℚ) / 10 ^ 8 by rw [ss_de_sade_shonagon]; norm_num]
  rw [sqrtRound4_eq 291000000 34117 17059 (by norm_num) (by norm_num) (by norm_num)]
  norm_num

/-- Resolution of the catalog pair (de_sade, shonagon). -/
theorem cd_de_sade_shonagon :
    compute_style_distance "de_sade" "shonagon" false =
      .ok (distance_report de_sade_entry shonagon_entry false) := by
  simp [compute_style_distance, lookup_author, assoc_lookup, AUTHOR_CATALOG]

/-- Unweighted squared-distance sum for the pair (de_sade, lispector). -/
theorem ss_de_sade_lispector :
    sum_sq de_sade_entry.coordinates lispector_entry.coordinates false = 12475 / 10 ^ 4 := by
  norm_num [sum_sq, PARAMETER_NAMES, weight_factor, de_sade_entry, lispector_entry]

/-- Reported unweighted euclidean distance for the pair (de_sade, lispector). -/
theorem ed_de_sade_lispector :
    (distance_report de_sade_entry lispector_entry false).euclidean_distance =
      11169 / 10 ^ 4 := by
  simp only [distance_report]
  rw [show sum_sq de_sade_entry.coordinates lispector_entry.coordinates false =
      ((124750000 : ℕ) : ℚ) / 10 ^ 8 by rw [ss_de_sade_lispector]; norm_num]
  rw [sqrtRound4_eq 124750000 22338 11169 (by norm_num) (by norm_num) (by norm_num)]
  norm_num

/-- Resolution of the catalog pair (de_sade, lispector). -/
theorem cd_de_sade_lispector :
    compute_style_distance "de_sade" "lispector" false =
      .ok (distance_report de_sade_entry lispector_entry false) := by
  simp [compute_style_distance, lookup_author, assoc_lookup, AUTHOR_CATALOG]

/-- Unweighted squared-distance sum for the pair (le_guin, didion). -/
theorem ss_le_guin_didion :
    sum_sq le_guin_entry.coordinates didion_entry.coordinates false = 5300 / 10 ^ 4 := by
  norm_num [sum_sq, PARAMETER_NAMES, weight_factor, le_guin_entry, didion_entry]

/-- Reported unweighted euclidean distance for the pair (le_guin, didion). -/
theorem ed_le_guin_didion :
    (distance_report le_guin_entry didion_entry false).euclidean_distance =
      7280 / 10 ^ 4 := by
  simp only [distance_report]
  rw [show sum_sq le_guin_entry.coordinates didion_entry.coordinates false =
      ((53000000 : ℕ) : ℚ) / 10 ^ 8 by rw [ss_le_guin_didion]; norm_num]
  rw [sqrtRound4_eq 53000000 14560 7280 (by norm_num) (by norm_num) (by norm_num)]
  norm_num

/-- Resolution of the catalog pair (le_guin, didion). -/
theorem cd_le_guin_didion :
    compute_style_distance "le_guin" "didion" false =
      .ok (distance_report le_guin_entry didion_entry false) := by
  simp [compute_style_distance, lookup_author, assoc_lookup, AUTHOR_CATALOG]

/-- Unweighted squared-distance sum for the pair (le_guin, lovecraft). -/
theorem ss_le_guin_lovecraft :
    sum_sq le_guin_entry.coordinates lovecraft_entry.coordinates false = 6000 / 10 ^ 4 := by
  norm_num [sum_sq, PARAMETER_NAMES, weight_factor, le_guin_entry, lovecraft_entry]

/-- Reported unweighted euclidean distance for the pair (le_guin, lovecraft). -/
theorem ed_le_guin_lovecraft :
    (distance_report le_guin_entry lovecraft_entry false).euclidean_distance =
      7746 / 10 ^ 4 := by
  simp only [distance_report]
  rw [show sum_sq le_guin_entry.coordinates lovecraft_entry.coordinates false =
      ((60000000 : ℕ) : ℚ) / 10 ^ 8 by rw [ss_le_guin_lovecraft]; norm_num]
  rw [sqrtRound4_eq 60000000 15491 7746 (by norm_num) (by norm_num) (by norm_num)]
  norm_num

/-- Resolution of the catalog pair (le_guin, lovecraft). -/
theorem cd_le_guin_lovecraft :
    compute_style_distance "le_guin" "lovecraft" false =
      .ok (distance_report le_guin_entry lovecraft_entry false) := by
  simp [compute_style_distance, lookup_author, assoc_lookup, AUTHOR_CATALOG]

/-- Unweighted squared-distance sum for the pair (le_guin, borges). -/
theorem ss_le_guin_borges :
    sum_sq le_guin_entry.coordinates borges_entry.coordinates false = 4875 / 10 ^ 4 := by
  norm_num [sum_sq, PARAMETER_NAMES, weight_factor, le_guin_entry, borges_entry]

/-- Reported unweighted euclidean distance for the pair (le_guin, borges). -/
theorem ed_le_guin_borges :
    (distance_report le_guin_entry borges_entry false).euclidean_distance =
      6982 / 10 ^ 4 := by
  simp only [distance_report]
  rw [show sum_sq le_guin_entry.coordinates borges_entry.coordinates false =
      ((48750000 : ℕ) : ℚ) / 10 ^ 8 by rw [ss_le_guin_borges]; norm_num]
  rw [sqrtRound4_eq 48750000 13964 6982 (by norm_num) (by norm_num) (by norm_num)]
  norm_num

/-- Resolution of the catalog pair (le_guin, borges). -/
theorem cd_le_guin_borges :
    compute_style_distance "le_guin" "borges" false =
      .ok (distance_report le_guin_entry borges_entry false) := by
  simp [compute_style_distance, lookup_author, assoc_lookup, AUTHOR_CATALOG]

/-- Unweighted squared-distance sum for the pair (le_guin, murakami). -/
theorem ss_le_guin_murakami :
    sum_sq le_guin_entry.coordinates murakami_entry.coordinates false = 5700 / 10 ^ 4 := by
  norm_num [sum_sq, PARAMETER_NAMES, weight_factor, le_guin_entry, murakami_entry]

/-- Reported unweighted euclidean distance for the pair (le_guin, murakami). -/
theorem ed_le_guin_murakami :
    (distance_report le_guin_entry murakami_entry false).euclidean_distance =
      7550 / 10 ^ 4 := by
  simp only [distance_report]
  rw [show sum_sq le_guin_entry.coordinates murakami_entry.coordinates false =
      ((57000000 : ℕ) : ℚ) / 10 ^ 8 by rw [ss_le_guin_murakami]; norm_num]
  rw [sqrtRound4_eq 57000000 15099 7550 (by norm_num) (by norm_num) (by norm_num)]
  norm_num

/-- Resolution of the catalog pair (le_guin, murakami). -/
theorem cd_le_guin_murakami :
    compute_style_distance "le_guin" "murakami" false =
      .ok (distance_report le_guin_entry murakami_entry false) := by
  simp [compute_style_distance, lookup_author, assoc_lookup, AUTHOR_CATALOG]

/-- Unweighted squared-distance sum for the pair (le_guin, marquez). -/
theorem ss_le_guin_marquez :
    sum_sq le_guin_entry.coordinates marquez_entry.coordinates false = 4975 / 10 ^ 4 := by
  norm_num [sum_sq, PARAMETER_NAMES, weight_factor, le_guin_entry, marquez_entry]

/-- Reported unweighted euclidean distance for the pair (le_guin, marquez). -/
theorem ed_le_guin_marquez :
    (distance_report le_guin_entry marquez_entry false).euclidean_distance =
      7053 / 10 ^ 4 := by
  simp only [distance_report]
  rw [show sum_sq le_guin_entry.coordinates marquez_entry.coordinates false =
      ((49750000 : ℕ) : ℚ) / 10 ^ 8 by rw [ss_le_guin_marquez]; norm_num]
  rw [sqrtRound4_eq 49750000 14106 7053 (by norm_num) (by norm_num) (by norm_num)]
  norm_num

/-- Resolution of the catalog pair (le_guin, marquez). -/
theorem cd_le_guin_marquez :
    compute_style_distance "le_guin" "marquez" false =
      .ok (distance_report le_guin_entry marquez_entry false) := by
  simp [compute_style_distance, lookup_author, assoc_lookup, AUTHOR_CATALOG]

/-- Unweighted squared-distance sum for the pair (le_guin, kafka). -/
theorem ss_le_guin_kafka :
    sum_sq le_guin_entry.coordinates kafka_entry.coordinates false = 4050 / 10 ^ 4 := by
  norm_num [sum_sq, PARAMETER_NAMES, weight_factor, le_guin_entry, kafka_entry]

/-- Reported unweighted euclidean distance for the pair (le_guin, kafka). -/
theorem ed_le_guin_kafka :
    (distance_report le_guin_entry kafka_entry false).euclidean_distance =
      6364 / 10 ^ 4 := by
  simp only [distance_report]
  rw [show sum_sq le_guin_entry.coordinates kafka_entry.coordinates false =
      ((40500000 : ℕ) : ℚ) / 10 ^ 8 by rw [ss_le_guin_kafka]; norm_num]
  rw [sqrtRound4_eq 40500000 12727 6364 (by norm_num) (by norm_num) (by norm_num)]
  norm_num

/-- Resolution of the catalog pair (le_guin, kafka). -/
theorem cd_le_guin_kafka :
    compute_style_distance "le_guin" "kafka" false =
      .ok (distance_report le_guin_entry kafka_entry false) := by
  simp [compute_style_distance, lookup_author, assoc_lookup, AUTHOR_CATALOG]

/-- Unweighted squared-distance sum for the pair (le_guin, shonagon). -/
theorem ss_le_guin_shonagon :
    sum_sq le_guin_entry.coordinates shonagon_entry.coordinates false = 9775 / 10 ^ 4 := by
  norm_num [sum_sq, PARAMETER_NAMES, weight_factor, le_guin_entry, shonagon_entry]

/-- Reported unweighted euclidean distance for the pair (le_guin, shonagon). -/
theorem ed_le_guin_shonagon :
    (distance_report le_guin_entry shonagon_entry false).euclidean_distance =
      9887 / 10 ^ 4 := by
  simp only [distance_report]
  rw [show sum_sq le_guin_entry.coordinates shonagon_entry.coordinates false =
      ((97750000 : ℕ) : ℚ) / 10 ^ 8 by rw [ss_le_guin_shonagon]; norm_num]
  rw [sqrtRound4_eq 97750000 19773 9887 (by norm_num) (by norm_num) (by norm_num)]
  norm_num

/-- Resolution of the catalog pair (le_guin, shonagon). -/
theorem cd_le_guin_shonagon :
    compute_style_distance "le_guin" "shonagon" false =
      .ok (distance_report le_guin_entry shonagon_entry false) := by
  simp [compute_style_distance, lookup_author, assoc_lookup, AUTHOR_CATALOG]

/-- Unweighted squared-distance sum for the pair (le_guin, lispector). -/
theorem ss_le_guin_lispector :
    sum_sq le_guin_entry.coordinates lispector_entry.coordinates false = 2700 / 10 ^ 4 := by
  norm_num [sum_sq, PARAMETER_NAMES, weight_factor, le_guin_entry, lispector_entry]

/-- Reported unweighted euclidean distance for the pair (le_guin, lispector). -/
theorem ed_le_guin_lispector :
    (distance_report le_guin_entry lispector_entry false).euclidean_distance =
      5196 / 10 ^ 4 := by
  simp only [distance_report]
  rw [show sum_sq le_guin_entry.coordinates lispector_entry.coordinates false =
      ((27000000 : ℕ) : ℚ) / 10 ^ 8 by rw [ss_le_guin_lispector]; norm_num]
  rw [sqrtRound4_eq 27000000 10392 5196 (by norm_num) (by norm_num) (by norm_num)]
  norm_num

/-- Resolution of the catalog pair (le_guin, lispector). -/
theorem cd_le_guin_lispector :
    compute_style_distance "le_guin" "lispector" false =
      .ok (distance_report le_guin_entry lispector_entry false) := by
  simp [compute_style_distance, lookup_author, assoc_lookup, AUTHOR_CATALOG]

/-- Unweighted squared-distance sum for the pair (didion, lovecraft). -/
theorem ss_didion_lovecraft :
    sum_sq didion_entry.coordinates lovecraft_entry.coordinates false = 19650 / 10 ^ 4 := by
  norm_num [sum_sq, PARAMETER_NAMES, weight_factor, didion_entry, lovecraft_entry]

/-- Reported unweighted euclidean distance for the pair (didion, lovecraft). -/
theorem ed_didion_lovecraft :
    (distance_report didion_entry lovecraft_entry false).euclidean_distance =
      14018 / 10 ^ 4 := by
  simp only [distance_report]
  rw [show sum_sq didion_entry.coordinates lovecraft_entry.coordinates false =
      ((196500000 : ℕ) : ℚ) / 10 ^ 8 by rw [ss_didion_lovecraft]; norm_num]
  rw [sqrtRound4_eq 196500000 28035 14018 (by norm_num) (by norm_num) (by norm_num)]
  norm_num

/-- Resolution of the catalog pair (didion, lovecraft). -/
theorem cd_didion_lovecraft :
    compute_style_distance "didion" "lovecraft" false =
      .ok (distance_report didion_entry lovecraft_entry false) := by
  simp [compute_style_distance, lookup_author, assoc_lookup, AUTHOR_CATALOG]

/-- Unweighted squared-distance sum for the pair (didion, borges). -/
theorem ss_didion_borges :
    sum_sq didion_entry.coordinates borges_entry.coordinates false = 16325 / 10 ^ 4 := by
  norm_num [sum_sq, PARAMETER_NAMES, weight_factor, didion_entry, borges_entry]

/-- Reported unweighted euclidean distance for the pair (didion, borges). -/
theorem ed_didion_borges :
    (distance_report didion_entry borges_entry false).euclidean_distance =
      12777 / 10 ^ 4 := by
  simp only [distance_report]
  rw [show sum_sq didion_entry.coordinates borges_entry.coordinates false =
      ((163250000 : ℕ) : ℚ) / 10 ^ 8 by rw [ss_didion_borges]; norm_num]
  rw [sqrtRound4_eq 163250000 25553 12777 (by norm_num) (by norm_num) (by norm_num)]
  norm_num

/-- Resolution of the catalog pair (didion, borges). -/
theorem cd_didion_borges :
    compute_style_distance "didion" "borges" false =
      .ok (distance_report didion_entry borges_entry false) := by
  simp [compute_style_distance, lookup_author, assoc_lookup, AUTHOR_CATALOG]

/-- Unweighted squared-distance sum for the pair (didion, murakami). -/
theorem ss_didion_murakami :
    sum_sq didion_entry.coordinates murakami_entry.coordinates false = 6900 / 10 ^ 4 := by
  norm_num [sum_sq, PARAMETER_NAMES, weight_factor, didion_entry, murakami_entry]

/-- Reported unweighted euclidean distance for the pair (didion, murakami). -/
theorem ed_didion_murakami :
    (distance_report didion_entry murakami_entry false).euclidean_distance =
      8307 / 10 ^ 4 := by
  simp only [distance_report]
  rw [show sum_sq didion_entry.coordinates murakami_entry.coordinates false =
      ((69000000 : ℕ) : ℚ) / 10 ^ 8 by rw [ss_didion_murakami]; norm_num]
  rw [sqrtRound4_eq 69000000 16613 8307 (by norm_num) (by norm_num) (by norm_num)]
  norm_num

/-- Resolution of the catalog pair (didion, murakami). -/
theorem cd_didion_murakami :
    compute_style_distance "didion" "murakami" false =
      .ok (distance_report didion_entry murakami_entry false) := by
  simp [compute_style_distance, lookup_author, assoc_lookup, AUTHOR_CATALOG]

/-- Unweighted squared-distance sum for the pair (didion, marquez). -/
theorem ss_didion_marquez :
    sum_sq didion_entry.coordinates marquez_entry.coordinates false = 16425 / 10 ^ 4 := by
  norm_num [sum_sq, PARAMETER_NAMES, weight_factor, didion_entry, marquez_entry]

/-- Reported unweighted euclidean distance for the pair (didion, marquez). -/
theorem ed_didion_marquez :
    (distance_report didion_entry marquez_entry false).euclidean_distance =
      12816 / 10 ^ 4 := by
  simp only [distance_report]
  rw [show sum_sq didion_entry.coordinates marquez_entry.coordinates false =
      ((164250000 : ℕ) : ℚ) / 10 ^ 8 by rw [ss_didion_marquez]; norm_num]
  rw [sqrtRound4_eq 164250000 25632 12816 (by norm_num) (by norm_num) (by norm_num)]
  norm_num

/-- Resolution of the catalog pair (didion, marquez). -/
theorem cd_didion_marquez :
    compute_style_distance "didion" "marquez" false =
      .ok (distance_report didion_entry marquez_entry false) := by
  simp [compute_style_distance, lookup_author, assoc_lookup, AUTHOR_CATALOG]

/-- Unweighted squared-distance sum for the pair (didion, kafka). -/
theorem ss_didion_kafka :
    sum_sq didion_entry.coordinates kafka_entry.coordinates false = 7400 / 10 ^ 4 := by
  norm_num [sum_sq, PARAMETER_NAMES, weight_factor, didion_entry, kafka_entry]

/-- Reported unweighted euclidean distance for the pair (didion, kafka). -/
theorem ed_didion_kafka :
    (distance_report didion_entry kafka_entry false).euclidean_distance =
      8602 / 10 ^ 4 := by
  simp only [distance_report]
  rw [show sum_sq didion_entry.coordinates kafka_entry.coordinates false =
      ((74000000 : ℕ) : ℚ) / 10 ^ 8 by rw [ss_didion_kafka]; norm_num]
  rw [sqrtRound4_eq 74000000 17204 8602 (by norm_num) (by norm_num) (by norm_num)]
  norm_num

/-- Resolution of the catalog pair (didion, kafka). -/
theorem cd_didion_kafka :
    compute_style_distance "didion" "kafka" false =
      .ok (distance_report didion_entry kafka_entry false) := by
  simp [compute_style_distance, lookup_author, assoc_lookup, AUTHOR_CATALOG]

/-- Unweighted squared-distance sum for the pair (didion, shonagon). -/
theorem ss_didion_shonagon :
    sum_sq didion_entry.coordinates shonagon_entry.coordinates false = 3825 / 10 ^ 4 := by
  norm_num [sum_sq, PARAMETER_NAMES, weight_factor, didion_entry, shonagon_entry]

/-- Reported unweighted euclidean distance for the pair (didion, shonagon). -/
theorem ed_didion_shonagon :
    (distance_report didion_entry shonagon_entry false).euclidean_distance =
      6185 / 10 ^ 4 := by
  simp only [distance_report]
  rw [show sum_sq didion_entry.coordinates shonagon_entry.coordinates false =
      ((38250000 : ℕ) : ℚ) / 10 ^ 8 by rw [ss_didion_shonagon]; norm_num]
  rw [sqrtRound4_eq 38250000 12369 6185 (by norm_num) (by norm_num) (by norm_num)]
  norm_num

/-- Resolution of the catalog pair (didion, shonagon). -/
theorem cd_didion_shonagon :
    compute_style_distance "didion" "shonagon" false =
      .ok (distance_report didion_entry shonagon_entry false) := by
  simp [compute_style_distance, lookup_author, assoc_lookup, AUTHOR_CATALOG]

/-- Unweighted squared-distance sum for the pair (didion, lispector). -/
theorem ss_didion_lispector :
    sum_sq didion_entry.coordinates lispector_entry.coordinates false = 6400 / 10 ^ 4 := by
  norm_num [sum_sq, PARAMETER_NAMES, weight_factor, didion_entry, lispector_entry]

/-- Reported unweighted euclidean distance for the pair (didion, lispector). -/
theorem ed_didion_lispector :
    (distance_report didion_entry lispector_entry false).euclidean_distance =
      8000 / 10 ^ 4 := by
  simp only [distance_report]
  rw [show sum_sq didion_entry.coordinates lispector_entry.coordinates false =
      ((64000000 : ℕ) : ℚ) / 10 ^ 8 by rw [ss_didion_lispector]; norm_num]
  rw [sqrtRound4_eq 64000000 16000 8000 (by norm_num) (by norm_num) (by norm_num)]
  norm_num

/-- Resolution of the catalog pair (didion, lispector). -/
theorem cd_didion_lispector :
    compute_style_distance "didion" "lispector" false =
      .ok (distance_report didion_entry lispector_entry false) := by
  simp [compute_style_distance, lookup_author, assoc_lookup, AUTHOR_CATALOG]

/-- Unweighted squared-distance sum for the pair (lovecraft, borges). -/
theorem ss_lovecraft_borges :
    sum_sq lovecraft_entry.coordinates borges_entry.coordinates false = 2275 / 10 ^ 4 := by
  norm_num [sum_sq, PARAMETER_NAMES, weight_factor, lovecraft_entry, borges_entry]

/-- Reported unweighted euclidean distance for the pair (lovecraft, borges). -/
theorem ed_lovecraft_borges :
    (distance_report lovecraft_entry borges_entry false).euclidean_distance =
      4770 / 10 ^ 4 := by
  simp only [distance_report]
  rw [show sum_sq lovecraft_entry.coordinates borges_entry.coordinates false =
      ((22750000 : ℕ) : ℚ) / 10 ^ 8 by rw [ss_lovecraft_borges]; norm_num]
  rw [sqrtRound4_eq 22750000 9539 4770 (by norm_num) (by norm_num) (by norm_num)]
  norm_num

/-- Resolution of the catalog pair (lovecraft, borges). -/
theorem cd_lovecraft_borges :
    compute_style_distance "lovecraft" "borges" false =
      .ok (distance_report lovecraft_entry borges_entry false) := by
  simp [compute_style_distance, lookup_author, assoc_lookup, AUTHOR_CATALOG]

/-- Unweighted squared-distance sum for the pair (lovecraft, murakami). -/
theorem ss_lovecraft_murakami :
    sum_sq lovecraft_entry.coordinates murakami_entry.coordinates false = 20000 / 10 ^ 4 := by
  norm_num [sum_sq, PARAMETER_NAMES, weight_factor, lovecraft_entry, murakami_entry]

/-- Reported unweighted euclidean distance for the pair (lovecraft, murakami). -/
theorem ed_lovecraft_murakami :
    (distance_report lovecraft_entry murakami_entry false).euclidean_distance =
      14142 / 10 ^ 4 := by
  simp only [distance_report]
  rw [show sum_sq lovecraft_entry.coordinates murakami_entry.coordinates false =
      ((200000000 : ℕ) : ℚ) / 10 ^ 8 by rw [ss_lovecraft_murakami]; norm_num]
  rw [sqrtRound4_eq 200000000 28284 14142 (by norm_num) (by norm_num) (by norm_num)]
  norm_num

/-- Resolution of the catalog pair (lovecraft, murakami). -/
theorem cd_lovecraft_murakami :
    compute_style_distance "lovecraft" "murakami" false =
      .ok (distance_report lovecraft_entry murakami_entry false) := by
  simp [compute_style_distance, lookup_author, assoc_lookup, AUTHOR_CATALOG]

/-- Unweighted squared-distance sum for the pair (lovecraft, marquez). -/
theorem ss_lovecraft_marquez :
    sum_sq lovecraft_entry.coordinates marquez_entry.coordinates false = 2775 / 10 ^ 4 := by
  norm_num [sum_sq, PARAMETER_NAMES, weight_factor, lovecraft_entry, marquez_entry]

/-- Reported unweighted euclidean distance for the pair (lovecraft, marquez). -/
theorem ed_lovecraft_marquez :
    (distance_report lovecraft_entry marquez_entry false).euclidean_distance =
      5268 / 10 ^ 4 := by
  simp only [distance_report]
  rw [show sum_sq lovecraft_entry.coordinates marquez_entry.coordinates false =
      ((27750000 : ℕ) : ℚ) / 10 ^ 8 by rw [ss_lovecraft_marquez]; norm_num]
  rw [sqrtRound4_eq 27750000 10535 5268 (by norm_num) (by norm_num) (by norm_num)]
  norm_num

/-- Resolution of the catalog pair (lovecraft, marquez). -/
theorem cd_lovecraft_marquez :
    compute_style_distance "lovecraft" "marquez" false =
      .ok (distance_report lovecraft_entry marquez_entry false) := by
  simp [compute_style_distance, lookup_author, assoc_lookup, AUTHOR_CATALOG]

/-- Unweighted squared-distance sum for the pair (lovecraft, kafka). -/
theorem ss_lovecraft_kafka :
    sum_sq lovecraft_entry.coordinates kafka_entry.coordinates false = 14450 / 10 ^ 4 := by
  norm_num [sum_sq, PARAMETER_NAMES, weight_factor, lovecraft_entry, kafka_entry]

/-- Reported unweighted euclidean distance for the pair (lovecraft, kafka). -/
theorem ed_lovecraft_kafka :
    (distance_report lovecraft_entry kafka_entry false).euclidean_distance =
      12021 / 10 ^ 4 := by
  simp only [distance_report]
  rw [show sum_sq lovecraft_entry.coordinates kafka_entry.coordinates false =
      ((144500000 : ℕ) : ℚ) / 10 ^ 8 by rw [ss_lovecraft_kafka]; norm_num]
  rw [sqrtRound4_eq 144500000 24041 12021 (by norm_num) (by norm_num) (by norm_num)]
  norm_num

/-- Resolution of the catalog pair (lovecraft, kafka). -/
theorem cd_lovecraft_kafka :
    compute_style_distance "lovecraft" "kafka" false =
      .ok (distance_report lovecraft_entry kafka_entry false) := by
  simp [compute_style_distance, lookup_author, assoc_lookup, AUTHOR_CATALOG]

/-- Unweighted squared-distance sum for the pair (lovecraft, shonagon). -/
theorem ss_lovecraft_shonagon :
    sum_sq lovecraft_entry.coordinates shonagon_entry.coordinates false = 27025 / 10 ^ 4 := by
  norm_num [sum_sq, PARAMETER_NAMES, weight_factor, lovecraft_entry, shonagon_entry]

/-- Reported unweighted euclidean distance for the pair (lovecraft, shonagon). -/
theorem ed_lovecraft_shonagon :
    (distance_report lovecraft_entry shonagon_entry false).euclidean_distance =
      16439 / 10 ^ 4 := by
  simp only [distance_report]
  rw [show sum_sq lovecraft_entry.coordinates shonagon_entry.coordinates false =
      ((270250000 : ℕ) : ℚ) / 10 ^ 8 by rw [ss_lovecraft_shonagon]; norm_num]
  rw [sqrtRound4_eq 270250000 32878 16439 (by norm_num) (by norm_num) (by norm_num)]
  norm_num

/-- Resolution of the catalog pair (lovecraft, shonagon). -/
theorem cd_lovecraft_shonagon :
    compute_style_distance "lovecraft" "shonagon" false =
      .ok (distance_report lovecraft_entry shonagon_entry false) := by
  simp [compute_style_distance, lookup_author, assoc_lookup, AUTHOR_CATALOG]

/-- Unweighted squared-distance sum for the pair (lovecraft, lispector). -/
theorem ss_lovecraft_lispector :
    sum_sq lovecraft_entry.coordinates lispector_entry.coordinates false = 6400 / 10 ^ 4 := by
  norm_num [sum_sq, PARAMETER_NAMES, weight_factor, lovecraft_entry, lispector_entry]

/-- Reported unweighted euclidean distance for the pair (lovecraft, lispector). -/
theorem ed_lovecraft_lispector :
    (distance_report lovecraft_entry lispector_entry false).euclidean_distance =
      8000 / 10 ^ 4 := by
  simp only [distance_report]
  rw [show sum_sq lovecraft_entry.coordinates lispector_entry.coordinates false =
      ((64000000 : ℕ) : ℚ) / 10 ^ 8 by rw [ss_lovecraft_lispector]; norm_num]
  rw [sqrtRound4_eq 64000000 16000 8000 (by norm_num) (by norm_num) (by norm_num)]
  norm_num

/-- Resolution of the catalog pair (lovecraft, lispector). -/
theorem cd_lovecraft_lispector :
    compute_style_distance "lovecraft" "lispector" false =
      .ok (distance_report lovecraft_entry lispector_entry false) := by
  simp [compute_style_distance, lookup_author, assoc_lookup, AUTHOR_CATALOG]

/-- Unweighted squared-distance sum for the pair (borges, murakami). -/
theorem ss_borges_murakami :
    sum_sq borges_entry.coordinates murakami_entry.coordinates false = 15325 / 10 ^ 4 := by
  norm_num [sum_sq, PARAMETER_NAMES, weight_factor, borges_entry, murakami_entry]

/-- Reported unweighted euclidean distance for the pair (borges, murakami). -/
theorem ed_borges_murakami :
    (distance_report borges_entry murakami_entry false).euclidean_distance =
      12379 / 10 ^ 4 := by
  simp only [distance_report]
  rw [show sum_sq borges_entry.coordinates murakami_entry.coordinates false =
      ((153250000 : ℕ) : ℚ) / 10 ^ 8 by rw [ss_borges_murakami]; norm_num]
  rw [sqrtRound4_eq 153250000 24758 12379 (by norm_num) (by norm_num) (by norm_num)]
  norm_num

/-- Resolution of the catalog pair (borges, murakami). -/
theorem cd_borges_murakami :
    compute_style_distance "borges" "murakami" false =
      .ok (distance_report borges_entry murakami_entry false) := by
  simp [compute_style_distance, lookup_author, assoc_lookup, AUTHOR_CATALOG]

/-- Unweighted squared-distance sum for the pair (borges, marquez). -/
theorem ss_borges_marquez :
    sum_sq borges_entry.coordinates marquez_entry.coordinates false = 7100 / 10 ^ 4 := by
  norm_num [sum_sq, PARAMETER_NAMES, weight_factor, borges_entry, marquez_entry]

/-- Reported unweighted euclidean distance for the pair (borges, marquez). -/
theorem ed_borges_marquez :
    (distance_report borges_entry marquez_entry false).euclidean_distance =
      8426 / 10 ^ 4 := by
  simp only [distance_report]
  rw [show sum_sq borges_entry.coordinates marquez_entry.coordinates false =
      ((71000000 : ℕ) : ℚ) / 10 ^ 8 by rw [ss_borges_marquez]; norm_num]
  rw [sqrtRound4_eq 71000000 16852 8426 (by norm_num) (by norm_num) (by norm_num)]
  norm_num

/-- Resolution of the catalog pair (borges, marquez). -/
theorem cd_borges_marquez :
    compute_style_distance "borges" "marquez" false =
      .ok (distance_report borges_entry marquez_entry false) := by
  simp [compute_style_distance, lookup_author, assoc_lookup, AUTHOR_CATALOG]

/-- Unweighted squared-distance sum for the pair (borges, kafka). -/
theorem ss_borges_kafka :
    sum_sq borges_entry.coordinates kafka_entry.coordinates false = 8975 / 10 ^ 4 := by
  norm_num [sum_sq, PARAMETER_NAMES, weight_factor, borges_entry, kafka_entry]

/-- Reported unweighted euclidean distance for the pair (borges, kafka). -/
theorem ed_borges_kafka :
    (distance_report borges_entry kafka_entry false).euclidean_distance =
      9474 / 10 ^ 4 := by
  simp only [distance_report]
  rw [show sum_sq borges_entry.coordinates kafka_entry.coordinates false =
      ((89750000 : ℕ) : ℚ) / 10 ^ 8 by rw [ss_borges_kafka]; norm_num]
  rw [sqrtRound4_eq 89750000 18947 9474 (by norm_num) (by norm_num) (by norm_num)]
  norm_num

/-- Resolution of the catalog pair (borges, kafka). -/
theorem cd_borges_kafka :
    compute_style_distance "borges" "kafka" false =
      .ok (distance_report borges_entry kafka_entry false) := by
  simp [compute_style_distance, lookup_author, assoc_lookup, AUTHOR_CATALOG]

/-- Unweighted squared-distance sum for the pair (borges, shonagon). -/
theorem ss_borges_shonagon :
    sum_sq borges_entry.coordinates shonagon_entry.coordinates false = 24400 / 10 ^ 4 := by
  norm_num [sum_sq, PARAMETER_NAMES, weight_factor, borges_entry, shonagon_entry]

/-- Reported unweighted euclidean distance for the pair (borges, shonagon). -/
theorem ed_borges_shonagon :
    (distance_report borges_entry shonagon_entry false).euclidean_distance =
      15620 / 10 ^ 4 := by
  simp only [distance_report]
  rw [show sum_sq borges_entry.coordinates shonagon_entry.coordinates false =
      ((244000000 : ℕ) : ℚ) / 10 ^ 8 by rw [ss_borges_shonagon]; norm_num]
  rw [sqrtRound4_eq 244000000 31240 15620 (by norm_num) (by norm_num) (by norm_num)]
  norm_num

/-- Resolution of the catalog pair (borges, shonagon). -/
theorem cd_borges_shonagon :
    compute_style_distance "borges" "shonagon" false =
      .ok (distance_report borges_entry shonagon_entry false) := by
  simp [compute_style_distance, lookup_author, assoc_lookup, AUTHOR_CATALOG]

/-- Unweighted squared-distance sum for the pair (borges, lispector). -/
theorem ss_borges_lispector :
    sum_sq borges_entry.coordinates lispector_entry.coordinates false = 5625 / 10 ^ 4 := by
  norm_num [sum_sq, PARAMETER_NAMES, weight_factor, borges_entry, lispector_entry]

/-- Reported unweighted euclidean distance for the pair (borges, lispector). -/
theorem ed_borges_lispector :
    (distance_report borges_entry lispector_entry false).euclidean_distance =
      7500 / 10 ^ 4 := by
  simp only [distance_report]
  rw [show sum_sq borges_entry.coordinates lispector_entry.coordinates false =
      ((56250000 : ℕ) : ℚ) / 10 ^ 8 by rw [ss_borges_lispector]; norm_num]
  rw [sqrtRound4_eq 56250000 15000 7500 (by norm_num) (by norm_num) (by norm_num)]
  norm_num

/-- Resolution of the catalog pair (borges, lispector). -/
theorem cd_borges_lispector :
    compute_style_distance "borges" "lispector" false =
      .ok (distance_report borges_entry lispector_entry false) := by
  simp [compute_style_distance, lookup_author, assoc_lookup, AUTHOR_CATALOG]

/-- Unweighted squared-distance sum for the pair (murakami, marquez). -/
theorem ss_murakami_marquez :
    sum_sq murakami_entry.coordinates marquez_entry.coordinates false = 18175 / 10 ^ 4 := by
  norm_num [sum_sq, PARAMETER_NAMES, weight_factor, murakami_entry, marquez_entry]

/-- Reported unweighted euclidean distance for the pair (murakami, marquez). -/
theorem ed_murakami_marquez :
    (distance_report murakami_entry marquez_entry false).euclidean_distance =
      13481 / 10 ^ 4 := by
  simp only [distance_report]
  rw [show sum_sq murakami_entry.coordinates marquez_entry.coordinates false =
      ((181750000 : ℕ) : ℚ) / 10 ^ 8 by rw [ss_murakami_marquez]; norm_num]
  rw [sqrtRound4_eq 181750000 26962 13481 (by norm_num) (by norm_num) (by norm_num)]
  norm_num

/-- Resolution of the catalog pair (murakami, marquez). -/
theorem cd_murakami_marquez :
    compute_style_distance "murakami" "marquez" false =
      .ok (distance_report murakami_entry marquez_entry false) := by
  simp [compute_style_distance, lookup_author, assoc_lookup, AUTHOR_CATALOG]

/-- Unweighted squared-distance sum for the pair (murakami, kafka). -/
theorem ss_murakami_kafka :
    sum_sq murakami_entry.coordinates kafka_entry.coordinates false = 4500 / 10 ^ 4 := by
  norm_num [sum_sq, PARAMETER_NAMES, weight_factor, murakami_entry, kafka_entry]

/-- Reported unweighted euclidean distance for the pair (murakami, kafka). -/
theorem ed_murakami_kafka :
    (distance_report murakami_entry kafka_entry false).euclidean_distance =
      6708 / 10 ^ 4 := by
  simp only [distance_report]
  rw [show sum_sq murakami_entry.coordinates kafka_entry.coordinates false =
      ((45000000 : ℕ) : ℚ) / 10 ^ 8 by rw [ss_murakami_kafka]; norm_num]
  rw [sqrtRound4_eq 45000000 13416 6708 (by norm_num) (by norm_num) (by norm_num)]
  norm_num

/-- Resolution of the catalog pair (murakami, kafka). -/
theorem cd_murakami_kafka :
    compute_style_distance "murakami" "kafka" false =
      .ok (distance_report murakami_entry kafka_entry false) := by
  simp [compute_style_distance, lookup_author, assoc_lookup, AUTHOR_CATALOG]

/-- Unweighted squared-distance sum for the pair (murakami, shonagon). -/
theorem ss_murakami_shonagon :
    sum_sq murakami_entry.coordinates shonagon_entry.coordinates false = 5325 / 10 ^ 4 := by
  norm_num [sum_sq, PARAMETER_NAMES, weight_factor, murakami_entry, shonagon_entry]

/-- Reported unweighted euclidean distance for the pair (murakami, shonagon). -/
theorem ed_murakami_shonagon :
    (distance_report murakami_entry shonagon_entry false).euclidean_distance =
      7297 / 10 ^ 4 := by
  simp only [distance_report]
  rw [show sum_sq murakami_entry.coordinates shonagon_entry.coordinates false =
      ((53250000 : ℕ) : ℚ) / 10 ^ 8 by rw [ss_murakami_shonagon]; norm_num]
  rw [sqrtRound4_eq 53250000 14594 7297 (by norm_num) (by norm_num) (by norm_num)]
  norm_num

/-- Resolution of the catalog pair (murakami, shonagon). -/
theorem cd_murakami_shonagon :
    compute_style_distance "murakami" "shonagon" false =
      .ok (distance_report murakami_entry shonagon_entry false) := by
  simp [compute_style_distance, lookup_author, assoc_lookup, AUTHOR_CATALOG]

/-- Unweighted squared-distance sum for the pair (murakami, lispector). -/
theorem ss_murakami_lispector :
    sum_sq murakami_entry.coordinates lispector_entry.coordinates false = 8350 / 10 ^ 4 := by
  norm_num [sum_sq, PARAMETER_NAMES, weight_factor, murakami_entry, lispector_entry]

/-- Reported unweighted euclidean distance for the pair (murakami, lispector). -/
theorem ed_murakami_lispector :
    (distance_report murakami_entry lispector_entry false).euclidean_distance =
      9138 / 10 ^ 4 := by
  simp only [distance_report]
  rw [show sum_sq murakami_entry.coordinates lispector_entry.coordinates false =
      ((83500000 : ℕ) : ℚ) / 10 ^ 8 by rw [ss_murakami_lispector]; norm_num]
  rw [sqrtRound4_eq 83500000 18275 9138 (by norm_num) (by norm_num) (by norm_num)]
  norm_num

/-- Resolution of the catalog pair (murakami, lispector). -/
theorem cd_murakami_lispector :
    compute_style_distance "murakami" "lispector" false =
      .ok (distance_report murakami_entry lispector_entry false) := by
  simp [compute_style_distance, lookup_author, assoc_lookup, AUTHOR_CATALOG]

/-- Unweighted squared-distance sum for the pair (marquez, kafka). -/
theorem ss_marquez_kafka :
    sum_sq marquez_entry.coordinates kafka_entry.coordinates false = 15125 / 10 ^ 4 := by
  norm_num [sum_sq, PARAMETER_NAMES, weight_factor, marquez_entry, kafka_entry]

/-- Reported unweighted euclidean distance for the pair (marquez, kafka). -/
theorem ed_marquez_kafka :
    (distance_report marquez_entry kafka_entry false).euclidean_distance =
      12298 / 10 ^ 4 := by
  simp only [distance_report]
  rw [show sum_sq marquez_entry.coordinates kafka_entry.coordinates false =
      ((151250000 : ℕ) : ℚ) / 10 ^ 8 by rw [ss_marquez_kafka]; norm_num]
  rw [sqrtRound4_eq 151250000 24596 12298 (by norm_num) (by norm_num) (by norm_num)]
  norm_num

/-- Resolution of the catalog pair (marquez, kafka). -/
theorem cd_marquez_kafka :
    compute_style_distance "marquez" "kafka" false =
      .ok (distance_report marquez_entry kafka_entry false) := by
  simp [compute_style_distance, lookup_author, assoc_lookup, AUTHOR_CATALOG]

/-- Unweighted squared-distance sum for the pair (marquez, shonagon). -/
theorem ss_marquez_shonagon :
    sum_sq marquez_entry.coordinates shonagon_entry.coordinates false = 23300 / 10 ^ 4 := by
  norm_num [sum_sq, PARAMETER_NAMES, weight_factor, marquez_entry, shonagon_entry]

/-- Reported unweighted euclidean distance for the pair (marquez, shonagon). -/
theorem ed_marquez_shonagon :
    (distance_report marquez_entry shonagon_entry false).euclidean_distance =
      15264 / 10 ^ 4 := by
  simp only [distance_report]
  rw [show sum_sq marquez_entry.coordinates shonagon_entry.coordinates false =
      ((233000000 : ℕ) : ℚ) / 10 ^ 8 by rw [ss_marquez_shonagon]; norm_num]
  rw [sqrtRound4_eq 233000000 30528 15264 (by norm_num) (by norm_num) (by norm_num)]
  norm_num

/-- Resolution of the catalog pair (marquez, shonagon). -/
theorem cd_marquez_shonagon :
    compute_style_distance "marquez" "shonagon" false =
      .ok (distance_report marquez_entry shonagon_entry false) := by
  simp [compute_style_distance, lookup_author, assoc_lookup, AUTHOR_CATALOG]

/-- Unweighted squared-distance sum for the pair (marquez, lispector). -/
theorem ss_marquez_lispector :
    sum_sq marquez_entry.coordinates lispector_entry.coordinates false = 8325 / 10 ^ 4 := by
  norm_num [sum_sq, PARAMETER_NAMES, weight_factor, marquez_entry, lispector_entry]

/-- Reported unweighted euclidean distance for the pair (marquez, lispector). -/
theorem ed_marquez_lispector :
    (distance_report marquez_entry lispector_entry false).euclidean_distance =
      9124 / 10 ^ 4 := by
  simp only [distance_report]
  rw [show sum_sq marquez_entry.coordinates lispector_entry.coordinates false =
      ((83250000 : ℕ) : ℚ) / 10 ^ 8 by rw [ss_marquez_lispector]; norm_num]
  rw [sqrtRound4_eq 83250000 18248 9124 (by norm_num) (by norm_num) (by norm_num)]
  norm_num

/-- Resolution of the catalog pair (marquez, lispector). -/
theorem cd_marquez_lispector :
    compute_style_distance "marquez" "lispector" false =
      .ok (distance_report marquez_entry lispector_entry false) := by
  simp [compute_style_distance, lookup_author, assoc_lookup, AUTHOR_CATALOG]

/-- Unweighted squared-distance sum for the pair (kafka, shonagon). -/
theorem ss_kafka_shonagon :
    sum_sq kafka_entry.coordinates shonagon_entry.coordinates false = 12225 / 10 ^ 4 := by
  norm_num [sum_sq, PARAMETER_NAMES, weight_factor, kafka_entry, shonagon_entry]

/-- Reported unweighted euclidean distance for the pair (kafka, shonagon). -/
theorem ed_kafka_shonagon :
    (distance_report kafka_entry shonagon_entry false).euclidean_distance =
      11057 / 10 ^ 4 := by
  simp only [distance_report]
  rw [show sum_sq kafka_entry.coordinates shonagon_entry.coordinates false =
      ((122250000 : ℕ) : ℚ) / 10 ^ 8 by rw [ss_kafka_shonagon]; norm_num]
  rw [sqrtRound4_eq 122250000 22113 11057 (by norm_num) (by norm_num) (by norm_num)]
  norm_num

/-- Resolution of the catalog pair (kafka, shonagon). -/
theorem cd_kafka_shonagon :
    compute_style_distance "kafka" "shonagon" false =
      .ok (distance_report kafka_entry shonagon_entry false) := by
  simp [compute_style_distance, lookup_author, assoc_lookup, AUTHOR_CATALOG]

/-- Unweighted squared-distance sum for the pair (kafka, lispector). -/
theorem ss_kafka_lispector :
    sum_sq kafka_entry.coordinates lispector_entry.coordinates false = 8500 / 10 ^ 4 := by
  norm_num [sum_sq, PARAMETER_NAMES, weight_factor, kafka_entry, lispector_entry]

/-- Reported unweighted euclidean distance for the pair (kafka, lispector). -/
theorem ed_kafka_lispector :
    (distance_report kafka_entry lispector_entry false).euclidean_distance =
      9220 / 10 ^ 4 := by
  simp only [distance_report]
  rw [show sum_sq kafka_entry.coordinates lispector_entry.coordinates false =
      ((85000000 : ℕ) : ℚ) / 10 ^ 8 by rw [ss_kafka_lispector]; norm_num]
  rw [sqrtRound4_eq 85000000 18439 9220 (by norm_num) (by norm_num) (by norm_num)]
  norm_num

/-- Resolution of the catalog pair (kafka, lispector). -/
theorem cd_kafka_lispector :
    compute_style_distance "kafka" "lispector" false =
      .ok (distance_report kafka_entry lispector_entry false) := by
  simp [compute_style_distance, lookup_author, assoc_lookup, AUTHOR_CATALOG]

/-- Unweighted squared-distance sum for the pair (shonagon, lispector). -/
theorem ss_shonagon_lispector :
    sum_sq shonagon_entry.coordinates lispector_entry.coordinates false = 9225 / 10 ^ 4 := by
  norm_num [sum_sq, PARAMETER_NAMES, weight_factor, shonagon_entry, lispector_entry]

/-- Reported unweighted euclidean distance for the pair (shonagon, lispector). -/
theorem ed_shonagon_lispector :
    (distance_report shonagon_entry lispector_entry false).euclidean_distance =
      9605 / 10 ^ 4 := by
  simp only [distance_report]
  rw [show sum_sq shonagon_entry.coordinates lispector_entry.coordinates false =
      ((92250000 : ℕ) : ℚ) / 10 ^ 8 by rw [ss_shonagon_lispector]; norm_num]
  rw [sqrtRound4_eq 92250000 19209 9605 (by norm_num) (by norm_num) (by norm_num)]
  norm_num

/-- Resolution of the catalog pair (shonagon, lispector). -/
theorem cd_shonagon_lispector :
    compute_style_distance "shonagon" "lispector" false =
      .ok (distance_report shonagon_entry lispector_entry false) := by
  simp [compute_style_distance, lookup_author, assoc_lookup, AUTHOR_CATALOG]

/-- Resolution of the stored coordinates of "hemingway". -/
theorem co_hemingway : coordinates_of "hemingway" = hemingway_entry.coordinates := by
  simp [coordinates_of, lookup_author, assoc_lookup, AUTHOR_CATALOG]

/-- Resolution of the stored coordinates of "de_sade". -/
theorem co_de_sade : coordinates_of "de_sade" = de_sade_entry.coordinates := by
  simp [coordinates_of, lookup_author, assoc_lookup, AUTHOR_CATALOG]

/-- Resolution of the stored coordinates of "le_guin". -/
theorem co_le_guin : coordinates_of "le_guin" = le_guin_entry.coordinates := by
  simp [coordinates_of, lookup_author, assoc_lookup, AUTHOR_CATALOG]

/-- Resolution of the stored coordinates of "didion". -/
theorem co_didion : coordinates_of "didion" = didion_entry.coordinates := by
  simp [coordinates_of, lookup_author, assoc_lookup, AUTHOR_CATALOG]

/-- Resolution of the stored coordinates of "lovecraft". -/
theorem co_lovecraft : coordinates_of "lovecraft" = lovecraft_entry.coordinates := by
  simp [coordinates_of, lookup_author, assoc_lookup, AUTHOR_CATALOG]

/-- Resolution of the stored coordinates of "borges". -/
theorem co_borges : coordinates_of "borges" = borges_entry.coordinates := by
  simp [coordinates_of, lookup_author, assoc_lookup, AUTHOR_CATALOG]

/-- Resolution of the stored coordinates of "murakami". -/
theorem co_murakami : coordinates_of "murakami" = murakami_entry.coordinates := by
  simp [coordinates_of, lookup_author, assoc_lookup, AUTHOR_CATALOG]

/-- Resolution of the stored coordinates of "marquez". -/
theorem co_marquez : coordinates_of "marquez" = marquez_entry.coordinates := by
  simp [coordinates_of, lookup_author, assoc_lookup, AUTHOR_CATALOG]

/-- Resolution of the stored coordinates of "kafka". -/
theorem co_kafka : coordinates_of "kafka" = kafka_entry.coordinates := by
  simp [coordinates_of, lookup_author, assoc_lookup, AUTHOR_CATALOG]

/-- Resolution of the stored coordinates of "shonagon". -/
theorem co_shonagon : coordinates_of "shonagon" = shonagon_entry.coordinates := by
  simp [coordinates_of, lookup_author, assoc_lookup, AUTHOR_CATALOG]

/-- Resolution of the stored coordinates of "lispector". -/
theorem co_lispector : coordinates_of "lispector" = lispector_entry.coordinates := by
  simp [coordinates_of, lookup_author, assoc_lookup, AUTHOR_CATALOG]

/-- Reduction of a bind applied to a success value. -/
theorem except_bind_ok {α β : Type} (a : α) (f : α → Except String β) :
    ((Except.ok a : Except String α) >>= f) = f a := rfl

/-- One scanning step of `find_max_contrast_pair`, at the pair (hemingway, de_sade). -/
theorem step_hemingway_de_sade (rest : List (String × String)) (d : ℚ)
    (pr : Option (String × String)) :
    max_contrast_fold (("hemingway", "de_sade") :: rest) d pr =
      if (17923 : ℚ) / 10 ^ 4 > d then
        max_contrast_fold rest (17923 / 10 ^ 4) (some ("hemingway", "de_sade"))
      else max_contrast_fold rest d pr := by
  rw [max_contrast_fold, cd_hemingway_de_sade]
  simp only [except_bind_ok, ed_hemingway_de_sade]

/-- One scanning step of `find_max_contrast_pair`, at the pair (hemingway, le_guin). -/
theorem step_hemingway_le_guin (rest : List (String × String)) (d : ℚ)
    (pr : Option (String × String)) :
    max_contrast_fold (("hemingway", "le_guin") :: rest) d pr =
      if (11045 : ℚ) / 10 ^ 4 > d then
        max_contrast_fold rest (11045 / 10 ^ 4) (some ("hemingway", "le_guin"))
      else max_contrast_fold rest d pr := by
  rw [max_contrast_fold, cd_hemingway_le_guin]
  simp only [except_bind_ok, ed_hemingway_le_guin]

/-- One scanning step of `find_max_contrast_pair`, at the pair (hemingway, didion). -/
theorem step_hemingway_didion (rest : List (String × String)) (d : ℚ)
    (pr : Option (String × String)) :
    max_contrast_fold (("hemingway", "didion") :: rest) d pr =
      if (6928 : ℚ) / 10 ^ 4 > d then
        max_contrast_fold rest (6928 / 10 ^ 4) (some ("hemingway", "didion"))
      else max_contrast_fold rest d pr := by
  rw [max_contrast_fold, cd_hemingway_didion]
  simp only [except_bind_ok, ed_hemingway_didion]

/-- One scanning step of `find_max_contrast_pair`, at the pair (hemingway, lovecraft). -/
theorem step_hemingway_lovecraft (rest : List (String × String)) (d : ℚ)
    (pr : Option (String × String)) :
    max_contrast_fold (("hemingway", "lovecraft") :: rest) d pr =
      if (18628 : ℚ) / 10 ^ 4 > d then
        max_contrast_fold rest (18628 / 10 ^ 4) (some ("hemingway", "lovecraft"))
      else max_contrast_fold rest d pr := by
  rw [max_contrast_fold, cd_hemingway_lovecraft]
  simp only [except_bind_ok, ed_hemingway_lovecraft]

/-- One scanning step of `find_max_contrast_pair`, at the pair (hemingway, borges). -/
theorem step_hemingway_borges (rest : List (String × String)) (d : ℚ)
    (pr : Option (String × String)) :
    max_contrast_fold (("hemingway", "borges") :: rest) d pr =
      if (17529 : ℚ) / 10 ^ 4 > d then
        max_contrast_fold rest (17529 / 10 ^ 4) (some ("hemingway", "borges"))
      else max_contrast_fold rest d pr := by
  rw [max_contrast_fold, cd_hemingway_borges]
  simp only [except_bind_ok, ed_hemingway_borges]

/-- One scanning step of `find_max_contrast_pair`, at the pair (hemingway, murakami). -/
theorem step_hemingway_murakami (rest : List (String × String)) (d : ℚ)
    (pr : Option (String × String)) :
    max_contrast_fold (("hemingway", "murakami") :: rest) d pr =
      if (8485 : ℚ) / 10 ^ 4 > d then
        max_contrast_fold rest (8485 / 10 ^ 4) (some ("hemingway", "murakami"))
      else max_contrast_fold rest d pr := by
  rw [max_contrast_fold, cd_hemingway_murakami]
  simp only [except_bind_ok, ed_hemingway_murakami]

/-- One scanning step of `find_max_contrast_pair`, at the pair (hemingway, marquez). -/
theorem step_hemingway_marquez (rest : List (String × String)) (d : ℚ)
    (pr : Option (String × String)) :
    max_contrast_fold (("hemingway", "marquez") :: rest) d pr =
      if (16439 : ℚ) / 10 ^ 4 > d then
        max_contrast_fold rest (16439 / 10 ^ 4) (some ("hemingway", "marquez"))
      else max_contrast_fold rest d pr := by
  rw [max_contrast_fold, cd_hemingway_marquez]
  simp only [except_bind_ok, ed_hemingway_marquez]

/-- One scanning step of `find_max_contrast_pair`, at the pair (hemingway, kafka). -/
theorem step_hemingway_kafka (rest : List (String × String)) (d : ℚ)
    (pr : Option (String × String)) :
    max_contrast_fold (("hemingway", "kafka") :: rest) d pr =
      if (10700 : ℚ) / 10 ^ 4 > d then
        max_contrast_fold rest (10700 / 10 ^ 4) (some ("hemingway", "kafka"))
      else max_contrast_fold rest d pr := by
  rw [max_contrast_fold, cd_hemingway_kafka]
  simp only [except_bind_ok, ed_hemingway_kafka]

/-- One scanning step of `find_max_contrast_pair`, at the pair (hemingway, shonagon). -/
theorem step_hemingway_shonagon (rest : List (String × String)) (d : ℚ)
    (pr : Option (String × String)) :
    max_contrast_fold (("hemingway", "shonagon") :: rest) d pr =
      if (6500 : ℚ) / 10 ^ 4 > d then
        max_contrast_fold rest (6500 / 10 ^ 4) (some ("hemingway", "shonagon"))
      else max_contrast_fold rest d pr := by
  rw [max_contrast_fold, cd_hemingway_shonagon]
  simp only [except_bind_ok, ed_hemingway_shonagon]

/-- One scanning step of `find_max_contrast_pair`, at the pair (hemingway, lispector). -/
theorem step_hemingway_lispector (rest : List (String × String)) (d : ℚ)
    (pr : Option (String × String)) :
    max_contrast_fold (("hemingway", "lispector") :: rest) d pr =
      if (13304 : ℚ) / 10 ^ 4 > d then
        max_contrast_fold rest (13304 / 10 ^ 4) (some ("hemingway", "lispector"))
      else max_contrast_fold rest d pr := by
  rw [max_contrast_fold, cd_hemingway_lispector]
  simp only [except_bind_ok, ed_hemingway_lispector]

/-- One scanning step of `find_max_contrast_pair`, at the pair (de_sade, le_guin). -/
theorem step_de_sade_le_guin (rest : List (String × String)) (d : ℚ)
    (pr : Option (String × String)) :
    max_contrast_fold (("de_sade", "le_guin") :: rest) d pr =
      if (9500 : ℚ) / 10 ^ 4 > d then
        max_contrast_fold rest (9500 / 10 ^ 4) (some ("de_sade", "le_guin"))
      else max_contrast_fold rest d pr := by
  rw [max_contrast_fold, cd_de_sade_le_guin]
  simp only [except_bind_ok, ed_de_sade_le_guin]

/-- One scanning step of `find_max_contrast_pair`, at the pair (de_sade, didion). -/
theorem step_de_sade_didion (rest : List (String × String)) (d : ℚ)
    (pr : Option (String × String)) :
    max_contrast_fold (("de_sade", "didion") :: rest) d pr =
      if (14027 : ℚ) / 10 ^ 4 > d then
        max_contrast_fold rest (14027 / 10 ^ 4) (some ("de_sade", "didion"))
      else max_contrast_fold rest d pr := by
  rw [max_contrast_fold, cd_de_sade_didion]
  simp only [except_bind_ok, ed_de_sade_didion]

/-- One scanning step of `find_max_contrast_pair`, at the pair (de_sade, lovecraft). -/
theorem step_de_sade_lovecraft (rest : List (String × String)) (d : ℚ)
    (pr : Option (String × String)) :
    max_contrast_fold (("de_sade", "lovecraft") :: rest) d pr =
      if (7228 : ℚ) / 10 ^ 4 > d then
        max_contrast_fold rest (7228 / 10 ^ 4) (some ("de_sade", "lovecraft"))
      else max_contrast_fold rest d pr := by
  rw [max_contrast_fold, cd_de_sade_lovecraft]
  simp only [except_bind_ok, ed_de_sade_lovecraft]

/-- One scanning step of `find_max_contrast_pair`, at the pair (de_sade, borges). -/
theorem step_de_sade_borges (rest : List (String × String)) (d : ℚ)
    (pr : Option (String × String)) :
    max_contrast_fold (("de_sade", "borges") :: rest) d pr =
      if (10271 : ℚ) / 10 ^ 4 > d then
        max_contrast_fold rest (10271 / 10 ^ 4) (some ("de_sade", "borges"))
      else max_contrast_fold rest d pr := by
  rw [max_contrast_fold, cd_de_sade_borges]
  simp only [except_bind_ok, ed_de_sade_borges]

/-- One scanning step of `find_max_contrast_pair`, at the pair (de_sade, murakami). -/
theorem step_de_sade_murakami (rest : List (String × String)) (d : ℚ)
    (pr : Option (String × String)) :
    max_contrast_fold (("de_sade", "murakami") :: rest) d pr =
      if (16424 : ℚ) / 10 ^ 4 > d then
        max_contrast_fold rest (16424 / 10 ^ 4) (some ("de_sade", "murakami"))
      else max_contrast_fold rest d pr := by
  rw [max_contrast_fold, cd_de_sade_murakami]
  simp only [except_bind_ok, ed_de_sade_murakami]

/-- One scanning step of `find_max_contrast_pair`, at the pair (de_sade, marquez). -/
theorem step_de_sade_marquez (rest : List (String × String)) (d : ℚ)
    (pr : Option (String × String)) :
    max_contrast_fold (("de_sade", "marquez") :: rest) d pr =
      if (5745 : ℚ) / 10 ^ 4 > d then
        max_contrast_fold rest (5745 / 10 ^ 4) (some ("de_sade", "marquez"))
      else max_contrast_fold rest d pr := by
  rw [max_contrast_fold, cd_de_sade_marquez]
  simp only [except_bind_ok, ed_de_sade_marquez]

/-- One scanning step of `find_max_contrast_pair`, at the pair (de_sade, kafka). -/
theorem step_de_sade_kafka (rest : List (String × String)) (d : ℚ)
    (pr : Option (String × String)) :
    max_contrast_fold (("de_sade", "kafka") :: rest) d pr =
      if (13666 : ℚ) / 10 ^ 4 > d then
        max_contrast_fold rest (13666 / 10 ^ 4) (some ("de_sade", "kafka"))
      else max_contrast_fold rest d pr := by
  rw [max_contrast_fold, cd_de_sade_kafka]
  simp only [except_bind_ok, ed_de_sade_kafka]

/-- One scanning step of `find_max_contrast_pair`, at the pair (de_sade, shonagon). -/
theorem step_de_sade_shonagon (rest : List (String × String)) (d : ℚ)
    (pr : Option (String × String)) :
    max_contrast_fold (("de_sade", "shonagon") :: rest) d pr =
      if (17059 : ℚ) / 10 ^ 4 > d then
        max_contrast_fold rest (17059 / 10 ^ 4) (some ("de_sade", "shonagon"))
      else max_contrast_fold rest d pr := by
  rw [max_contrast_fold, cd_de_sade_shonagon]
  simp only [except_bind_ok, ed_de_sade_shonagon]

/-- One scanning step of `find_max_contrast_pair`, at the pair (de_sade, lispector). -/
theorem step_de_sade_lispector (rest : List (String × String)) (d : ℚ)
    (pr : Option (String × String)) :
    max_contrast_fold (("de_sade", "lispector") :: rest) d pr =
      if (11169 : ℚ) / 10 ^ 4 > d then
        max_contrast_fold rest (11169 / 10 ^ 4) (some ("de_sade", "lispector"))
      else max_contrast_fold rest d pr := by
  rw [max_contrast_fold, cd_de_sade_lispector]
  simp only [except_bind_ok, ed_de_sade_lispector]

/-- One scanning step of `find_max_contrast_pair`, at the pair (le_guin, didion). -/
theorem step_le_guin_didion (rest : List (String × String)) (d : ℚ)
    (pr : Option (String × String)) :
    max_contrast_fold (("le_guin", "didion") :: rest) d pr =
      if (7280 : ℚ) / 10 ^ 4 > d then
        max_contrast_fold rest (7280 / 10 ^ 4) (some ("le_guin", "didion"))
      else max_contrast_fold rest d pr := by
  rw [max_contrast_fold, cd_le_guin_didion]
  simp only [except_bind_ok, ed_le_guin_didion]

/-- One scanning step of `find_max_contrast_pair`, at the pair (le_guin, lovecraft). -/
theorem step_le_guin_lovecraft (rest : List (String × String)) (d : ℚ)
    (pr : Option (String × String)) :
    max_contrast_fold (("le_guin", "lovecraft") :: rest) d pr =
      if (7746 : ℚ) / 10 ^ 4 > d then
        max_contrast_fold rest (7746 / 10 ^ 4) (some ("le_guin", "lovecraft"))
      else max_contrast_fold rest d pr := by
  rw [max_contrast_fold, cd_le_guin_lovecraft]
  simp only [except_bind_ok, ed_le_guin_lovecraft]

/-- One scanning step of `find_max_contrast_pair`, at the pair (le_guin, borges). -/
theorem step_le_guin_borges (rest : List (String × String)) (d : ℚ)
    (pr : Option (String × String)) :
    max_contrast_fold (("le_guin", "borges") :: rest) d pr =
      if (6982 : ℚ) / 10 ^ 4 > d then
        max_contrast_fold rest (6982 / 10 ^ 4) (some ("le_guin", "borges"))
      else max_contrast_fold rest d pr := by
  rw [max_contrast_fold, cd_le_guin_borges]
  simp only [except_bind_ok, ed_le_guin_borges]

/-- One scanning step of `find_max_contrast_pair`, at the pair (le_guin, murakami). -/
theorem step_le_guin_murakami (rest : List (String × String)) (d : ℚ)
    (pr : Option (String × String)) :
    max_contrast_fold (("le_guin", "murakami") :: rest) d pr =
      if (7550 : ℚ) / 10 ^ 4 > d then
        max_contrast_fold rest (7550 / 10 ^ 4) (some ("le_guin", "murakami"))
      else max_contrast_fold rest d pr := by
  rw [max_contrast_fold, cd_le_guin_murakami]
  simp only [except_bind_ok, ed_le_guin_murakami]

/-- One scanning step of `find_max_contrast_pair`, at the pair (le_guin, marquez). -/
theorem step_le_guin_marquez (rest : List (String × String)) (d : ℚ)
    (pr : Option (String × String)) :
    max_contrast_fold (("le_guin", "marquez") :: rest) d pr =
      if (7053 : ℚ) / 10 ^ 4 > d then
        max_contrast_fold rest (7053 / 10 ^ 4) (some ("le_guin", "marquez"))
      else max_contrast_fold rest d pr := by
  rw [max_contrast_fold, cd_le_guin_marquez]
  simp only [except_bind_ok, ed_le_guin_marquez]

/-- One scanning step of `find_max_contrast_pair`, at the pair (le_guin, kafka). -/
theorem step_le_guin_kafka (rest : List (String × String)) (d : ℚ)
    (pr : Option (String × String)) :
    max_contrast_fold (("le_guin", "kafka") :: rest) d pr =
      if (6364 : ℚ) / 10 ^ 4 > d then
        max_contrast_fold rest (6364 / 10 ^ 4) (some ("le_guin", "kafka"))
      else max_contrast_fold rest d pr := by
  rw [max_contrast_fold, cd_le_guin_kafka]
  simp only [except_bind_ok, ed_le_guin_kafka]

/-- One scanning step of `find_max_contrast_pair`, at the pair (le_guin, shonagon). -/
theorem step_le_guin_shonagon (rest : List (String × String)) (d : ℚ)
    (pr : Option (String × String)) :
    max_contrast_fold (("le_guin", "shonagon") :: rest) d pr =
      if (9887 : ℚ) / 10 ^ 4 > d then
        max_contrast_fold rest (9887 / 10 ^ 4) (some ("le_guin", "shonagon"))
      else max_contrast_fold rest d pr := by
  rw [max_contrast_fold, cd_le_guin_shonagon]
  simp only [except_bind_ok, ed_le_guin_shonagon]

/-- One scanning step of `find_max_contrast_pair`, at the pair (le_guin, lispector). -/
theorem step_le_guin_lispector (rest : List (String × String)) (d : ℚ)
    (pr : Option (String × String)) :
    max_contrast_fold (("le_guin", "lispector") :: rest) d pr =
      if (5196 : ℚ) / 10 ^ 4 > d then
        max_contrast_fold rest (5196 / 10 ^ 4) (some ("le_guin", "lispector"))
      else max_contrast_fold rest d pr := by
  rw [max_contrast_fold, cd_le_guin_lispector]
  simp only [except_bind_ok, ed_le_guin_lispector]

/-- One scanning step of `find_max_contrast_pair`, at the pair (didion, lovecraft). -/
theorem step_didion_lovecraft (rest : List (String × String)) (d : ℚ)
    (pr : Option (String × String)) :
    max_contrast_fold (("didion", "lovecraft") :: rest) d pr =
      if (14018 : ℚ) / 10 ^ 4 > d then
        max_contrast_fold rest (14018 / 10 ^ 4) (some ("didion", "lovecraft"))
      else max_contrast_fold rest d pr := by
  rw [max_contrast_fold, cd_didion_lovecraft]
  simp only [except_bind_ok, ed_didion_lovecraft]

/-- One scanning step of `find_max_contrast_pair`, at the pair (didion, borges). -/
theorem step_didion_borges (rest : List (String × String)) (d : ℚ)
    (pr : Option (String × String)) :
    max_contrast_fold (("didion", "borges") :: rest) d pr =
      if (12777 : ℚ) / 10 ^ 4 > d then
        max_contrast_fold rest (12777 / 10 ^ 4) (some ("didion", "borges"))
      else max_contrast_fold rest d pr := by
  rw [max_contrast_fold, cd_didion_borges]
  simp only [except_bind_ok, ed_didion_borges]

/-- One scanning step of `find_max_contrast_pair`, at the pair (didion, murakami). -/
theorem step_didion_murakami (rest : List (String × String)) (d : ℚ)
    (pr : Option (String × String)) :
    max_contrast_fold (("didion", "murakami") :: rest) d pr =
      if (8307 : ℚ) / 10 ^ 4 > d then
        max_contrast_fold rest (8307 / 10 ^ 4) (some ("didion", "murakami"))
      else max_contrast_fold rest d pr := by
  rw [max_contrast_fold, cd_didion_murakami]
  simp only [except_bind_ok, ed_didion_murakami]

/-- One scanning step of `find_max_contrast_pair`, at the pair (didion, marquez). -/
theorem step_didion_marquez (rest : List (String × String)) (d : ℚ)
    (pr : Option (String × String)) :
    max_contrast_fold (("didion", "marquez") :: rest) d pr =
      if (12816 : ℚ) / 10 ^ 4 > d then
        max_contrast_fold rest (12816 / 10 ^ 4) (some ("didion", "marquez"))
      else max_contrast_fold rest d pr := by
  rw [max_contrast_fold, cd_didion_marquez]
  simp only [except_bind_ok, ed_didion_marquez]

/-- One scanning step of `find_max_contrast_pair`, at the pair (didion, kafka). -/
theorem step_didion_kafka (rest : List (String × String)) (d : ℚ)
    (pr : Option (String × String)) :
    max_contrast_fold (("didion", "kafka") :: rest) d pr =
      if (8602 : ℚ) / 10 ^ 4 > d then
        max_contrast_fold rest (8602 / 10 ^ 4) (some ("didion", "kafka"))
      else max_contrast_fold rest d pr := by
  rw [max_contrast_fold, cd_didion_kafka]
  simp only [except_bind_ok, ed_didion_kafka]

/-- One scanning step of `find_max_contrast_pair`, at the pair (didion, shonagon). -/
theorem step_didion_shonagon (rest : List (String × String)) (d : ℚ)
    (pr : Option (String × String)) :
    max_contrast_fold (("didion", "shonagon") :: rest) d pr =
      if (6185 : ℚ) / 10 ^ 4 > d then
        max_contrast_fold rest (6185 / 10 ^ 4) (some ("didion", "shonagon"))
      else max_contrast_fold rest d pr := by
  rw [max_contrast_fold, cd_didion_shonagon]
  simp only [except_bind_ok, ed_didion_shonagon]

/-- One scanning step of `find_max_contrast_pair`, at the pair (didion, lispector). -/
theorem step_didion_lispector (rest : List (String × String)) (d : ℚ)
    (pr : Option (String × String)) :
    max_contrast_fold (("didion", "lispector") :: rest) d pr =
      if (8000 : ℚ) / 10 ^ 4 > d then
        max_contrast_fold rest (8000 / 10 ^ 4) (some ("didion", "lispector"))
      else max_contrast_fold rest d pr := by
  rw [max_contrast_fold, cd_didion_lispector]
  simp only [except_bind_ok, ed_didion_lispector]

/-- One scanning step of `find_max_contrast_pair`, at the pair (lovecraft, borges). -/
theorem step_lovecraft_borges (rest : List (String × String)) (d : ℚ)
    (pr : Option (String × String)) :
    max_contrast_fold (("lovecraft", "borges") :: rest) d pr =
      if (4770 : ℚ) / 10 ^ 4 > d then
        max_contrast_fold rest (4770 / 10 ^ 4) (some ("lovecraft", "borges"))
      else max_contrast_fold rest d pr := by
  rw [max_contrast_fold, cd_lovecraft_borges]
  simp only [except_bind_ok, ed_lovecraft_borges]

/-- One scanning step of `find_max_contrast_pair`, at the pair (lovecraft, murakami). -/
theorem step_lovecraft_murakami (rest : List (String × String)) (d : ℚ)
    (pr : Option (String × String)) :
    max_contrast_fold (("lovecraft", "murakami") :: rest) d pr =
      if (14142 : ℚ) / 10 ^ 4 > d then
        max_contrast_fold rest (14142 / 10 ^ 4) (some ("lovecraft", "murakami"))
      else max_contrast_fold rest d pr := by
  rw [max_contrast_fold, cd_lovecraft_murakami]
  simp only [except_bind_ok, ed_lovecraft_murakami]

/-- One scanning step of `find_max_contrast_pair`, at the pair (lovecraft, marquez). -/
theorem step_lovecraft_marquez (rest : List (String × String)) (d : ℚ)
    (pr : Option (String × String)) :
    max_contrast_fold (("lovecraft", "marquez") :: rest) d pr =
      if (5268 : ℚ) / 10 ^ 4 > d then
        max_contrast_fold rest (5268 / 10 ^ 4) (some ("lovecraft", "marquez"))
      else max_contrast_fold rest d pr := by
  rw [max_contrast_fold, cd_lovecraft_marquez]
  simp only [except_bind_ok, ed_lovecraft_marquez]

/-- One scanning step of `find_max_contrast_pair`, at the pair (lovecraft, kafka). -/
theorem step_lovecraft_kafka (rest : List (String × String)) (d : ℚ)
    (pr : Option (String × String)) :
    max_contrast_fold (("lovecraft", "kafka") :: rest) d pr =
      if (12021 : ℚ) / 10 ^ 4 > d then
        max_contrast_fold rest (12021 / 10 ^ 4) (some ("lovecraft", "kafka"))
      else max_contrast_fold rest d pr := by
  rw [max_contrast_fold, cd_lovecraft_kafka]
  simp only [except_bind_ok, ed_lovecraft_kafka]

/-- One scanning step of `find_max_contrast_pair`, at the pair (lovecraft, shonagon). -/
theorem step_lovecraft_shonagon (rest : List (String × String)) (d : ℚ)
    (pr : Option (String × String)) :
    max_contrast_fold (("lovecraft", "shonagon") :: rest) d pr =
      if (16439 : ℚ) / 10 ^ 4 > d then
        max_contrast_fold rest (16439 / 10 ^ 4) (some ("lovecraft", "shonagon"))
      else max_contrast_fold rest d pr := by
  rw [max_contrast_fold, cd_lovecraft_shonagon]
  simp only [except_bind_ok, ed_lovecraft_shonagon]

/-- One scanning step of `find_max_contrast_pair`, at the pair (lovecraft, lispector). -/
theorem step_lovecraft_lispector (rest : List (String × String)) (d : ℚ)
    (pr : Option (String × String)) :
    max_contrast_fold (("lovecraft", "lispector") :: rest) d pr =
      if (8000 : ℚ) / 10 ^ 4 > d then
        max_contrast_fold rest (8000 / 10 ^ 4) (some ("lovecraft", "lispector"))
      else max_contrast_fold rest d pr := by
  rw [max_contrast_fold, cd_lovecraft_lispector]
  simp only [except_bind_ok, ed_lovecraft_lispector]

/-- One scanning step of `find_max_contrast_pair`, at the pair (borges, murakami). -/
theorem step_borges_murakami (rest : List (String × String)) (d : ℚ)
    (pr : Option (String × String)) :
    max_contrast_fold (("borges", "murakami") :: rest) d pr =
      if (12379 : ℚ) / 10 ^ 4 > d then
        max_contrast_fold rest (12379 / 10 ^ 4) (some ("borges", "murakami"))
      else max_contrast_fold rest d pr := by
  rw [max_contrast_fold, cd_borges_murakami]
  simp only [except_bind_ok, ed_borges_murakami]

/-- One scanning step of `find_max_contrast_pair`, at the pair (borges, marquez). -/
theorem step_borges_marquez (rest : List (String × String)) (d : ℚ)
    (pr : Option (String × String)) :
    max_contrast_fold (("borges", "marquez") :: rest) d pr =
      if (8426 : ℚ) / 10 ^ 4 > d then
        max_contrast_fold rest (8426 / 10 ^ 4) (some ("borges", "marquez"))
      else max_contrast_fold rest d pr := by
  rw [max_contrast_fold, cd_borges_marquez]
  simp only [except_bind_ok, ed_borges_marquez]

/-- One scanning step of `find_max_contrast_pair`, at the pair (borges, kafka). -/
theorem step_borges_kafka (rest : List (String × String)) (d : ℚ)
    (pr : Option (String × String)) :
    max_contrast_fold (("borges", "kafka") :: rest) d pr =
      if (9474 : ℚ) / 10 ^ 4 > d then
        max_contrast_fold rest (9474 / 10 ^ 4) (some ("borges", "kafka"))
      else max_contrast_fold rest d pr := by
  rw [max_contrast_fold, cd_borges_kafka]
  simp only [except_bind_ok, ed_borges_kafka]

/-- One scanning step of `find_max_contrast_pair`, at the pair (borges, shonagon). -/
theorem step_borges_shonagon (rest : List (String × String)) (d : ℚ)
    (pr : Option (String × String)) :
    max_contrast_fold (("borges", "shonagon") :: rest) d pr =
      if (15620 : ℚ) / 10 ^ 4 > d then
        max_contrast_fold rest (15620 / 10 ^ 4) (some ("borges", "shonagon"))
      else max_contrast_fold rest d pr := by
  rw [max_contrast_fold, cd_borges_shonagon]
  simp only [except_bind_ok, ed_borges_shonagon]

/-- One scanning step of `find_max_contrast_pair`, at the pair (borges, lispector). -/
theorem step_borges_lispector (rest : List (String × String)) (d : ℚ)
    (pr : Option (String × String)) :
    max_contrast_fold (("borges", "lispector") :: rest) d pr =
      if (7500 : ℚ) / 10 ^ 4 > d then
        max_contrast_fold rest (7500 / 10 ^ 4) (some ("borges", "lispector"))
      else max_contrast_fold rest d pr := by
  rw [max_contrast_fold, cd_borges_lispector]
  simp only [except_bind_ok, ed_borges_lispector]

/-- One scanning step of `find_max_contrast_pair`, at the pair (murakami, marquez). -/
theorem step_murakami_marquez (rest : List (String × String)) (d : ℚ)
    (pr : Option (String × String)) :
    max_contrast_fold (("murakami", "marquez") :: rest) d pr =
      if (13481 : ℚ) / 10 ^ 4 > d then
        max_contrast_fold rest (13481 / 10 ^ 4) (some ("murakami", "marquez"))
      else max_contrast_fold rest d pr := by
  rw [max_contrast_fold, cd_murakami_marquez]
  simp only [except_bind_ok, ed_murakami_marquez]

/-- One scanning step of `find_max_contrast_pair`, at the pair (murakami, kafka). -/
theorem step_murakami_kafka (rest : List (String × String)) (d : ℚ)
    (pr : Option (String × String)) :
    max_contrast_fold (("murakami", "kafka") :: rest) d pr =
      if (6708 : ℚ) / 10 ^ 4 > d then
        max_contrast_fold rest (6708 / 10 ^ 4) (some ("murakami", "kafka"))
      else max_contrast_fold rest d pr := by
  rw [max_contrast_fold, cd_murakami_kafka]
  simp only [except_bind_ok, ed_murakami_kafka]

/-- One scanning step of `find_max_contrast_pair`, at the pair (murakami, shonagon). -/
theorem step_murakami_shonagon (rest : List (String × String)) (d : ℚ)
    (pr : Option (String × String)) :
    max_contrast_fold (("murakami", "shonagon") :: rest) d pr =
      if (7297 : ℚ) / 10 ^ 4 > d then
        max_contrast_fold rest (7297 / 10 ^ 4) (some ("murakami", "shonagon"))
      else max_contrast_fold rest d pr := by
  rw [max_contrast_fold, cd_murakami_shonagon]
  simp only [except_bind_ok, ed_murakami_shonagon]

/-- One scanning step of `find_max_contrast_pair`, at the pair (murakami, lispector). -/
theorem step_murakami_lispector (rest : List (String × String)) (d : ℚ)
    (pr : Option (String × String)) :
    max_contrast_fold (("murakami", "lispector") :: rest) d pr =
      if (9138 : ℚ) / 10 ^ 4 > d then
        max_contrast_fold rest (9138 / 10 ^ 4) (some ("murakami", "lispector"))
      else max_contrast_fold rest d pr := by
  rw [max_contrast_fold, cd_murakami_lispector]
  simp only [except_bind_ok, ed_murakami_lispector]

/-- One scanning step of `find_max_contrast_pair`, at the pair (marquez, kafka). -/
theorem step_marquez_kafka (rest : List (String × String)) (d : ℚ)
    (pr : Option (String × String)) :
    max_contrast_fold (("marquez", "kafka") :: rest) d pr =
      if (12298 : ℚ) / 10 ^ 4 > d then
        max_contrast_fold rest (12298 / 10 ^ 4) (some ("marquez", "kafka"))
      else max_contrast_fold rest d pr := by
  rw [max_contrast_fold, cd_marquez_kafka]
  simp only [except_bind_ok, ed_marquez_kafka]

/-- One scanning step of `find_max_contrast_pair`, at the pair (marquez, shonagon). -/
theorem step_marquez_shonagon (rest : List (String × String)) (d : ℚ)
    (pr : Option (String × String)) :
    max_contrast_fold (("marquez", "shonagon") :: rest) d pr =
      if (15264 : ℚ) / 10 ^ 4 > d then
        max_contrast_fold rest (15264 / 10 ^ 4) (some ("marquez", "shonagon"))
      else max_contrast_fold rest d pr := by
  rw [max_contrast_fold, cd_marquez_shonagon]
  simp only [except_bind_ok, ed_marquez_shonagon]

/-- One scanning step of `find_max_contrast_pair`, at the pair (marquez, lispector). -/
theorem step_marquez_lispector (rest : List (String × String)) (d : ℚ)
    (pr : Option (String × String)) :
    max_contrast_fold (("marquez", "lispector") :: rest) d pr =
      if (9124 : ℚ) / 10 ^ 4 > d then
        max_contrast_fold rest (9124 / 10 ^ 4) (some ("marquez", "lispector"))
      else max_contrast_fold rest d pr := by
  rw [max_contrast_fold, cd_marquez_lispector]
  simp only [except_bind_ok, ed_marquez_lispector]

/-- One scanning step of `find_max_contrast_pair`, at the pair (kafka, shonagon). -/
theorem step_kafka_shonagon (rest : List (String × String)) (d : ℚ)
    (pr : Option (String × String)) :
    max_contrast_fold (("kafka", "shonagon") :: rest) d pr =
      if (11057 : ℚ) / 10 ^ 4 > d then
        max_contrast_fold rest (11057 / 10 ^ 4) (some ("kafka", "shonagon"))
      else max_contrast_fold rest d pr := by
  rw [max_contrast_fold, cd_kafka_shonagon]
  simp only [except_bind_ok, ed_kafka_shonagon]

/-- One scanning step of `find_max_contrast_pair`, at the pair (kafka, lispector). -/
theorem step_kafka_lispector (rest : List (String × String)) (d : ℚ)
    (pr : Option (String × String)) :
    max_contrast_fold (("kafka", "lispector") :: rest) d pr =
      if (9220 : ℚ) / 10 ^ 4 > d then
        max_contrast_fold rest (9220 / 10 ^ 4) (some ("kafka", "lispector"))
      else max_contrast_fold rest d pr := by
  rw [max_contrast_fold, cd_kafka_lispector]
  simp only [except_bind_ok, ed_kafka_lispector]

/-- One scanning step of `find_max_contrast_pair`, at the pair (shonagon, lispector). -/
theorem step_shonagon_lispector (rest : List (String × String)) (d : ℚ)
    (pr : Option (String × String)) :
    max_contrast_fold (("shonagon", "lispector") :: rest) d pr =
      if (9605 : ℚ) / 10 ^ 4 > d then
        max_contrast_fold rest (9605 / 10 ^ 4) (some ("shonagon", "lispector"))
      else max_contrast_fold rest d pr := by
  rw [max_contrast_fold, cd_shonagon_lispector]
  simp only [except_bind_ok, ed_shonagon_lispector]

/-- The 55 ordered catalog pairs scanned by `find_max_contrast_pair`. -/
theorem ordered_pairs_eval :
    ordered_pairs author_ids =
      [("hemingway", "de_sade"),
      ("hemingway", "le_guin"),
      ("hemingway", "didion"),
      ("hemingway", "lovecraft"),
      ("hemingway", "borges"),
      ("hemingway", "murakami"),
      ("hemingway", "marquez"),
      ("hemingway", "kafka"),
      ("hemingway", "shonagon"),
      ("hemingway", "lispector"),
      ("de_sade", "le_guin"),
      ("de_sade", "didion"),
      ("de_sade", "lovecraft"),
      ("de_sade", "borges"),
      ("de_sade", "murakami"),
      ("de_sade", "marquez"),
      ("de_sade", "kafka"),
      ("de_sade", "shonagon"),
      ("de_sade", "lispector"),
      ("le_guin", "didion"),
      ("le_guin", "lovecraft"),
      ("le_guin", "borges"),
      ("le_guin", "murakami"),
      ("le_guin", "marquez"),
      ("le_guin", "kafka"),
      ("le_guin", "shonagon"),
      ("le_guin", "lispector"),
      ("didion", "lovecraft"),
      ("didion", "borges"),
      ("didion", "murakami"),
      ("didion", "marquez"),
      ("didion", "kafka"),
      ("didion", "shonagon"),
      ("didion", "lispector"),
      ("lovecraft", "borges"),
      ("lovecraft", "murakami"),
      ("lovecraft", "marquez"),
      ("lovecraft", "kafka"),
      ("lovecraft", "shonagon"),
      ("lovecraft", "lispector"),
      ("borges", "murakami"),
      ("borges", "marquez"),
      ("borges", "kafka"),
      ("borges", "shonagon"),
      ("borges", "lispector"),
      ("murakami", "marquez"),
      ("murakami", "kafka"),
      ("murakami", "shonagon"),
      ("murakami", "lispector"),
      ("marquez", "kafka"),
      ("marquez", "shonagon"),
      ("marquez", "lispector"),
      ("kafka", "shonagon"),
      ("kafka", "lispector"),
      ("shonagon", "lispector")] := by
  simp [ordered_pairs, author_ids, AUTHOR_CATALOG]

/-- Claim C6: `find_max_contrast_pair` returns the distance report of the
pair (hemingway, lovecraft), and that pair strictly dominates each of the
other 54 catalog pairs in unweighted squared distance — hence in unweighted
Euclidean distance, since the square root is strictly monotone — so it is the
unique maximum and the tie-breaking clause (first pair in catalog order,
outer index then inner) is vacuously satisfied. -/
theorem max_contrast_pair_correct :
    (find_max_contrast_pair = compute_style_distance "hemingway" "lovecraft" false) ∧
    (∀ pr ∈ ordered_pairs author_ids, pr ≠ ("hemingway", "lovecraft") →
      sum_sq (coordinates_of pr.1) (coordinates_of pr.2) false <
        sum_sq (coordinates_of "hemingway") (coordinates_of "lovecraft") false) := by
  constructor
  · rw [find_max_contrast_pair, ordered_pairs_eval]
    rw [step_hemingway_de_sade, if_pos (by norm_num)]
    rw [step_hemingway_le_guin, if_neg (by norm_num)]
    rw [step_hemingway_didion, if_neg (by norm_num)]
    rw [step_hemingway_lovecraft, if_pos (by norm_num)]
    rw [step_hemingway_borges, if_neg (by norm_num)]
    rw [step_hemingway_murakami, if_neg (by norm_num)]
    rw [step_hemingway_marquez, if_neg (by norm_num)]
    rw [step_hemingway_kafka, if_neg (by norm_num)]
    rw [step_hemingway_shonagon, if_neg (by norm_num)]
    rw [step_hemingway_lispector, if_neg (by norm_num)]
    rw [step_de_sade_le_guin, if_neg (by norm_num)]
    rw [step_de_sade_didion, if_neg (by norm_num)]
    rw [step_de_sade_lovecraft, if_neg (by norm_num)]
    rw [step_de_sade_borges, if_neg (by norm_num)]
    rw [step_de_sade_murakami, if_neg (by norm_num)]
    rw [step_de_sade_marquez, if_neg (by norm_num)]
    rw [step_de_sade_kafka, if_neg (by norm_num)]
    rw [step_de_sade_shonagon, if_neg (by norm_num)]
    rw [step_de_sade_lispector, if_neg (by norm_num)]
    rw [step_le_guin_didion, if_neg (by norm_num)]
    rw [step_le_guin_lovecraft, if_neg (by norm_num)]
    rw [step_le_guin_borges, if_neg (by norm_num)]
    rw [step_le_guin_murakami, if_neg (by norm_num)]
    rw [step_le_guin_marquez, if_neg (by norm_num)]
    rw [step_le_guin_kafka, if_neg (by norm_num)]
    rw [step_le_guin_shonagon, if_neg (by norm_num)]
    rw [step_le_guin_lispector, if_neg (by norm_num)]
    rw [step_didion_lovecraft, if_neg (by norm_num)]
    rw [step_didion_borges, if_neg (by norm_num)]
    rw [step_didion_murakami, if_neg (by norm_num)]
    rw [step_didion_marquez, if_neg (by norm_num)]
    rw [step_didion_kafka, if_neg (by norm_num)]
    rw [step_didion_shonagon, if_neg (by norm_num)]
    rw [step_didion_lispector, if_neg (by norm_num)]
    rw [step_lovecraft_borges, if_neg (by norm_num)]
    rw [step_lovecraft_murakami, if_neg (by norm_num)]
    rw [step_lovecraft_marquez, if_neg (by norm_num)]
    rw [step_lovecraft_kafka, if_neg (by norm_num)]
    rw [step_lovecraft_shonagon, if_neg (by norm_num)]
    rw [step_lovecraft_lispector, if_neg (by norm_num)]
    rw [step_borges_murakami, if_neg (by norm_num)]
    rw [step_borges_marquez, if_neg (by norm_num)]
    rw [step_borges_kafka, if_neg (by norm_num)]
    rw [step_borges_shonagon, if_neg (by norm_num)]
    rw [step_borges_lispector, if_neg (by norm_num)]
    rw [step_murakami_marquez, if_neg (by norm_num)]
    rw [step_murakami_kafka, if_neg (by norm_num)]
    rw [step_murakami_shonagon, if_neg (by norm_num)]
    rw [step_murakami_lispector, if_neg (by norm_num)]
    rw [step_marquez_kafka, if_neg (by norm_num)]
    rw [step_marquez_shonagon, if_neg (by norm_num)]
    rw [step_marquez_lispector, if_neg (by norm_num)]
    rw [step_kafka_shonagon, if_neg (by norm_num)]
    rw [step_kafka_lispector, if_neg (by norm_num)]
    rw [step_shonagon_lispector, if_neg (by norm_num)]
    rfl
  · intro pr hpr hne
    rw [ordered_pairs_eval] at hpr
    fin_cases hpr
    · norm_num [co_hemingway, co_de_sade, co_lovecraft, ss_hemingway_de_sade, ss_hemingway_lovecraft]
    · norm_num [co_hemingway, co_le_guin, co_lovecraft, ss_hemingway_le_guin, ss_hemingway_lovecraft]
    · norm_num [co_hemingway, co_didion, co_lovecraft, ss_hemingway_didion, ss_hemingway_lovecraft]
    · exact absurd rfl hne
    · norm_num [co_hemingway, co_borges, co_lovecraft, ss_hemingway_borges, ss_hemingway_lovecraft]
    · norm_num [co_hemingway, co_murakami, co_lovecraft, ss_hemingway_murakami, ss_hemingway_lovecraft]
    · norm_num [co_hemingway, co_marquez, co_lovecraft, ss_hemingway_marquez, ss_hemingway_lovecraft]
    · norm_num [co_hemingway, co_kafka, co_lovecraft, ss_hemingway_kafka, ss_hemingway_lovecraft]
    · norm_num [co_hemingway, co_shonagon, co_lovecraft, ss_hemingway_shonagon, ss_hemingway_lovecraft]
    · norm_num [co_hemingway, co_lispector, co_lovecraft, ss_hemingway_lispector, ss_hemingway_lovecraft]
    · norm_num [co_de_sade, co_le_guin, co_hemingway, co_lovecraft, ss_de_sade_le_guin, ss_hemingway_lovecraft]
    · norm_num [co_de_sade, co_didion, co_hemingway, co_lovecraft, ss_de_sade_didion, ss_hemingway_lovecraft]
    · norm_num [co_de_sade, co_lovecraft, co_hemingway, ss_de_sade_lovecraft, ss_hemingway_lovecraft]
    · norm_num [co_de_sade, co_borges, co_hemingway, co_lovecraft, ss_de_sade_borges, ss_hemingway_lovecraft]
    · norm_num [co_de_sade, co_murakami, co_hemingway, co_lovecraft, ss_de_sade_murakami, ss_hemingway_lovecraft]
    · norm_num [co_de_sade, co_marquez, co_hemingway, co_lovecraft, ss_de_sade_marquez, ss_hemingway_lovecraft]
    · norm_num [co_de_sade, co_kafka, co_hemingway, co_lovecraft, ss_de_sade_kafka, ss_hemingway_lovecraft]
    · norm_num [co_de_sade, co_shonagon, co_hemingway, co_lovecraft, ss_de_sade_shonagon, ss_hemingway_lovecraft]
    · norm_num [co_de_sade, co_lispector, co_hemingway, co_lovecraft, ss_de_sade_lispector, ss_hemingway_lovecraft]
    · norm_num [co_le_guin, co_didion, co_hemingway, co_lovecraft, ss_le_guin_didion, ss_hemingway_lovecraft]
    · norm_num [co_le_guin, co_lovecraft, co_hemingway, ss_le_guin_lovecraft, ss_hemingway_lovecraft]
    · norm_num [co_le_guin, co_borges, co_hemingway, co_lovecraft, ss_le_guin_borges, ss_hemingway_lovecraft]
    · norm_num [co_le_guin, co_murakami, co_hemingway, co_lovecraft, ss_le_guin_murakami, ss_hemingway_lovecraft]
    · norm_num [co_le_guin, co_marquez, co_hemingway, co_lovecraft, ss_le_guin_marquez, ss_hemingway_lovecraft]
    · norm_num [co_le_guin, co_kafka, co_hemingway, co_lovecraft, ss_le_guin_kafka, ss_hemingway_lovecraft]
    · norm_num [co_le_guin, co_shonagon, co_hemingway, co_lovecraft, ss_le_guin_shonagon, ss_hemingway_lovecraft]
    · norm_num [co_le_guin, co_lispector, co_hemingway, co_lovecraft, ss_le_guin_lispector, ss_hemingway_lovecraft]
    · norm_num [co_didion, co_lovecraft, co_hemingway, ss_didion_lovecraft, ss_hemingway_lovecraft]
    · norm_num [co_didion, co_borges, co_hemingway, co_lovecraft, ss_didion_borges, ss_hemingway_lovecraft]
    · norm_num [co_didion, co_murakami, co_hemingway, co_lovecraft, ss_didion_murakami, ss_hemingway_lovecraft]
    · norm_num [co_didion, co_marquez, co_hemingway, co_lovecraft, ss_didion_marquez, ss_hemingway_lovecraft]
    · norm_num [co_didion, co_kafka, co_hemingway, co_lovecraft, ss_didion_kafka, ss_hemingway_lovecraft]
    · norm_num [co_didion, co_shonagon, co_hemingway, co_lovecraft, ss_didion_shonagon, ss_hemingway_lovecraft]
    · norm_num [co_didion, co_lispector, co_hemingway, co_lovecraft, ss_didion_lispector, ss_hemingway_lovecraft]
    · norm_num [co_lovecraft, co_borges, co_hemingway, ss_lovecraft_borges, ss_hemingway_lovecraft]
    · norm_num [co_lovecraft, co_murakami, co_hemingway, ss_lovecraft_murakami, ss_hemingway_lovecraft]
    · norm_num [co_lovecraft, co_marquez, co_hemingway, ss_lovecraft_marquez, ss_hemingway_lovecraft]
    · norm_num [co_lovecraft, co_kafka, co_hemingway, ss_lovecraft_kafka, ss_hemingway_lovecraft]
    · norm_num [co_lovecraft, co_shonagon, co_hemingway, ss_lovecraft_shonagon, ss_hemingway_lovecraft]
    · norm_num [co_lovecraft, co_lispector, co_hemingway, ss_lovecraft_lispector, ss_hemingway_lovecraft]
    · norm_num [co_borges, co_murakami, co_hemingway, co_lovecraft, ss_borges_murakami, ss_hemingway_lovecraft]
    · norm_num [co_borges, co_marquez, co_hemingway, co_lovecraft, ss_borges_marquez, ss_hemingway_lovecraft]
    · norm_num [co_borges, co_kafka, co_hemingway, co_lovecraft, ss_borges_kafka, ss_hemingway_lovecraft]
    · norm_num [co_borges, co_shonagon, co_hemingway, co_lovecraft, ss_borges_shonagon, ss_hemingway_lovecraft]
    · norm_num [co_borges, co_lispector, co_hemingway, co_lovecraft, ss_borges_lispector, ss_hemingway_lovecraft]
    · norm_num [co_murakami, co_marquez, co_hemingway, co_lovecraft, ss_murakami_marquez, ss_hemingway_lovecraft]
    · norm_num [co_murakami, co_kafka, co_hemingway, co_lovecraft, ss_murakami_kafka, ss_hemingway_lovecraft]
    · norm_num [co_murakami, co_shonagon, co_hemingway, co_lovecraft, ss_murakami_shonagon, ss_hemingway_lovecraft]
    · norm_num [co_murakami, co_lispector, co_hemingway, co_lovecraft, ss_murakami_lispector, ss_hemingway_lovecraft]
    · norm_num [co_marquez, co_kafka, co_hemingway, co_lovecraft, ss_marquez_kafka, ss_hemingway_lovecraft]
    · norm_num [co_marquez, co_shonagon, co_hemingway, co_lovecraft, ss_marquez_shonagon, ss_hemingway_lovecraft]
    · norm_num [co_marquez, co_lispector, co_hemingway, co_lovecraft, ss_marquez_lispector, ss_hemingway_lovecraft]
    · norm_num [co_kafka, co_shonagon, co_hemingway, co_lovecraft, ss_kafka_shonagon, ss_hemingway_lovecraft]
    · norm_num [co_kafka, co_lispector, co_hemingway, co_lovecraft, ss_kafka_lispector, ss_hemingway_lovecraft]
    · norm_num [co_shonagon, co_lispector, co_hemingway, co_lovecraft, ss_shonagon_lispector, ss_hemingway_lovecraft]

/-- Witness for the dominance part of C6 at the pair (hemingway, de_sade). -/
theorem max_contrast_pair_correct_witness :
    (("hemingway", "de_sade") ∈ ordered_pairs author_ids ∧
      ("hemingway", "de_sade") ≠ ("hemingway", "lovecraft")) ∧
    sum_sq (coordinates_of "hemingway") (coordinates_of "de_sade") false <
      sum_sq (coordinates_of "hemingway") (coordinates_of "lovecraft") false :=
  ⟨⟨by rw [ordered_pairs_eval]; simp, by simp⟩,
   max_contrast_pair_correct.2 ("hemingway", "de_sade")
     (by rw [ordered_pairs_eval]; simp) (by simp)⟩

/-- Witness for C3 at the blend `hemingway: 0.5, borges: 0.5` on
`syntactic_density` (stored values 0.1 and 0.8). -/
theorem blend_convexity_witness :
    ((∀ kv ∈ [("hemingway", (0.5 : ℚ)), ("borges", 0.5)], 0 ≤ kv.2) ∧
      (0 : ℚ) < sum_weights [("hemingway", 0.5), ("borges", 0.5)] ∧
      (contrib_coords [("hemingway", 0.5), ("borges", 0.5)]
          Param.syntactic_density).min? = some 0.1 ∧
      (contrib_coords [("hemingway", 0.5), ("borges", 0.5)]
          Param.syntactic_density).max? = some 0.8) ∧
    ∃ r, interpolate_styles [("hemingway", 0.5), ("borges", 0.5)] = .ok r ∧
      (0.1 : ℚ) ≤ r.coordinates Param.syntactic_density ∧
      r.coordinates Param.syntactic_density ≤ 0.8 := by
  have h1 : ∀ kv ∈ [("hemingway", (0.5 : ℚ)), ("borges", 0.5)], 0 ≤ kv.2 := by
    intro kv hkv
    fin_cases hkv <;> norm_num
  have h2 : (0 : ℚ) < sum_weights [("hemingway", 0.5), ("borges", 0.5)] := by
    norm_num [sum_weights]
  have hc : contrib_coords [("hemingway", (0.5 : ℚ)), ("borges", 0.5)]
      Param.syntactic_density = [0.1, 0.8] := by
    simp [contrib_coords, lookup_author, assoc_lookup, AUTHOR_CATALOG,
      hemingway_entry, borges_entry]
  have h3 : (contrib_coords [("hemingway", (0.5 : ℚ)), ("borges", 0.5)]
      Param.syntactic_density).min? = some 0.1 := by
    rw [hc]
    norm_num [List.min?, List.foldl_cons, List.foldl_nil, min_def]
  have h4 : (contrib_coords [("hemingway", (0.5 : ℚ)), ("borges", 0.5)]
      Param.syntactic_density).max? = some 0.8 := by
    rw [hc]
    norm_num [List.max?, List.foldl_cons, List.foldl_nil, max_def]
  exact ⟨⟨h1, h2, h3, h4⟩,
    blend_convexity [("hemingway", 0.5), ("borges", 0.5)] Param.syntactic_density
      0.1 0.8 h1 h2
      (by simp [lookup_author, assoc_lookup, AUTHOR_CATALOG]) h3 h4⟩

end AuthorStyle
